import Mathlib

/-!
# Landslide monitor: alarm latch, telemetry cache, durable store and upload path

Shallow embedding of these parts of the firmware:

* the latch section of `EvaluateRisk` (`landslide_monitor_main.c`), which turns the
  raw risk level of a tick into the confirmed level;
* the in-memory telemetry cache of `iot_cloud.c` (`DataCache_Add`,
  `DataCache_SendPending`, `DataCache_Clear`);
* the risk factors, the score and the raw level of `EvaluateRisk`, with every `float`
  the rational number it denotes and every operation rounded to binary32;
* the durable store of `data_storage.c` (`DataStorage_Store`, `DataStorage_Read`,
  `DataStorage_Clear`, `DataStorage_ProcessCached`);
* the upload path: `DataCache_Init`, `IoTCloud_SendData` and the upload step of
  `AlarmTask`;
* the confidence `EvaluateRisk` attaches to an assessment, over rational numbers;
* the statements of the tasks that touch the latch and the system state: the reset
  check of `AlarmTask`, the loop of `DataProcessingTask`, the periodic evaluation of
  `RiskEvaluationTask`, and the path of a sample through the two;
* the connection bookkeeping of `iot_cloud.c`: `check_wifi_connected`,
  `mqtt_is_connected`, `ConnectionStatus_Update` and `ConnectionStatus_IsStable`.

Machine integers are natural numbers; where a `uint32_t` can wrap the model reduces
modulo `2 ^ 32` explicitly.
-/

namespace LandslideMonitor

/-! ## Risk levels (`landslide_monitor.h`) -/

/-- The enumeration `RiskLevel` of `landslide_monitor.h`. -/
inductive RiskLevel where
  | RISK_LEVEL_SAFE
  | RISK_LEVEL_LOW
  | RISK_LEVEL_MEDIUM
  | RISK_LEVEL_HIGH
  | RISK_LEVEL_CRITICAL
deriving DecidableEq, Repr

namespace RiskLevel

/-- The integer value of an enumerator (`RISK_LEVEL_SAFE = 0` up to
`RISK_LEVEL_CRITICAL = 4`); C compares risk levels through these values. -/
def toNat : RiskLevel → Nat
  | RISK_LEVEL_SAFE => 0
  | RISK_LEVEL_LOW => 1
  | RISK_LEVEL_MEDIUM => 2
  | RISK_LEVEL_HIGH => 3
  | RISK_LEVEL_CRITICAL => 4

instance : LE RiskLevel := ⟨fun a b => a.toNat ≤ b.toNat⟩

instance : LT RiskLevel := ⟨fun a b => a.toNat < b.toNat⟩

instance (a b : RiskLevel) : Decidable (a ≤ b) :=
  inferInstanceAs (Decidable (a.toNat ≤ b.toNat))

instance (a b : RiskLevel) : Decidable (a < b) :=
  inferInstanceAs (Decidable (a.toNat < b.toNat))

end RiskLevel

open RiskLevel

/-! ## The alarm latch (`EvaluateRisk`, lines 1307-1367) -/

/-- The width of `uint32_t`. -/
def UINT32_MOD : Nat := 4294967296

/-- The variables the latch section of `EvaluateRisk` reads and writes: the file-level
statics `confirmed_level`, `max_triggered_level`, `manual_reset_required`, the global
`g_alarm_acknowledged` and the function-level static `level_start_time`. -/
structure LatchState where
  confirmed_level : RiskLevel
  max_triggered_level : RiskLevel
  manual_reset_required : Bool
  g_alarm_acknowledged : Bool
  level_start_time : Nat
deriving DecidableEq, Repr

/-- The values the C initialisers give the latch variables. -/
def LatchState.init : LatchState :=
  { confirmed_level := RISK_LEVEL_SAFE
    max_triggered_level := RISK_LEVEL_SAFE
    manual_reset_required := false
    g_alarm_acknowledged := false
    level_start_time := 0 }

/-- The latch section of `EvaluateRisk` (lines 1325-1367). `raw_level` is the level the
function has just derived from the score and `tick` the value of `LOS_TickCountGet()`,
which the assignment to `uint32_t current_time` truncates. -/
def EvaluateRisk (s : LatchState) (raw_level : RiskLevel) (tick : Nat) : LatchState :=
  let current_time := tick % UINT32_MOD
  if RISK_LEVEL_MEDIUM ≤ raw_level then
    { confirmed_level := raw_level
      max_triggered_level :=
        if s.max_triggered_level < raw_level then raw_level else s.max_triggered_level
      manual_reset_required := true
      g_alarm_acknowledged := false
      level_start_time := current_time }
  else if s.manual_reset_required then
    if s.g_alarm_acknowledged then
      { s with
        confirmed_level := RISK_LEVEL_SAFE
        max_triggered_level := RISK_LEVEL_SAFE
        manual_reset_required := false
        g_alarm_acknowledged := false }
    else
      { s with confirmed_level := s.max_triggered_level }
  else if raw_level ≠ s.confirmed_level then
    if s.level_start_time = 0 then
      { s with level_start_time := current_time }
    else if 3000 ≤ (current_time + UINT32_MOD - s.level_start_time) % UINT32_MOD then
      { s with confirmed_level := raw_level, level_start_time := current_time }
    else
      s
  else
    { s with level_start_time := current_time }

/-- The reset command handler `IoTCloud_HandleResetCommand` of `iot_cloud.c` (and
`set_alarm_reset`): it only raises the acknowledgment flag. -/
def IoTCloud_HandleResetCommand (s : LatchState) : LatchState :=
  { s with g_alarm_acknowledged := true }

/-- What can happen to the latch: a risk-evaluation tick with its raw level and tick
count, or an acknowledgment command arriving between two ticks. -/
inductive LatchEvent where
  | tick (raw_level : RiskLevel) (time : Nat)
  | ack
deriving DecidableEq, Repr

/-- The effect of one event on the latch. -/
def LatchEvent.apply (s : LatchState) : LatchEvent → LatchState
  | .tick raw_level time => EvaluateRisk s raw_level time
  | .ack => IoTCloud_HandleResetCommand s

/-- The latch state after a sequence of events. -/
def runEvents (s : LatchState) (es : List LatchEvent) : LatchState :=
  es.foldl LatchEvent.apply s

/-- The raw level of the most recent tick of an event sequence, if it has a tick. -/
def lastRaw : List LatchEvent → Option RiskLevel
  | [] => none
  | .tick raw_level _ :: es =>
    match lastRaw es with
    | some r => some r
    | none => some raw_level
  | .ack :: es => lastRaw es

/-- The confirmed level after each event of a sequence. -/
def levelTrace (s : LatchState) : List LatchEvent → List RiskLevel
  | [] => []
  | e :: es => (e.apply s).confirmed_level :: levelTrace (e.apply s) es

/-- The events of a run of ticks, given as pairs of raw level and tick count. -/
def ticksOf (ticks : List (RiskLevel × Nat)) : List LatchEvent :=
  ticks.map (fun p => LatchEvent.tick p.1 p.2)

/-- The events of a run of ticks that all carry the raw level `raw_level`. -/
def holdOf (raw_level : RiskLevel) (times : List Nat) : List LatchEvent :=
  times.map (fun t => LatchEvent.tick raw_level t)

/-- The earliest time of the run of ticks with raw level `r` that starts the list
`earlier` (latest tick first); `t` is the time of the tick that follows the list. -/
def runStart (r : RiskLevel) (t : Nat) : List (RiskLevel × Nat) → Nat
  | [] => t
  | p :: earlier => if p.1 = r then runStart r p.2 earlier else t

/-- The span of time over which the raw level of the last tick has been observed
without interruption, in a run of ticks listed oldest first. -/
def observedFor (ticks : List (RiskLevel × Nat)) : Nat :=
  match ticks.reverse with
  | [] => 0
  | p :: earlier => p.2 - runStart p.1 p.2 earlier

/-- A run of ticks 200 ms apart, the period `RISK_EVAL_INTERVAL_MS`: Safe at 1000,
then Low at 1200, 1400, and so on up to 4000. -/
def sampledLowRun : List (RiskLevel × Nat) :=
  (RISK_LEVEL_SAFE, 1000) :: (List.range 15).map (fun k => (RISK_LEVEL_LOW, 1200 + 200 * k))

/-- The number of positions of a trace at which the level differs from the one before
it, `start` being the level before the first entry. -/
def transitions (start : RiskLevel) : List RiskLevel → Nat
  | [] => 0
  | l :: ls => (if l = start then 0 else 1) + transitions l ls

/-! ## The telemetry cache (`iot_cloud.h`, `iot_cloud.c` lines 54-286) -/

/-- The macro `MAX_CACHE_SIZE` of `iot_cloud.h`. The cache operations below take the
capacity as the parameter `cap`; the firmware runs them at `cap = MAX_CACHE_SIZE`. -/
def MAX_CACHE_SIZE : Nat := 100

/-- The macro `MAX_RETRY_COUNT` of `iot_cloud.h`. -/
def MAX_RETRY_COUNT : Nat := 3

/-- The struct `CachedDataItem`; `α` stands for the payload type `e_iot_data`. -/
structure CachedDataItem (α : Type) where
  data : α
  timestamp : Nat
  retry_count : Nat
  is_valid : Bool
deriving DecidableEq, Repr

/-- The struct `DataCache`; the array `items` is a map from slot index to item. -/
structure DataCache (α : Type) where
  items : Nat → CachedDataItem α
  head : Nat
  tail : Nat
  count : Nat
  is_full : Bool
  total_cached : Nat
  total_sent : Nat
  total_failed : Nat

/-- The statics `g_data_cache` and `g_cache_initialized`. -/
structure CacheState (α : Type) where
  g_data_cache : DataCache α
  g_cache_initialized : Bool

/-- An item whose bytes are all zero, as `memset` leaves it. -/
def CachedDataItem.zero {α : Type} [Inhabited α] : CachedDataItem α :=
  { data := default, timestamp := 0, retry_count := 0, is_valid := false }

/-- The assignment `items[i] = v`. -/
def setItem {α : Type} (items : Nat → CachedDataItem α) (i : Nat) (v : CachedDataItem α) :
    Nat → CachedDataItem α :=
  fun j => if j = i then v else items j

/-- The state `DataCache_Init` leaves behind (lines 75-87): the cache zeroed and the
initialised flag set. The load from flash that runs in between adds nothing, because
`DataCache_Add` refuses while the flag is still unset (line 101). -/
def CacheState.init {α : Type} [Inhabited α] : CacheState α :=
  { g_data_cache :=
      { items := fun _ => CachedDataItem.zero
        head := 0
        tail := 0
        count := 0
        is_full := false
        total_cached := 0
        total_sent := 0
        total_failed := 0 }
    g_cache_initialized := true }

/-- The body of `DataCache_Add` after its guard (lines 105-121). The decrement of the
`uint16_t count` is guarded by `count >= MAX_CACHE_SIZE` and the increment follows it, so
neither wraps; the `uint32_t` counter and the truncated tick count reduce modulo
`2 ^ 32`. -/
def DataCache_Add_body {α : Type} (cap : Nat) (c : DataCache α) (data : α) (tick : Nat) :
    DataCache α :=
  let c1 : DataCache α :=
    if cap ≤ c.count then { c with head := (c.head + 1) % cap, count := c.count - 1 } else c
  let item : CachedDataItem α :=
    { data := data, timestamp := tick % UINT32_MOD, retry_count := 0, is_valid := true }
  { c1 with
    items := setItem c1.items c1.tail item
    tail := (c1.tail + 1) % cap
    count := c1.count + 1
    total_cached := (c1.total_cached + 1) % UINT32_MOD }

/-- The function `DataCache_Add` (lines 99-127): the new state and the return code. A
null `data` pointer is `none`; `tick` is what `LOS_TickCountGet()` returns. -/
def DataCache_Add {α : Type} (cap : Nat) (st : CacheState α) (data : Option α) (tick : Nat) :
    CacheState α × Int :=
  match data with
  | none => (st, -1)
  | some d =>
    if !st.g_cache_initialized then (st, -1)
    else ({ st with g_data_cache := DataCache_Add_body cap st.g_data_cache d tick }, 0)

/-- The local variables of the loop of `DataCache_SendPending` together with the cache;
`sent` lists the payloads passed to `send_msg_to_mqtt`, oldest first. -/
structure SendState (α : Type) where
  cache : DataCache α
  current_head : Nat
  processed_count : Nat
  sent_count : Nat
  sent : List α

/-- The advance of `head` with the decrement of `count` (lines 162-165, 178-181), taken
when the slot just handled is the head of the queue. -/
def advanceHead {α : Type} (cap : Nat) (c : DataCache α) (current_head : Nat) : DataCache α :=
  if current_head = c.head then
    { c with head := (c.head + 1) % cap, count := c.count - 1 }
  else c

/-- One pass through the body of the `while` loop of `DataCache_SendPending` (lines
147-197): the state after the pass and whether the pass left the loop through `break`.
`conn p` is what `mqtt_is_connected()` answers in the pass whose `processed_count` is
`p`. -/
def sendBody {α : Type} (cap : Nat) (conn : Nat → Bool) (st : SendState α) :
    SendState α × Bool :=
  let item := st.cache.items st.current_head
  if !item.is_valid then
    ({ st with
       current_head := (st.current_head + 1) % cap
       processed_count := st.processed_count + 1 }, false)
  else if MAX_RETRY_COUNT ≤ item.retry_count then
    let c1 : DataCache α :=
      { st.cache with
        items := setItem st.cache.items st.current_head { item with is_valid := false }
        total_failed := (st.cache.total_failed + 1) % UINT32_MOD }
    ({ st with
       cache := advanceHead cap c1 st.current_head
       current_head := (st.current_head + 1) % cap
       processed_count := st.processed_count + 1 }, false)
  else if conn st.processed_count then
    let c1 : DataCache α :=
      { st.cache with
        items := setItem st.cache.items st.current_head { item with is_valid := false }
        total_sent := (st.cache.total_sent + 1) % UINT32_MOD }
    ({ cache := advanceHead cap c1 st.current_head
       current_head := (st.current_head + 1) % cap
       processed_count := st.processed_count + 1
       sent_count := st.sent_count + 1
       sent := st.sent ++ [item.data] }, false)
  else
    ({ st with
       cache :=
         { st.cache with
           items := setItem st.cache.items st.current_head
             { item with retry_count := item.retry_count + 1 } } }, true)

/-- The `while` loop of `DataCache_SendPending` (line 146), with `fuel` bounding the
number of passes. Every pass that stays in the loop raises `processed_count`, which the
guard keeps below 10, so ten passes always suffice (`sendLoop_fuel`). -/
def sendLoop {α : Type} (cap : Nat) (conn : Nat → Bool) : Nat → SendState α → SendState α
  | 0, st => st
  | fuel + 1, st =>
    if st.processed_count < st.cache.count ∧ st.processed_count < 10 then
      if (sendBody cap conn st).2 then (sendBody cap conn st).1
      else sendLoop cap conn fuel (sendBody cap conn st).1
    else st

/-- What a call of `DataCache_SendPending` yields: the new state, the return value
`sent_count` and the payloads passed to the transport, oldest first. -/
structure SendResult (α : Type) where
  state : CacheState α
  sent_count : Nat
  sent : List α

/-- The locals of `DataCache_SendPending` as initialised before its loop (lines
139-141). -/
def SendState.start {α : Type} (c : DataCache α) : SendState α :=
  { cache := c
    current_head := c.head
    processed_count := 0
    sent_count := 0
    sent := [] }

/-- The function `DataCache_SendPending` (lines 133-206). -/
def DataCache_SendPending {α : Type} (cap : Nat) (st : CacheState α) (conn : Nat → Bool) :
    SendResult α :=
  if !st.g_cache_initialized || st.g_data_cache.count == 0 then
    { state := st, sent_count := 0, sent := [] }
  else
    let fin := sendLoop cap conn 10 (SendState.start st.g_data_cache)
    { state := { st with g_data_cache := fin.cache }
      sent_count := fin.sent_count
      sent := fin.sent }

/-- The function `DataCache_Clear` (lines 273-286); the lifetime counters stay. -/
def DataCache_Clear {α : Type} [Inhabited α] (st : CacheState α) : CacheState α :=
  if !st.g_cache_initialized then st
  else
    { st with
      g_data_cache :=
        { st.g_data_cache with
          items := fun _ => CachedDataItem.zero
          head := 0
          tail := 0
          count := 0
          is_full := false } }

/-- The queued items of a cache, oldest first: the `count` slots from `head` on. -/
def queue {α : Type} (cap : Nat) (c : DataCache α) : List (CachedDataItem α) :=
  (List.range c.count).map (fun k => c.items ((c.head + k) % cap))

/-- The payloads of the queued items, oldest first. -/
def queueData {α : Type} (cap : Nat) (c : DataCache α) : List α :=
  (queue cap c).map (fun it => it.data)

/-- A call on the cache: an enqueue with its payload and tick count, a drain with the
answers of `mqtt_is_connected()`, or a clear. -/
inductive CacheOp (α : Type) where
  | add (data : α) (tick : Nat)
  | sendPending (conn : Nat → Bool)
  | clear

/-- A cache state with the history of a run: the payloads enqueued so far and the
payloads passed to the transport so far, both oldest first. -/
structure CacheRun (α : Type) where
  state : CacheState α
  enqueued : List α
  transmitted : List α

/-- The effect of one call on a run. -/
def CacheOp.apply {α : Type} [Inhabited α] (cap : Nat) (r : CacheRun α) :
    CacheOp α → CacheRun α
  | .add data tick =>
    { r with
      state := (DataCache_Add cap r.state (some data) tick).1
      enqueued := r.enqueued ++ [data] }
  | .sendPending conn =>
    { r with
      state := (DataCache_SendPending cap r.state conn).state
      transmitted := r.transmitted ++ (DataCache_SendPending cap r.state conn).sent }
  | .clear => { r with state := DataCache_Clear r.state }

/-- The run that starts from the freshly initialised cache. -/
def CacheRun.init {α : Type} [Inhabited α] : CacheRun α :=
  { state := CacheState.init, enqueued := [], transmitted := [] }

/-- The run that starts from the cache state `st` with an empty history. -/
def CacheRun.start {α : Type} (st : CacheState α) : CacheRun α :=
  { state := st, enqueued := [], transmitted := [] }

/-- The run after a sequence of calls. -/
def runOps {α : Type} [Inhabited α] (cap : Nat) (r : CacheRun α) (ops : List (CacheOp α)) :
    CacheRun α :=
  ops.foldl (CacheOp.apply cap) r

/-- The well-formedness of a cache that every reachable state has: the indices are in
range, `tail` is `count` slots after `head`, every queued item is valid, and only the
oldest queued item can have been retried. -/
def CacheWF {α : Type} (cap : Nat) (c : DataCache α) : Prop :=
  c.head < cap ∧ c.count ≤ cap ∧ c.tail = (c.head + c.count) % cap ∧
    (∀ k, k < c.count → (c.items ((c.head + k) % cap)).is_valid = true) ∧
    (∀ k, 0 < k → k < c.count → (c.items ((c.head + k) % cap)).retry_count = 0)

/-! ## Risk factors and raw level (`EvaluateRisk`, lines 1233-1323)

The `float` quantities of the firmware are the rational numbers they denote. A decimal
constant `c` of the source is the binary32 number `f32 c` nearest to it, and every
product and every sum of two floats is rounded to binary32 with `f32`, to nearest with
ties to even, each operation on its own (a product is rounded before it is added);
comparisons are exact. -/

/-- The quotient `a / b` of two natural numbers rounded to the nearest integer, a tie to
the even one. -/
def roundDivEven (a b : Nat) : Nat :=
  if 2 * (a % b) < b then a / b
  else if b < 2 * (a % b) then a / b + 1
  else if (a / b) % 2 = 0 then a / b else a / b + 1

/-- The largest `e` below 512 with `2 ^ e ≤ x`, found by bisection; 0 when `x` is 0. -/
def log2Bisect (x : Nat) : Nat :=
  [256, 128, 64, 32, 16, 8, 4, 2, 1].foldl
    (fun acc k => if 2 ^ (acc + k) ≤ x then acc + k else acc) 0

/-- The binary32 number nearest to the non-negative rational `n / d`. With `e` the
binary exponent of `n / d`, at least -126 (below it the subnormal spacing applies), the
value is rounded to a multiple of `2 ^ (e - 23)`, which leaves 24 significant bits; the
exponent is carried as `L = e + 200`. Overflow is not modelled: the arithmetic of
`EvaluateRisk` stays below 4. -/
def f32mag (n d : Nat) : ℚ :=
  mkRat
    (roundDivEven (n * 2 ^ 223) (d * 2 ^ (max (log2Bisect (n * 2 ^ 200 / d)) 74)) *
      2 ^ (max (log2Bisect (n * 2 ^ 200 / d)) 74))
    (2 ^ 223)

/-- The binary32 number nearest to `q`, ties to even: what a `float` holds after a
decimal constant is read or a product or sum is rounded. -/
def f32 (q : ℚ) : ℚ :=
  if q.num < 0 then -f32mag q.num.natAbs q.den else f32mag q.num.natAbs q.den

/-- The struct `ProcessedData` of `landslide_monitor.h`. -/
structure ProcessedData where
  accel_magnitude : ℚ
  accel_change_rate : ℚ
  angle_magnitude : ℚ
  angle_change_rate : ℚ
  humidity_trend : ℚ
  light_change_rate : ℚ
  vibration_intensity : ℚ
  timestamp : Nat

/-- The processed data `memset` leaves: every field zero. -/
def ProcessedData.zero : ProcessedData :=
  { accel_magnitude := 0
    accel_change_rate := 0
    angle_magnitude := 0
    angle_change_rate := 0
    humidity_trend := 0
    light_change_rate := 0
    vibration_intensity := 0
    timestamp := 0 }

/-- The function `ProcessSensorData` (lines 1141-1222) as far as the validity of the
sample decides its result: an invalid sample zeroes the processed data (lines
1150-1153); for a valid sample `computed` stands for what the function computes from
the sample and its history. -/
def ProcessSensorData (data_valid : Bool) (computed : ProcessedData) : ProcessedData :=
  if !data_valid then ProcessedData.zero else computed

/-- The enumeration `DeformationRisk` of `gps_deformation.h`. -/
inductive DeformationRisk where
  | DEFORM_RISK_SAFE
  | DEFORM_RISK_LOW
  | DEFORM_RISK_MEDIUM
  | DEFORM_RISK_HIGH
  | DEFORM_RISK_CRITICAL
deriving DecidableEq, Repr

/-- The tilt factor (lines 1236-1245). -/
def EvaluateRisk_tilt_risk (angle_magnitude : ℚ) : ℚ :=
  if angle_magnitude > 20 then 1
  else if angle_magnitude > 15 then f32 0.8
  else if angle_magnitude > 10 then f32 0.6
  else if angle_magnitude > 5 then f32 0.3
  else 0

/-- The vibration factor (lines 1249-1258). -/
def EvaluateRisk_vibration_risk (vibration_intensity : ℚ) : ℚ :=
  if vibration_intensity > 100 then 1
  else if vibration_intensity > 50 then f32 0.7
  else if vibration_intensity > 20 then f32 0.4
  else if vibration_intensity > 10 then f32 0.2
  else 0

/-- The humidity factor (lines 1263-1275): the score of the humidity level, the bonus
for a fast rise, added in binary32, and the clamp to 1. -/
def EvaluateRisk_humidity_risk (humidity humidity_trend : ℚ) : ℚ :=
  let level : ℚ :=
    if humidity > 90 then f32 0.8
    else if humidity > 80 then f32 0.6
    else if humidity > 70 then f32 0.3
    else 0
  let risen : ℚ := if humidity_trend > 10 then f32 (level + f32 0.3) else level
  if risen > 1 then 1 else risen

/-- The light factor (lines 1279-1282). -/
def EvaluateRisk_light_risk (light_change_rate : ℚ) : ℚ :=
  if light_change_rate > 1000 then f32 0.5 else 0

/-- The deformation factor (lines 1286-1304). -/
def EvaluateRisk_gps_deform_risk : DeformationRisk → ℚ
  | .DEFORM_RISK_CRITICAL => 1
  | .DEFORM_RISK_HIGH => f32 0.8
  | .DEFORM_RISK_MEDIUM => f32 0.6
  | .DEFORM_RISK_LOW => f32 0.3
  | .DEFORM_RISK_SAFE => 0

/-- The five factor fields of the struct `RiskAssessment`. -/
structure RiskFactors where
  tilt_risk : ℚ
  vibration_risk : ℚ
  humidity_risk : ℚ
  light_risk : ℚ
  gps_deform_risk : ℚ
deriving DecidableEq

/-- The factors `EvaluateRisk` writes (lines 1235-1305): `humidity` is the humidity of
`g_latest_sensor_data` and `deform_risk` what `GPS_Deformation_GetRiskLevel()` returns. -/
def EvaluateRisk_factors (processed : ProcessedData) (humidity : ℚ)
    (deform_risk : DeformationRisk) : RiskFactors :=
  { tilt_risk := EvaluateRisk_tilt_risk processed.angle_magnitude
    vibration_risk := EvaluateRisk_vibration_risk processed.vibration_intensity
    humidity_risk := EvaluateRisk_humidity_risk humidity processed.humidity_trend
    light_risk := EvaluateRisk_light_risk processed.light_change_rate
    gps_deform_risk := EvaluateRisk_gps_deform_risk deform_risk }

/-- The `float` accumulation of five weighted terms, each product and each sum rounded
to binary32, in the order of the source. -/
def accumulate_score (tilt vibration humidity light deformation : ℚ) : ℚ :=
  f32 (f32 (f32 (f32 (f32 (0 + f32 (tilt * f32 0.4)) + f32 (vibration * f32 0.3)) +
    f32 (humidity * f32 0.2)) + f32 (light * f32 0.05)) + f32 (deformation * f32 0.25))

/-- The accumulation of `total_risk_score` (lines 1233, 1246, 1259, 1276, 1283, 1305). -/
def total_risk_score (f : RiskFactors) : ℚ :=
  accumulate_score f.tilt_risk f.vibration_risk f.humidity_risk f.light_risk
    f.gps_deform_risk

/-- The raw level of a score (lines 1313-1323); the thresholds are the `float`
constants `0.8f`, `0.6f`, `0.4f` and `0.2f`. -/
def raw_level_of_score (total_risk_score : ℚ) : RiskLevel :=
  if total_risk_score ≥ f32 0.8 then RISK_LEVEL_CRITICAL
  else if total_risk_score ≥ f32 0.6 then RISK_LEVEL_HIGH
  else if total_risk_score ≥ f32 0.4 then RISK_LEVEL_MEDIUM
  else if total_risk_score ≥ f32 0.2 then RISK_LEVEL_LOW
  else RISK_LEVEL_SAFE

/-- The weighted sum as the specification words it, in exact arithmetic:
`0.4·tilt + 0.3·vibration + 0.2·humidity + 0.05·light + 0.25·deformation`. -/
def specScore (tilt vibration humidity light deformation : ℚ) : ℚ :=
  0.4 * tilt + 0.3 * vibration + 0.2 * humidity + 0.05 * light + 0.25 * deformation

/-- The threshold classification as the specification words it: at least 0.8 is
Critical, at least 0.6 High, at least 0.4 Medium, at least 0.2 Low, anything else
Safe. -/
def specLevel (score : ℚ) : RiskLevel :=
  if 0.8 ≤ score then RISK_LEVEL_CRITICAL
  else if 0.6 ≤ score then RISK_LEVEL_HIGH
  else if 0.4 ≤ score then RISK_LEVEL_MEDIUM
  else if 0.2 ≤ score then RISK_LEVEL_LOW
  else RISK_LEVEL_SAFE

/-- The triples of tilt, vibration and humidity factor that, with the light factor
`0.5f` and the deformation factor `0.3f`, have the nominal weighted sum 0.6 or 0.8, a
threshold which the binary32 accumulation misses from below. -/
def shortfallFactors : List (ℚ × ℚ × ℚ) :=
  [(0, 1, 1), (f32 0.6, f32 0.2, 1), (f32 0.8, 0, f32 (f32 0.6 + f32 0.3)),
   (f32 0.8, f32 0.2, f32 0.6), (f32 0.8, f32 0.4, f32 0.3),
   (1, f32 0.4, f32 (f32 0.6 + f32 0.3))]

/-- The agreement of the binary32 classification of five factor values with the exact
one: equal levels, except for the shortfall combinations, where the firmware is one
level lower. -/
def floatMatchesSpec (t v h l g : ℚ) : Prop :=
  if (t, v, h) ∈ shortfallFactors ∧ l = f32 0.5 ∧ g = f32 0.3 then
    (raw_level_of_score (accumulate_score t v h l g)).toNat + 1 =
      (specLevel (specScore t v h l g)).toNat
  else raw_level_of_score (accumulate_score t v h l g) = specLevel (specScore t v h l g)

instance (t v h l g : ℚ) : Decidable (floatMatchesSpec t v h l g) := by
  unfold floatMatchesSpec
  infer_instance

/-- The level and the factors of the struct `RiskAssessment`, the part of an assessment
that the risk rules decide. -/
structure RiskAssessment where
  level : RiskLevel
  factors : RiskFactors

/-- The function `EvaluateRisk` from the factors to the assignment of the level (lines
1233-1370): the factors, the score, the raw level, the latch, and the assessment that
reports the confirmed level. -/
def EvaluateRisk_assess (s : LatchState) (processed : ProcessedData) (humidity : ℚ)
    (deform_risk : DeformationRisk) (tick : Nat) : LatchState × RiskAssessment :=
  let factors := EvaluateRisk_factors processed humidity deform_risk
  let raw_level := raw_level_of_score (total_risk_score factors)
  let s2 := EvaluateRisk s raw_level tick
  (s2, { level := s2.confirmed_level, factors := factors })

/-- The processed data of a sample whose tilt magnitude is `angle` degrees and whose
other metrics are zero. -/
def tiltedSample (angle : ℚ) : ProcessedData :=
  { ProcessedData.zero with angle_magnitude := angle }

/-! ## The durable store (`data_storage.h`, `data_storage.c`)

The payload `LandslideIotData` is its byte image, a list of bytes. The flash is a map
from record index to the record image stored at `GetRecordAddress index`; the block
driver (`IoTFlashRead`, `IoTFlashWrite`, `IoTFlashErase`) stores what is written,
returns what is stored, and reports success or failure as `FlashHal` says. -/

/-- The macro `STORAGE_FLASH_BASE_ADDR`. -/
def STORAGE_FLASH_BASE_ADDR : Nat := 0x200000

/-- The macro `STORAGE_SECTOR_SIZE`. -/
def STORAGE_SECTOR_SIZE : Nat := 4096

/-- The macro `STORAGE_MAX_RECORDS`. -/
def STORAGE_MAX_RECORDS : Nat := 100

/-- The macro `STORAGE_RECORD_SIZE`. -/
def STORAGE_RECORD_SIZE : Nat := 256

/-- The macro `STORAGE_TOTAL_SIZE`. -/
def STORAGE_TOTAL_SIZE : Nat := STORAGE_MAX_RECORDS * STORAGE_RECORD_SIZE

/-- The macro `STORAGE_MAGIC_NUMBER` of `data_storage.c`. -/
def STORAGE_MAGIC_NUMBER : Nat := 0x12345678

/-- The width of `uint16_t`. -/
def UINT16_MOD : Nat := 65536

/-- The struct `StorageHeader`. -/
structure StorageHeader where
  magic : Nat
  timestamp : Nat
  data_size : Nat
  checksum : Nat
deriving DecidableEq, Repr

/-- The struct `StorageRecord`; the reserved bytes, always zero, are left out. -/
structure StorageRecord where
  header : StorageHeader
  data : List Nat
deriving DecidableEq, Repr

/-- The image of an erased slot: every header bit set, so the magic number does not
match; the payload bytes of such a slot are never looked at. -/
def StorageRecord.erased : StorageRecord :=
  { header :=
      { magic := 0xFFFFFFFF, timestamp := 0xFFFFFFFF, data_size := 0xFFFF, checksum := 0xFFFF }
    data := [] }

/-- The enumeration `StorageState`. -/
inductive StorageState where
  | STORAGE_STATE_UNINITIALIZED
  | STORAGE_STATE_READY
  | STORAGE_STATE_FULL
  | STORAGE_STATE_ERROR
deriving DecidableEq, Repr

/-- The struct `StorageStats`. -/
structure StorageStats where
  total_records : Nat
  stored_records : Nat
  uploaded_records : Nat
  failed_records : Nat
  state : StorageState
deriving DecidableEq, Repr

/-- The struct `StorageManager` of `data_storage.c`. -/
structure StorageManager where
  initialized : Bool
  current_index : Nat
  record_count : Nat
  stats : StorageStats
deriving DecidableEq, Repr

/-- The static `g_storage_mgr` together with the flash it manages. -/
structure Storage where
  mgr : StorageManager
  flash : Nat → StorageRecord

/-- Whether the block driver reports success, by address: for a read, a write, and the
erase of a sector. -/
structure FlashHal where
  readOk : Nat → Bool
  writeOk : Nat → Bool
  eraseOk : Nat → Bool

/-- The block driver that never fails. -/
def FlashHal.ideal : FlashHal :=
  { readOk := fun _ => true, writeOk := fun _ => true, eraseOk := fun _ => true }

/-- The function `CalculateChecksum` (lines 25-32) on the bytes it is given: the sum
in a `uint16_t`. -/
def CalculateChecksum (data : List Nat) : Nat :=
  data.foldl (fun checksum b => (checksum + b) % UINT16_MOD) 0

/-- The function `GetRecordAddress` (lines 37-40); every caller passes an index below
`STORAGE_MAX_RECORDS`, so the `uint32_t` arithmetic does not wrap. -/
def GetRecordAddress (index : Nat) : Nat :=
  STORAGE_FLASH_BASE_ADDR + index * STORAGE_RECORD_SIZE

/-- The effect of `IoTFlashErase(sector_addr, STORAGE_SECTOR_SIZE)`: every record slot
whose address lies in the sector is erased. -/
def flashErase (flash : Nat → StorageRecord) (sector_addr : Nat) : Nat → StorageRecord :=
  fun j =>
    if sector_addr ≤ GetRecordAddress j ∧
        GetRecordAddress j < sector_addr + STORAGE_SECTOR_SIZE then
      StorageRecord.erased
    else flash j

/-- The effect of `IoTFlashWrite` of a record image at `GetRecordAddress index`. -/
def flashWrite (flash : Nat → StorageRecord) (index : Nat) (record : StorageRecord) :
    Nat → StorageRecord :=
  fun j => if j = index then record else flash j

/-- One pass of the scan of `DataStorage_Init` (lines 63-73) for index `i`. -/
def initScanStep (hal : FlashHal) (flash : Nat → StorageRecord) (mgr : StorageManager)
    (i : Nat) : StorageManager :=
  if hal.readOk (GetRecordAddress i) then
    if (flash i).header.magic = STORAGE_MAGIC_NUMBER then
      { mgr with
        record_count := (mgr.record_count + 1) % UINT32_MOD
        current_index :=
          if 0 < (flash i).header.timestamp then (i + 1) % STORAGE_MAX_RECORDS
          else mgr.current_index }
    else mgr
  else mgr

/-- The function `DataStorage_Init` (lines 45-84): `flash_init_ok` is whether
`IoTFlashInit()` succeeds. -/
def DataStorage_Init (hal : FlashHal) (flash_init_ok : Bool) (st : Storage) : Storage × Int :=
  if !flash_init_ok then (st, -1)
  else
    let zeroed : StorageManager :=
      { initialized := true
        current_index := 0
        record_count := 0
        stats :=
          { total_records := 0, stored_records := 0, uploaded_records := 0,
            failed_records := 0, state := .STORAGE_STATE_UNINITIALIZED } }
    let scanned := (List.range STORAGE_MAX_RECORDS).foldl (initScanStep hal st.flash) zeroed
    ({ st with
       mgr :=
         { scanned with
           stats :=
             { total_records := STORAGE_MAX_RECORDS
               stored_records := scanned.record_count
               uploaded_records := 0
               failed_records := 0
               state := .STORAGE_STATE_READY } } }, 0)

/-- The static `g_storage_mgr` before `DataStorage_Init`, all zero, on a flash whose
slots are all erased. -/
def Storage.blank : Storage :=
  { mgr :=
      { initialized := false
        current_index := 0
        record_count := 0
        stats :=
          { total_records := 0, stored_records := 0, uploaded_records := 0,
            failed_records := 0, state := .STORAGE_STATE_UNINITIALIZED } }
    flash := fun _ => StorageRecord.erased }

/-- The function `DataStorage_Store` (lines 101-150): the new store and the return
code. A null `data` pointer is `none`; `tick` is what `LOS_TickCountGet()` returns. -/
def DataStorage_Store (hal : FlashHal) (st : Storage) (data : Option (List Nat)) (tick : Nat) :
    Storage × Int :=
  match data with
  | none => (st, -1)
  | some d =>
    if !st.mgr.initialized then (st, -1)
    else
      let record : StorageRecord :=
        { header :=
            { magic := STORAGE_MAGIC_NUMBER
              timestamp := tick % UINT32_MOD
              data_size := d.length % UINT16_MOD
              checksum := CalculateChecksum d }
          data := d }
      let addr := GetRecordAddress st.mgr.current_index
      let failed : StorageManager :=
        { st.mgr with
          stats :=
            { st.mgr.stats with
              failed_records := (st.mgr.stats.failed_records + 1) % UINT32_MOD } }
      let needErase : Bool :=
        st.mgr.current_index % (STORAGE_SECTOR_SIZE / STORAGE_RECORD_SIZE) == 0
      let sector_addr := addr - addr % STORAGE_SECTOR_SIZE
      if needErase && !hal.eraseOk sector_addr then
        ({ st with mgr := failed }, -1)
      else
        let flash1 := if needErase then flashErase st.flash sector_addr else st.flash
        if !hal.writeOk addr then
          ({ mgr := failed, flash := flash1 }, -1)
        else
          ({ mgr :=
               { st.mgr with
                 current_index := (st.mgr.current_index + 1) % STORAGE_MAX_RECORDS
                 record_count :=
                   if st.mgr.record_count < STORAGE_MAX_RECORDS then st.mgr.record_count + 1
                   else st.mgr.record_count
                 stats :=
                   { st.mgr.stats with
                     stored_records := (st.mgr.stats.stored_records + 1) % UINT32_MOD } }
             flash := flashWrite flash1 st.mgr.current_index record }, 0)

/-- The function `DataStorage_Read` (lines 155-185): `some d` is the return value 0
with the payload `d` copied out, `none` the return value -1. The callers pass a non-null
`data` pointer. -/
def DataStorage_Read (hal : FlashHal) (st : Storage) (index : Nat) : Option (List Nat) :=
  if !st.mgr.initialized || decide (STORAGE_MAX_RECORDS ≤ index) then none
  else if !hal.readOk (GetRecordAddress index) then none
  else if (st.flash index).header.magic ≠ STORAGE_MAGIC_NUMBER then none
  else if CalculateChecksum (st.flash index).data ≠ (st.flash index).header.checksum then none
  else some (st.flash index).data

/-- The sector addresses the loop of `DataStorage_Clear` visits (lines 207-209). -/
def clearSectorAddrs : List Nat :=
  (List.range ((STORAGE_TOTAL_SIZE + STORAGE_SECTOR_SIZE - 1) / STORAGE_SECTOR_SIZE)).map
    (fun k => STORAGE_FLASH_BASE_ADDR + k * STORAGE_SECTOR_SIZE)

/-- The erase loop of `DataStorage_Clear` over the sectors still to visit: the flash
after the loop and whether every erase succeeded. -/
def clearSectors (hal : FlashHal) (flash : Nat → StorageRecord) :
    List Nat → (Nat → StorageRecord) × Bool
  | [] => (flash, true)
  | addr :: rest =>
    if !hal.eraseOk addr then (flash, false)
    else clearSectors hal (flashErase flash addr) rest

/-- The function `DataStorage_Clear` (lines 198-225). -/
def DataStorage_Clear (hal : FlashHal) (st : Storage) : Storage × Int :=
  if !st.mgr.initialized then (st, -1)
  else if !(clearSectors hal st.flash clearSectorAddrs).2 then
    ({ st with flash := (clearSectors hal st.flash clearSectorAddrs).1 }, -1)
  else
    ({ mgr :=
         { st.mgr with
           current_index := 0
           record_count := 0
           stats :=
             { st.mgr.stats with
               stored_records := 0
               uploaded_records := 0
               failed_records := 0 } }
       flash := (clearSectors hal st.flash clearSectorAddrs).1 }, 0)

/-- The locals of the scan of `DataStorage_ProcessCached`, with the state `σ` the
callback works on and the payloads handed to the callback, in order. -/
structure ScanState (σ : Type) where
  cb_state : σ
  processed_count : Nat
  failed_count : Nat
  handed : List (List Nat)

/-- One pass of the loop of `DataStorage_ProcessCached` (lines 268-280) for index `i`. -/
def scanStep {σ : Type} (hal : FlashHal) (st : Storage) (callback : σ → List Nat → σ × Int)
    (sc : ScanState σ) (i : Nat) : ScanState σ :=
  match DataStorage_Read hal st i with
  | some d =>
    if (callback sc.cb_state d).2 = 0 then
      { cb_state := (callback sc.cb_state d).1
        processed_count := sc.processed_count + 1
        failed_count := sc.failed_count
        handed := sc.handed ++ [d] }
    else
      { cb_state := (callback sc.cb_state d).1
        processed_count := sc.processed_count
        failed_count := sc.failed_count + 1
        handed := sc.handed ++ [d] }
  | none => { sc with failed_count := sc.failed_count + 1 }

/-- The loop of `DataStorage_ProcessCached` (lines 267-281) over the indices below
`record_count`. -/
def scanAll {σ : Type} (hal : FlashHal) (st : Storage) (callback : σ → List Nat → σ × Int)
    (cs : σ) : ScanState σ :=
  (List.range st.mgr.record_count).foldl (scanStep hal st callback)
    { cb_state := cs, processed_count := 0, failed_count := 0, handed := [] }

/-- What a call of `DataStorage_ProcessCached` yields: the store, the state of the
callback, the return value and the payloads handed to the callback. -/
structure ProcessResult (σ : Type) where
  storage : Storage
  cb_state : σ
  processed_count : Nat
  handed : List (List Nat)

/-- The function `DataStorage_ProcessCached` (lines 253-296). A null callback is
`none`. -/
def DataStorage_ProcessCached {σ : Type} (hal : FlashHal) (st : Storage)
    (callback : Option (σ → List Nat → σ × Int)) (cs : σ) : ProcessResult σ :=
  match callback with
  | none => { storage := st, cb_state := cs, processed_count := 0, handed := [] }
  | some cb =>
    if !st.mgr.initialized then
      { storage := st, cb_state := cs, processed_count := 0, handed := [] }
    else
      let sc := scanAll hal st cb cs
      let storage2 : Storage :=
        if 0 < sc.failed_count ∧ sc.processed_count = 0 then (DataStorage_Clear hal st).1
        else if 0 < sc.processed_count ∧ sc.processed_count = st.mgr.record_count then
          (DataStorage_Clear hal st).1
        else st
      { storage := storage2
        cb_state := sc.cb_state
        processed_count := sc.processed_count
        handed := sc.handed }

/-- The slot `index` of a flash with bit `bit` of byte `pos` of its payload flipped. -/
def flipPayloadBit (flash : Nat → StorageRecord) (index pos bit : Nat) : Nat → StorageRecord :=
  fun j =>
    if j = index then
      { flash j with data := (flash j).data.set pos (((flash j).data.getD pos 0) ^^^ (2 ^ bit)) }
    else flash j

/-- The store after `DataStorage_Init` on an erased flash with a driver that never
fails. -/
def Storage.fresh : Storage :=
  (DataStorage_Init FlashHal.ideal true Storage.blank).1

/-- A store with two records, the payloads `[1, 2, 3]` and `[4, 5, 6]` stored in that
order into the fresh store, in which the lowest bit of the first byte of the second
payload has then been flipped. -/
def corruptedStore : Storage :=
  { (DataStorage_Store FlashHal.ideal
      (DataStorage_Store FlashHal.ideal Storage.fresh (some [1, 2, 3]) 10).1
      (some [4, 5, 6]) 20).1 with
    flash := flipPayloadBit
      (DataStorage_Store FlashHal.ideal
        (DataStorage_Store FlashHal.ideal Storage.fresh (some [1, 2, 3]) 10).1
        (some [4, 5, 6]) 20).1.flash 1 0 0 }

/-- A callback that accepts every record and counts the records it was given. -/
def acceptAll (n : Nat) (_ : List Nat) : Nat × Int := (n + 1, 0)

/-! ## The upload path (`iot_cloud.c`, `AlarmTask`) -/

/-- What a call of `send_msg_to_mqtt` does on the wire and to `mqttConnectFlag`; the
function itself returns nothing to its caller. -/
structure PublishOutcome where
  published : Bool
  mqttConnectFlag : Bool
deriving DecidableEq, Repr

/-- The function `send_msg_to_mqtt` (lines 1619-1708): `wifi_connected` is the answer
of `check_wifi_connected()` and `publish_ok` whether `MQTTPublish` returns 0. -/
def send_msg_to_mqtt (wifi_connected mqttConnectFlag publish_ok : Bool) : PublishOutcome :=
  if !wifi_connected then { published := false, mqttConnectFlag := false }
  else if !mqttConnectFlag then { published := false, mqttConnectFlag := mqttConnectFlag }
  else if !publish_ok then { published := false, mqttConnectFlag := false }
  else { published := true, mqttConnectFlag := mqttConnectFlag }

/-- The cache with every byte zero, as `memset` leaves it. -/
def DataCache.zero {α : Type} [Inhabited α] : DataCache α :=
  { items := fun _ => CachedDataItem.zero
    head := 0
    tail := 0
    count := 0
    is_full := false
    total_cached := 0
    total_sent := 0
    total_failed := 0 }

/-- The state the upload path works on: the cache with its initialised flag, the
durable store, and the two fields of `g_connection_status` that `IoTCloud_SendData`
writes. -/
structure IotState (α : Type) where
  cache : CacheState α
  storage : Storage
  last_data_send_time : Nat
  network_error_count : Nat

/-- The function `FlashDataLoadCallback` (lines 225-237) for a non-null record:
`convert` is `convert_landslide_to_iot_data`. -/
def FlashDataLoadCallback {α : Type} (cap : Nat) (convert : List Nat → α) (tick : Nat)
    (cs : CacheState α) (data : List Nat) : CacheState α × Int :=
  DataCache_Add cap cs (some (convert data)) tick

/-- The function `DataCache_LoadFromFlash` (lines 243-257): the new state and the
number of records loaded. -/
def DataCache_LoadFromFlash {α : Type} (cap : Nat) (convert : List Nat → α) (hal : FlashHal)
    (st : IotState α) (tick : Nat) : IotState α × Nat :=
  ({ st with
     cache := (DataStorage_ProcessCached hal st.storage
       (some (FlashDataLoadCallback cap convert tick)) st.cache).cb_state
     storage := (DataStorage_ProcessCached hal st.storage
       (some (FlashDataLoadCallback cap convert tick)) st.cache).storage },
   (DataStorage_ProcessCached hal st.storage
     (some (FlashDataLoadCallback cap convert tick)) st.cache).processed_count)

/-- The function `DataCache_Init` (lines 68-92): the initialised flag is set only after
the load from flash. -/
def DataCache_Init {α : Type} [Inhabited α] (cap : Nat) (convert : List Nat → α)
    (hal : FlashHal) (st : IotState α) (tick : Nat) : IotState α × Int :=
  if st.cache.g_cache_initialized then (st, 0)
  else
    let zeroed : IotState α :=
      { st with
        cache := { g_data_cache := DataCache.zero, g_cache_initialized := false }
        last_data_send_time := 0
        network_error_count := 0 }
    let loaded := (DataCache_LoadFromFlash cap convert hal zeroed tick).1
    ({ loaded with cache := { loaded.cache with g_cache_initialized := true } }, 0)

/-- What a call of `IoTCloud_SendData` yields: the new state, the return code and the
payloads passed to `send_msg_to_mqtt`, in order. -/
structure SendDataResult (α : Type) where
  state : IotState α
  ret : Int
  sent : List α

/-- The function `IoTCloud_SendData` (lines 1444-1543). `stable` is the value of
`ConnectionStatus_IsStable() && mqttConnectFlag` after `ConnectionStatus_Update()`, and
`conn` answers `mqtt_is_connected()` inside `DataCache_SendPending`. The test
`count > MAX_CACHE_SIZE * 0.8` is `8 * cap < 10 * count`. -/
def IoTCloud_SendData {α : Type} [Inhabited α] (cap : Nat) (convert : List Nat → α)
    (hal : FlashHal) (st : IotState α) (data : Option (List Nat)) (stable : Bool)
    (conn : Nat → Bool) (tick : Nat) : SendDataResult α :=
  match data with
  | none => { state := st, ret := -1, sent := [] }
  | some d =>
    let st1 : IotState α :=
      if !st.cache.g_cache_initialized then (DataCache_Init cap convert hal st tick).1 else st
    let iot_data := convert d
    if stable then
      let pending := DataCache_SendPending cap st1.cache conn
      { state :=
          { st1 with
            cache :=
              { pending.state with
                g_data_cache :=
                  { pending.state.g_data_cache with
                    total_sent := (pending.state.g_data_cache.total_sent + 1) % UINT32_MOD } }
            last_data_send_time := tick % UINT32_MOD }
        ret := 0
        sent := pending.sent ++ [iot_data] }
    else
      let added := DataCache_Add cap st1.cache (some iot_data) tick
      if added.2 = 0 then
        let storage2 : Storage :=
          if 8 * cap < 10 * added.1.g_data_cache.count then
            (DataStorage_Store hal st1.storage (some d) tick).1
          else st1.storage
        { state := { st1 with cache := added.1, storage := storage2 }, ret := 0, sent := [] }
      else
        let stored := DataStorage_Store hal st1.storage (some d) tick
        if stored.2 = 0 then
          { state := { st1 with cache := added.1, storage := stored.1 }, ret := 0, sent := [] }
        else
          { state :=
              { st1 with
                cache := added.1
                storage := stored.1
                network_error_count := (st1.network_error_count + 1) % UINT32_MOD }
            ret := -1
            sent := [] }

/-- The state of the upload path once `DataStorage_Init` and `DataCache_Init` have run
on an erased flash. -/
def IotState.ready {α : Type} [Inhabited α] : IotState α :=
  { cache := CacheState.init
    storage := Storage.fresh
    last_data_send_time := 0
    network_error_count := 0 }

/-- The ready state after the 80 payloads `[0]`, `[1]`, and so on up to `[79]` have been
enqueued at the capacity of the firmware. -/
def backlogState : IotState (List Nat) :=
  { (IotState.ready : IotState (List Nat)) with
    cache := (runOps MAX_CACHE_SIZE CacheRun.init
      ((List.range 80).map (fun k => CacheOp.add [k] k))).state }

/-- A callback that rejects every record and counts the records it was given. -/
def rejectAll (n : Nat) (_ : List Nat) : Nat × Int := (n + 1, -1)

/-! ## The confidence of an assessment (`EvaluateRisk`, lines 1391-1467)

The confidence is computed from the latest sensor sample and the tick count. The two
magnitudes the source takes with `sqrtf` are compared through their squares: the square
root is monotone, so `sqrtf(q) >= 0.5` is `q >= 0.25`, and likewise for the other
bounds. -/

/-- The fields of the struct `SensorData` of `landslide_monitor.h` that the confidence
computation reads. -/
structure SensorData where
  accel_x : ℚ
  accel_y : ℚ
  accel_z : ℚ
  gyro_x : ℚ
  gyro_y : ℚ
  gyro_z : ℚ
  angle_x : ℚ
  angle_y : ℚ
  sht_temperature : ℚ
  humidity : ℚ
  light_intensity : ℚ
  data_valid : Bool

/-- The counter `sensor_ok_count` after the five plausibility checks (lines 1400-1428):
temperature, humidity, light, acceleration magnitude and angular rates. -/
def EvaluateRisk_sensor_ok_count (d : SensorData) : Nat :=
  ((((0 + (if -40 ≤ d.sht_temperature ∧ d.sht_temperature ≤ 80 then 1 else 0)) +
      (if 0 ≤ d.humidity ∧ d.humidity ≤ 100 then 1 else 0)) +
      (if 0 ≤ d.light_intensity ∧ d.light_intensity ≤ 100000 then 1 else 0)) +
      (if 0.25 ≤ d.accel_x * d.accel_x + d.accel_y * d.accel_y + d.accel_z * d.accel_z ∧
          d.accel_x * d.accel_x + d.accel_y * d.accel_y + d.accel_z * d.accel_z ≤ 100
        then 1 else 0)) +
      (if |d.gyro_x| ≤ 2000 ∧ |d.gyro_y| ≤ 2000 ∧ |d.gyro_z| ≤ 2000 then 1 else 0)

/-- The variable `consistency_score` (lines 1435-1449): half a point for a tilt magnitude
below 45 degrees, half a point for a temperature and humidity that fit together. -/
def EvaluateRisk_consistency_score (d : SensorData) : ℚ :=
  (0 + (if d.angle_x * d.angle_x + d.angle_y * d.angle_y < 2025 then 0.5 else 0)) +
    (if (d.sht_temperature > 30 ∧ d.humidity < 80) ∨ d.sht_temperature ≤ 30 then 0.5 else 0)

/-- The variable `stability_score` (lines 1455-1463) for the truncated tick count
`current_time`. -/
def EvaluateRisk_stability_score (current_time : Nat) : ℚ :=
  let uptime_seconds := current_time / 1000
  (0 + (if uptime_seconds > 60 then 0.05 else 0)) + (if uptime_seconds > 300 then 0.05 else 0)

/-- The sum `confidence` accumulates before the final clamp (lines 1392-1464). -/
def EvaluateRisk_confidence_sum (d : SensorData) (tick : Nat) : ℚ :=
  (((0 + (if d.data_valid then 0.3 else 0)) +
      ((EvaluateRisk_sensor_ok_count d : ℚ) / 5) * 0.4) +
      EvaluateRisk_consistency_score d * 0.2) +
    EvaluateRisk_stability_score (tick % UINT32_MOD)

/-- The value `EvaluateRisk` writes to `assessment->confidence` (line 1467). -/
def EvaluateRisk_confidence (d : SensorData) (tick : Nat) : ℚ :=
  if EvaluateRisk_confidence_sum d tick > 1 then 1 else EvaluateRisk_confidence_sum d tick

/-! ## The tasks (`landslide_monitor_main.c`, lines 673-760 and 1078-1097) -/

/-- The check for a reset command in a pass of `AlarmTask` (lines 1078-1097), the only
statements of the task that mention the latch variables. -/
def AlarmTask_ack (s : LatchState) : LatchState :=
  if s.g_alarm_acknowledged then
    if s.manual_reset_required ∨ RISK_LEVEL_LOW < s.max_triggered_level then
      { s with
        confirmed_level := RISK_LEVEL_SAFE
        max_triggered_level := RISK_LEVEL_SAFE
        manual_reset_required := false
        g_alarm_acknowledged := false }
    else
      { s with g_alarm_acknowledged := false }
  else s

/-- What the firmware does to the latch: a call of `EvaluateRisk` by the risk-evaluation
task, a reset command, which raises the acknowledgment flag, or a pass of `AlarmTask`. -/
inductive LatchStep where
  | evaluate (raw_level : RiskLevel) (time : Nat)
  | command
  | alarm
deriving DecidableEq, Repr

/-- The effect of one step on the latch. -/
def LatchStep.apply (s : LatchState) : LatchStep → LatchState
  | .evaluate raw_level time => EvaluateRisk s raw_level time
  | .command => IoTCloud_HandleResetCommand s
  | .alarm => AlarmTask_ack s

/-- The latch state after a sequence of steps. -/
def runSteps (s : LatchState) (steps : List LatchStep) : LatchState :=
  steps.foldl LatchStep.apply s

/-- The enumeration `SystemState` of `landslide_monitor.h`. -/
inductive SystemState where
  | SYSTEM_STATE_INIT
  | SYSTEM_STATE_RUNNING
  | SYSTEM_STATE_WARNING
  | SYSTEM_STATE_ERROR
  | SYSTEM_STATE_SHUTDOWN
deriving DecidableEq, Repr

open SystemState

/-- The update of `g_system_state` that ends an evaluation of `RiskEvaluationTask`
(lines 743-750), for the level of the assessment just made. -/
def RiskEvaluationTask_system_state (g_system_state : SystemState) (level : RiskLevel) :
    SystemState :=
  if RISK_LEVEL_HIGH ≤ level then SYSTEM_STATE_WARNING
  else if g_system_state = SYSTEM_STATE_WARNING ∧ level < RISK_LEVEL_MEDIUM then
    SYSTEM_STATE_RUNNING
  else g_system_state

/-- One pass of the loop of `DataProcessingTask` (lines 679-694): `at_guard` is the
value of `g_system_state` the loop guard reads and `after_wait` the value read once
`LOS_SemPend` has returned. The result tells whether the pass refreshes
`g_latest_processed_data` and the loop goes on; otherwise the loop is left. -/
def DataProcessingTask_pass (at_guard after_wait : SystemState) : Bool :=
  if at_guard = SYSTEM_STATE_RUNNING ∨ at_guard = SYSTEM_STATE_WARNING then
    if after_wait ≠ SYSTEM_STATE_RUNNING then false else true
  else false

/-- The loop of `DataProcessingTask` over the values of `g_system_state` its passes
read, a pair per pass: the number of times it refreshes `g_latest_processed_data` and
whether it has left the loop. -/
def DataProcessingTask : List (SystemState × SystemState) → Nat × Bool
  | [] => (0, false)
  | p :: rest =>
    if DataProcessingTask_pass p.1 p.2 then
      ((DataProcessingTask rest).1 + 1, (DataProcessingTask rest).2)
    else (0, true)

/-- The variables through which a sample reaches an assessment: `g_system_state`,
`g_latest_processed_data`, the latch, and the state of `DataProcessingTask`, which is
either waiting on the sensor semaphore, with the value of `g_system_state` its loop
guard read before the wait, or has left its loop (`none`). -/
structure PipelineState where
  g_system_state : SystemState
  g_latest_processed_data : ProcessedData
  latch : LatchState
  data_processing_guard : Option SystemState

/-- The pipeline once the tasks have started: the system state RUNNING, the processed
data and the latch as the C initialisers leave them, `DataProcessingTask` waiting. -/
def PipelineState.init : PipelineState :=
  { g_system_state := SYSTEM_STATE_RUNNING
    g_latest_processed_data := ProcessedData.zero
    latch := LatchState.init
    data_processing_guard := some SYSTEM_STATE_RUNNING }

/-- What the post of the sensor semaphore for a new sample sets off (lines 679-694): if
`DataProcessingTask` is still in its loop it wakes up, and either leaves the loop or
publishes the processed data of the sample and reads the loop guard again; if it has
left the loop nothing happens. `data_valid` is the flag of the sample and `computed`
what `ProcessSensorData` computes from it when it is valid. -/
def DataProcessingTask_wake (st : PipelineState) (data_valid : Bool)
    (computed : ProcessedData) : PipelineState :=
  match st.data_processing_guard with
  | none => st
  | some at_guard =>
    if DataProcessingTask_pass at_guard st.g_system_state then
      { st with
        g_latest_processed_data := ProcessSensorData data_valid computed
        data_processing_guard := some st.g_system_state }
    else { st with data_processing_guard := none }

/-- One periodic evaluation of `RiskEvaluationTask` (lines 729-752): it reads
`g_latest_processed_data`, calls `EvaluateRisk`, publishes the assessment and updates
`g_system_state`. `humidity` is the humidity of `g_latest_sensor_data`. -/
def RiskEvaluationTask_step (st : PipelineState) (humidity : ℚ)
    (deform_risk : DeformationRisk) (tick : Nat) : PipelineState × RiskAssessment :=
  ({ st with
     latch :=
       (EvaluateRisk_assess st.latch st.g_latest_processed_data humidity deform_risk tick).1
     g_system_state :=
       RiskEvaluationTask_system_state st.g_system_state
         (EvaluateRisk_assess st.latch st.g_latest_processed_data humidity deform_risk
           tick).2.level },
   (EvaluateRisk_assess st.latch st.g_latest_processed_data humidity deform_risk tick).2)

/-- What happens in the pipeline: a new sample is posted, or `RiskEvaluationTask` makes
a periodic evaluation. -/
inductive PipelineEvent where
  | sample (data_valid : Bool) (computed : ProcessedData)
  | evaluate (humidity : ℚ) (deform_risk : DeformationRisk) (tick : Nat)

/-- The assessments `RiskEvaluationTask` publishes over a sequence of events. -/
def publishedAssessments (st : PipelineState) : List PipelineEvent → List RiskAssessment
  | [] => []
  | .sample data_valid computed :: es =>
    publishedAssessments (DataProcessingTask_wake st data_valid computed) es
  | .evaluate humidity deform_risk tick :: es =>
    (RiskEvaluationTask_step st humidity deform_risk tick).2 ::
      publishedAssessments (RiskEvaluationTask_step st humidity deform_risk tick).1 es

/-! ## The connection status (`iot_cloud.c`, lines 320-459, 479-519, 652-838) -/

/-- The fields of the struct `ConnectionStatus` that `ConnectionStatus_Update` reads and
writes. -/
structure ConnectionStatus where
  mqtt_connected : Bool
  wifi_connected : Bool
  last_connect_time : Nat
  disconnect_count : Nat
  reconnect_count : Nat
deriving DecidableEq, Repr

/-- The statics the connection bookkeeping works on: `g_connection_status`,
`mqttConnectFlag` (only ever 0 or 1), `g_cache_initialized`, `wifi_reconnect_attempts`,
and the function-level statics `last_wifi_reconnect_time` of `ConnectionStatus_Update`
and `last_basic_connected_time` of `check_wifi_connected`. -/
structure LinkState where
  g_connection_status : ConnectionStatus
  mqttConnectFlag : Bool
  g_cache_initialized : Bool
  wifi_reconnect_attempts : Nat
  last_wifi_reconnect_time : Nat
  last_basic_connected_time : Nat
deriving DecidableEq, Repr

/-- What the drivers answer during one call of `ConnectionStatus_Update`:
`basic_status` is what `wifi_get_connect_status_internal()` returns to the call itself
(line 327), `check_basic_status` what it returns to `check_wifi_connected` (line 482),
which the call reaches through `mqtt_is_connected`, `linked` whether `GetLinkedInfo`
succeeds with the state `WIFI_CONNECTED` and a non-empty SSID, `broker_ok` whether a
connection attempt of `mqtt_init` succeeds, `check_tick` the tick count
`check_wifi_connected` reads and `tick` the one `ConnectionStatus_Update` reads. -/
structure LinkProbe where
  basic_status : Int
  check_basic_status : Int
  linked : Bool
  broker_ok : Bool
  check_tick : Nat
  tick : Nat
deriving DecidableEq, Repr

/-- The function `check_wifi_connected` (lines 479-519): the new value of its static
`last_basic_connected_time` and the return value. -/
def check_wifi_connected (p : LinkProbe) (last_basic_connected_time : Nat) : Nat × Int :=
  if p.check_basic_status ≠ 1 then (last_basic_connected_time, 0)
  else if p.linked then (last_basic_connected_time, 1)
  else
    let current_time := p.check_tick % UINT32_MOD
    let last2 := if last_basic_connected_time = 0 then current_time else last_basic_connected_time
    if 3000 < (current_time + UINT32_MOD - last2) % UINT32_MOD then (last2, 1) else (last2, 0)

/-- The function `mqtt_is_connected` (lines 817-838): the new state and the return
value. The periodic debug print and its timer change nothing else and are left out. -/
def mqtt_is_connected (p : LinkProbe) (s : LinkState) : LinkState × Bool :=
  let wifi_connected : Bool := decide ((check_wifi_connected p s.last_basic_connected_time).2 = 1)
  let flag : Bool := if !wifi_connected && s.mqttConnectFlag then false else s.mqttConnectFlag
  ({ s with
     last_basic_connected_time := (check_wifi_connected p s.last_basic_connected_time).1
     mqttConnectFlag := flag }, flag)

/-- The function `mqtt_init` (lines 652-770) on `mqttConnectFlag`: it returns at once
when the flag is set, sets the flag once a connection attempt succeeds, and otherwise
retries without end (`none`). -/
def mqtt_init (broker_ok : Bool) (mqttConnectFlag : Bool) : Option Bool :=
  if mqttConnectFlag then some mqttConnectFlag
  else if broker_ok then some true
  else none

/-- The function `ConnectionStatus_Update` (lines 320-421); `none` when the call of
`mqtt_init` it makes never returns. -/
def ConnectionStatus_Update (p : LinkProbe) (s : LinkState) : Option LinkState :=
  if !s.g_cache_initialized then some s
  else
    let wifi_status : Bool := decide (p.basic_status = 1)
    let s1 := (mqtt_is_connected p s).1
    let mqtt_status := (mqtt_is_connected p s).2
    let current_time := p.tick % UINT32_MOD
    let changed : Option LinkState :=
      if wifi_status ≠ s1.g_connection_status.wifi_connected then
        if wifi_status then
          let counted : LinkState :=
            { s1 with
              g_connection_status :=
                { s1.g_connection_status with
                  reconnect_count := (s1.g_connection_status.reconnect_count + 1) % UINT32_MOD }
              wifi_reconnect_attempts := 0 }
          let restarted : Option LinkState :=
            if !counted.g_connection_status.mqtt_connected && !counted.mqttConnectFlag then
              (mqtt_init p.broker_ok counted.mqttConnectFlag).map
                (fun flag => { counted with mqttConnectFlag := flag })
            else some counted
          restarted.map (fun x =>
            { x with
              g_connection_status := { x.g_connection_status with wifi_connected := wifi_status } })
        else
          some
            { s1 with
              g_connection_status :=
                { s1.g_connection_status with
                  disconnect_count := (s1.g_connection_status.disconnect_count + 1) % UINT32_MOD
                  wifi_connected := wifi_status }
              mqttConnectFlag := false }
      else some s1
    changed.map (fun s2 =>
      let s3 : LinkState :=
        if !wifi_status then
          if 8000 < (current_time + UINT32_MOD - s2.last_wifi_reconnect_time) % UINT32_MOD then
            { s2 with
              wifi_reconnect_attempts := (s2.wifi_reconnect_attempts + 1) % UINT32_MOD
              last_wifi_reconnect_time := current_time }
          else s2
        else s2
      if mqtt_status ≠ s3.g_connection_status.mqtt_connected then
        { s3 with
          g_connection_status :=
            { s3.g_connection_status with
              last_connect_time :=
                if mqtt_status then current_time else s3.g_connection_status.last_connect_time
              mqtt_connected := mqtt_status } }
      else s3)

/-- The function `ConnectionStatus_IsStable` (lines 452-459). -/
def ConnectionStatus_IsStable (s : LinkState) : Bool :=
  if !s.g_cache_initialized then false
  else s.g_connection_status.wifi_connected && s.g_connection_status.mqtt_connected

/-! ## Theorems: the alarm latch -/

theorem RiskLevel.le_iff (a b : RiskLevel) : a ≤ b ↔ a.toNat ≤ b.toNat := Iff.rfl

theorem RiskLevel.lt_iff (a b : RiskLevel) : a < b ↔ a.toNat < b.toNat := Iff.rfl

theorem runEvents_append (s : LatchState) (es fs : List LatchEvent) :
    runEvents s (es ++ fs) = runEvents (runEvents s es) fs := by
  simp [runEvents, List.foldl_append]

theorem lastRaw_append_tick (es : List LatchEvent) (r : RiskLevel) (t : Nat) :
    lastRaw (es ++ [LatchEvent.tick r t]) = some r := by
  induction es with
  | nil => simp [lastRaw]
  | cons e es ih => cases e <;> simp [lastRaw, ih]

theorem lastRaw_append_ack (es : List LatchEvent) :
    lastRaw (es ++ [LatchEvent.ack]) = lastRaw es := by
  induction es with
  | nil => simp [lastRaw]
  | cons e es ih => cases e <;> simp [lastRaw, ih]

/-- A tick whose raw level is at least Medium raises the latch. -/
theorem EvaluateRisk_raise (s : LatchState) (raw_level : RiskLevel) (tick : Nat)
    (h : RISK_LEVEL_MEDIUM ≤ raw_level) :
    EvaluateRisk s raw_level tick =
      { confirmed_level := raw_level
        max_triggered_level :=
          if s.max_triggered_level < raw_level then raw_level else s.max_triggered_level
        manual_reset_required := true
        g_alarm_acknowledged := false
        level_start_time := tick % UINT32_MOD } := by
  simp [EvaluateRisk, h]

/-- A tick below Medium on a latched state without acknowledgment reports the worst
level seen. -/
theorem EvaluateRisk_hold (s : LatchState) (raw_level : RiskLevel) (tick : Nat)
    (h : raw_level < RISK_LEVEL_MEDIUM) (hm : s.manual_reset_required = true)
    (ha : s.g_alarm_acknowledged = false) :
    EvaluateRisk s raw_level tick = { s with confirmed_level := s.max_triggered_level } := by
  have h2 : ¬ RISK_LEVEL_MEDIUM ≤ raw_level := by
    rw [RiskLevel.le_iff]; rw [RiskLevel.lt_iff] at h; omega
  simp [EvaluateRisk, h2, hm, ha]

/-- A tick below Medium on a latched, acknowledged state resets the latch. -/
theorem EvaluateRisk_reset (s : LatchState) (raw_level : RiskLevel) (tick : Nat)
    (h : raw_level < RISK_LEVEL_MEDIUM) (hm : s.manual_reset_required = true)
    (ha : s.g_alarm_acknowledged = true) :
    EvaluateRisk s raw_level tick =
      { s with
        confirmed_level := RISK_LEVEL_SAFE
        max_triggered_level := RISK_LEVEL_SAFE
        manual_reset_required := false
        g_alarm_acknowledged := false } := by
  have h2 : ¬ RISK_LEVEL_MEDIUM ≤ raw_level := by
    rw [RiskLevel.le_iff]; rw [RiskLevel.lt_iff] at h; omega
  simp [EvaluateRisk, h2, hm, ha]

/-- A tick below Medium on an unlatched state that agrees with the confirmed level
restarts the timer. -/
theorem EvaluateRisk_agree (s : LatchState) (tick : Nat)
    (h : s.confirmed_level < RISK_LEVEL_MEDIUM) (hm : s.manual_reset_required = false) :
    EvaluateRisk s s.confirmed_level tick = { s with level_start_time := tick % UINT32_MOD } := by
  have h2 : ¬ RISK_LEVEL_MEDIUM ≤ s.confirmed_level := by
    rw [RiskLevel.le_iff]; rw [RiskLevel.lt_iff] at h; omega
  simp [EvaluateRisk, h2, hm]

/-- A tick below Medium on an unlatched state that differs from the confirmed level,
with the timer running since `level_start_time ≤ tick`. -/
theorem EvaluateRisk_candidate (s : LatchState) (raw_level : RiskLevel) (tick : Nat)
    (h : raw_level < RISK_LEVEL_MEDIUM) (hm : s.manual_reset_required = false)
    (hne : raw_level ≠ s.confirmed_level) (h0 : 0 < s.level_start_time)
    (hle : s.level_start_time ≤ tick) (hlt : tick < UINT32_MOD) :
    EvaluateRisk s raw_level tick =
      if s.level_start_time + 3000 ≤ tick then
        { s with confirmed_level := raw_level, level_start_time := tick }
      else s := by
  have h2 : ¬ RISK_LEVEL_MEDIUM ≤ raw_level := by
    rw [RiskLevel.le_iff]; rw [RiskLevel.lt_iff] at h; omega
  have h3 : s.level_start_time ≠ 0 := by omega
  have h4 : tick % UINT32_MOD = tick := Nat.mod_eq_of_lt hlt
  have h5 : (tick + UINT32_MOD - s.level_start_time) % UINT32_MOD = tick - s.level_start_time := by
    have : tick + UINT32_MOD - s.level_start_time = (tick - s.level_start_time) + UINT32_MOD := by
      omega
    rw [this, Nat.add_mod_right]
    exact Nat.mod_eq_of_lt (by omega)
  have h6 : (3000 ≤ tick - s.level_start_time) ↔ (s.level_start_time + 3000 ≤ tick) := by omega
  simp only [EvaluateRisk, h4, h5, h6, if_neg h2, hm, if_pos hne, if_neg h3,
    Bool.false_eq_true, if_false]

/-- A tick below Medium leaves an unset latch unset. -/
theorem EvaluateRisk_free_latch (s : LatchState) (raw_level : RiskLevel) (tick : Nat)
    (h : raw_level < RISK_LEVEL_MEDIUM) (hm : s.manual_reset_required = false) :
    (EvaluateRisk s raw_level tick).manual_reset_required = false := by
  have h2 : ¬ RISK_LEVEL_MEDIUM ≤ raw_level := by
    rw [RiskLevel.le_iff]; rw [RiskLevel.lt_iff] at h; omega
  simp only [EvaluateRisk, if_neg h2, hm, Bool.false_eq_true, if_false]
  split_ifs <;> simp [hm]

/-- C1 (counterexample): after a tick at High and a tick at Medium, with no
acknowledgment at all, the latch is set while the confirmed level is Medium and the worst
level seen is High, so the two differ and the confirmed level is the lower one. -/
theorem latch_confirmed_below_max :
    (runEvents LatchState.init
        [.tick RISK_LEVEL_HIGH 1000, .tick RISK_LEVEL_MEDIUM 1200]).manual_reset_required
        = true ∧
      (runEvents LatchState.init
        [.tick RISK_LEVEL_HIGH 1000, .tick RISK_LEVEL_MEDIUM 1200]).confirmed_level
        = RISK_LEVEL_MEDIUM ∧
      (runEvents LatchState.init
        [.tick RISK_LEVEL_HIGH 1000, .tick RISK_LEVEL_MEDIUM 1200]).max_triggered_level
        = RISK_LEVEL_HIGH ∧
      (runEvents LatchState.init
        [.tick RISK_LEVEL_HIGH 1000, .tick RISK_LEVEL_MEDIUM 1200]).confirmed_level <
      (runEvents LatchState.init
        [.tick RISK_LEVEL_HIGH 1000, .tick RISK_LEVEL_MEDIUM 1200]).max_triggered_level := by
  decide

/-- C1 (amended): in every state reached from the initial one by ticks and
acknowledgment commands, whenever the latch is set the confirmed level is at least Medium
and at most the worst level seen; it equals the worst level seen when the latest raw
level was below Medium, and equals the latest raw level when that was Medium or above. -/
theorem latch_confirmed_bounds (es : List LatchEvent) :
    (runEvents LatchState.init es).manual_reset_required = true →
      RISK_LEVEL_MEDIUM ≤ (runEvents LatchState.init es).confirmed_level ∧
      (runEvents LatchState.init es).confirmed_level ≤
        (runEvents LatchState.init es).max_triggered_level ∧
      ∀ r, lastRaw es = some r →
        (r < RISK_LEVEL_MEDIUM →
          (runEvents LatchState.init es).confirmed_level =
            (runEvents LatchState.init es).max_triggered_level) ∧
        (RISK_LEVEL_MEDIUM ≤ r → (runEvents LatchState.init es).confirmed_level = r) := by
  induction es using List.reverseRecOn with
  | nil => simp [runEvents, LatchState.init]
  | append_singleton es e ih =>
    rw [runEvents_append]
    generalize runEvents LatchState.init es = s at ih ⊢
    cases e with
    | ack =>
      rw [lastRaw_append_ack]
      simpa [runEvents, LatchEvent.apply, IoTCloud_HandleResetCommand] using ih
    | tick raw t =>
      rw [lastRaw_append_tick]
      simp only [runEvents, List.foldl_cons, List.foldl_nil, LatchEvent.apply]
      by_cases h : RISK_LEVEL_MEDIUM ≤ raw
      · rw [EvaluateRisk_raise s raw t h]
        intro _
        refine ⟨h, ?_, ?_⟩
        · simp only [RiskLevel.le_iff, RiskLevel.lt_iff]
          split_ifs with h1
          · exact Nat.le_refl _
          · omega
        · intro r hr
          simp only [Option.some.injEq] at hr
          subst hr
          refine ⟨fun hlt => ?_, fun _ => rfl⟩
          rw [RiskLevel.le_iff] at h; rw [RiskLevel.lt_iff] at hlt; omega
      · have hlt : raw < RISK_LEVEL_MEDIUM := by
          rw [RiskLevel.lt_iff]; rw [RiskLevel.le_iff] at h; omega
        cases hm : s.manual_reset_required with
        | false =>
          intro hcontra
          rw [EvaluateRisk_free_latch s raw t hlt hm] at hcontra
          exact absurd hcontra (by simp)
        | true =>
          cases ha : s.g_alarm_acknowledged with
          | true => rw [EvaluateRisk_reset s raw t hlt hm ha]; simp
          | false =>
            rw [EvaluateRisk_hold s raw t hlt hm ha]
            intro _
            obtain ⟨h1, h2, _⟩ := ih hm
            refine ⟨?_, ?_, ?_⟩
            · simp only [RiskLevel.le_iff] at h1 h2 ⊢; omega
            · simp [RiskLevel.le_iff]
            · intro r hr
              simp only [Option.some.injEq] at hr
              subst hr
              exact ⟨fun _ => rfl, fun h3 => absurd h3 h⟩

/-- C1 (witness): the bounds at the run High, Safe, which leaves the latch set. -/
theorem latch_confirmed_bounds_witness :
    (runEvents LatchState.init
        [.tick RISK_LEVEL_HIGH 1000, .tick RISK_LEVEL_SAFE 1200]).manual_reset_required = true ∧
      RISK_LEVEL_MEDIUM ≤ (runEvents LatchState.init
        [.tick RISK_LEVEL_HIGH 1000, .tick RISK_LEVEL_SAFE 1200]).confirmed_level :=
  ⟨by decide,
    (latch_confirmed_bounds [.tick RISK_LEVEL_HIGH 1000, .tick RISK_LEVEL_SAFE 1200]
      (by decide)).1⟩

theorem levelTrace_append (s : LatchState) (es fs : List LatchEvent) :
    levelTrace s (es ++ fs) = levelTrace s es ++ levelTrace (runEvents s es) fs := by
  induction es generalizing s with
  | nil => simp [levelTrace, runEvents]
  | cons e es ih => simp [levelTrace, runEvents, ih]

theorem transitions_replicate (r : RiskLevel) (n : Nat) :
    transitions r (List.replicate n r) = 0 := by
  induction n with
  | zero => simp [transitions]
  | succ n ih => simp [List.replicate_succ, transitions, ih]

/-- A run of ticks at one raw level that is Medium or above reports that level after
every tick. -/
theorem levelTrace_raise (s : LatchState) (r : RiskLevel) (ts : List Nat)
    (h : RISK_LEVEL_MEDIUM ≤ r) :
    levelTrace s (holdOf r ts) = List.replicate ts.length r := by
  induction ts generalizing s with
  | nil => simp [holdOf, levelTrace]
  | cons t ts ih =>
    show (EvaluateRisk s r t).confirmed_level :: levelTrace (EvaluateRisk s r t) (holdOf r ts) =
      r :: List.replicate ts.length r
    rw [ih, EvaluateRisk_raise s r t h]

/-- A non-empty run of ticks at Medium on a state whose worst level seen is Safe sets
the latch and makes Medium the worst level seen. -/
theorem runEvents_raise_medium (s : LatchState) (t : Nat) (ts : List Nat)
    (hs : s.max_triggered_level = RISK_LEVEL_SAFE ∨ s.max_triggered_level = RISK_LEVEL_MEDIUM) :
    (runEvents s (holdOf RISK_LEVEL_MEDIUM (t :: ts))).manual_reset_required = true ∧
      (runEvents s (holdOf RISK_LEVEL_MEDIUM (t :: ts))).max_triggered_level
        = RISK_LEVEL_MEDIUM := by
  induction ts generalizing s t with
  | nil =>
    have hstep : runEvents s (holdOf RISK_LEVEL_MEDIUM [t]) =
        EvaluateRisk s RISK_LEVEL_MEDIUM t := rfl
    rw [hstep, EvaluateRisk_raise s RISK_LEVEL_MEDIUM t (by decide)]
    rcases hs with hs | hs
    · simp only [hs, true_and]; decide
    · simp only [hs, true_and]; decide
  | cons u ts ih =>
    have hstep : runEvents s (holdOf RISK_LEVEL_MEDIUM (t :: u :: ts)) =
        runEvents (EvaluateRisk s RISK_LEVEL_MEDIUM t) (holdOf RISK_LEVEL_MEDIUM (u :: ts)) := rfl
    rw [hstep]
    apply ih
    rw [EvaluateRisk_raise s RISK_LEVEL_MEDIUM t (by decide)]
    rcases hs with hs | hs
    · simp only [hs]; decide
    · simp only [hs]; decide

/-- C2: a tick whose raw level is Medium or above ends with the confirmed level equal to
the raw level, the worst level seen raised to the maximum of its old value and the raw
level, the latch set and the acknowledgment flag cleared, whatever the state before; and
on the run Safe, Safe, Medium held over any further ticks, started from the initial
state, the confirmed level is Safe, Safe, then Medium throughout, which is exactly one
change, and the latch is set. -/
theorem latch_raise_on_medium (s : LatchState) (raw_level : RiskLevel)
    (tick t1 t2 t3 : Nat) (hold : List Nat) (h : RISK_LEVEL_MEDIUM ≤ raw_level) :
    ((EvaluateRisk s raw_level tick).confirmed_level = raw_level ∧
      (EvaluateRisk s raw_level tick).max_triggered_level.toNat =
        max s.max_triggered_level.toNat raw_level.toNat ∧
      (EvaluateRisk s raw_level tick).manual_reset_required = true ∧
      (EvaluateRisk s raw_level tick).g_alarm_acknowledged = false) ∧
    (levelTrace LatchState.init
        (holdOf RISK_LEVEL_SAFE [t1, t2] ++ holdOf RISK_LEVEL_MEDIUM (t3 :: hold)) =
        [RISK_LEVEL_SAFE, RISK_LEVEL_SAFE] ++
          List.replicate (hold.length + 1) RISK_LEVEL_MEDIUM ∧
      transitions RISK_LEVEL_SAFE (levelTrace LatchState.init
        (holdOf RISK_LEVEL_SAFE [t1, t2] ++ holdOf RISK_LEVEL_MEDIUM (t3 :: hold))) = 1 ∧
      (runEvents LatchState.init
        (holdOf RISK_LEVEL_SAFE [t1, t2] ++
          holdOf RISK_LEVEL_MEDIUM (t3 :: hold))).manual_reset_required = true ∧
      (runEvents LatchState.init
        (holdOf RISK_LEVEL_SAFE [t1, t2] ++
          holdOf RISK_LEVEL_MEDIUM (t3 :: hold))).max_triggered_level = RISK_LEVEL_MEDIUM) := by
  have hn : ¬ RISK_LEVEL_MEDIUM ≤ RISK_LEVEL_SAFE := by decide
  have hsafe : runEvents LatchState.init (holdOf RISK_LEVEL_SAFE [t1, t2]) =
      { LatchState.init with level_start_time := t2 % UINT32_MOD } := by
    simp [holdOf, runEvents, LatchEvent.apply, EvaluateRisk, LatchState.init, hn]
  have htrace : levelTrace LatchState.init
      (holdOf RISK_LEVEL_SAFE [t1, t2] ++ holdOf RISK_LEVEL_MEDIUM (t3 :: hold)) =
      [RISK_LEVEL_SAFE, RISK_LEVEL_SAFE] ++
        List.replicate (hold.length + 1) RISK_LEVEL_MEDIUM := by
    rw [levelTrace_append,
      levelTrace_raise _ RISK_LEVEL_MEDIUM (t3 :: hold) (by decide)]
    simp [holdOf, levelTrace, LatchEvent.apply, EvaluateRisk, LatchState.init, hn]
  refine ⟨?_, htrace, ?_, ?_⟩
  · rw [EvaluateRisk_raise s raw_level tick h]
    refine ⟨rfl, ?_, rfl, rfl⟩
    simp only
    split_ifs with h1
    · rw [RiskLevel.lt_iff] at h1; omega
    · rw [RiskLevel.lt_iff] at h1; omega
  · rw [htrace]
    simp [List.replicate_succ, transitions, transitions_replicate]
  · rw [runEvents_append, hsafe]
    exact runEvents_raise_medium _ t3 hold (Or.inl rfl)

/-- C2 (witness): the raise at a High tick on the initial state. -/
theorem latch_raise_on_medium_witness :
    RISK_LEVEL_MEDIUM ≤ RISK_LEVEL_HIGH ∧
      (EvaluateRisk LatchState.init RISK_LEVEL_HIGH 5000).confirmed_level = RISK_LEVEL_HIGH :=
  ⟨by decide,
    (latch_raise_on_medium LatchState.init RISK_LEVEL_HIGH 5000 0 200 400 [600, 3900]
      (by decide)).1.1⟩

/-- C3: on a latched state with no acknowledgment pending, every tick of a run of ticks
whose raw levels are all below Medium ends with the confirmed level equal to the worst
level seen, and the run leaves the worst level seen and the latch as they were, however
many ticks it has. -/
theorem latch_holds_below_medium (s : LatchState) (ticks : List (RiskLevel × Nat))
    (hm : s.manual_reset_required = true) (ha : s.g_alarm_acknowledged = false)
    (hlow : ∀ p ∈ ticks, p.1 < RISK_LEVEL_MEDIUM) :
    levelTrace s (ticksOf ticks) = List.replicate ticks.length s.max_triggered_level ∧
      (runEvents s (ticksOf ticks)).max_triggered_level = s.max_triggered_level ∧
      (runEvents s (ticksOf ticks)).manual_reset_required = true ∧
      (runEvents s (ticksOf ticks)).g_alarm_acknowledged = false := by
  induction ticks generalizing s with
  | nil => simp [ticksOf, levelTrace, runEvents, hm, ha]
  | cons p ticks ih =>
    have hp : p.1 < RISK_LEVEL_MEDIUM := hlow p (List.mem_cons_self _ _)
    have hstep := EvaluateRisk_hold s p.1 p.2 hp hm ha
    have hrest := ih (EvaluateRisk s p.1 p.2) (by rw [hstep]; exact hm) (by rw [hstep]; exact ha)
      (fun q hq => hlow q (List.mem_cons_of_mem _ hq))
    have hmax : (EvaluateRisk s p.1 p.2).max_triggered_level = s.max_triggered_level := by
      rw [hstep]
    have hconf : (EvaluateRisk s p.1 p.2).confirmed_level = s.max_triggered_level := by
      rw [hstep]
    have hrun : runEvents s (ticksOf (p :: ticks)) =
        runEvents (EvaluateRisk s p.1 p.2) (ticksOf ticks) := rfl
    have htr : levelTrace s (ticksOf (p :: ticks)) =
        (EvaluateRisk s p.1 p.2).confirmed_level ::
          levelTrace (EvaluateRisk s p.1 p.2) (ticksOf ticks) := rfl
    rw [hrun, htr, hrest.1, hmax, hconf]
    refine ⟨?_, ?_, hrest.2.2.1, hrest.2.2.2⟩
    · simp [List.replicate_succ]
    · rw [hrest.2.1, hmax]

/-- C3 (witness): three low ticks on the state latched at High. -/
theorem latch_holds_below_medium_witness :
    levelTrace (EvaluateRisk LatchState.init RISK_LEVEL_HIGH 1000)
        (ticksOf [(RISK_LEVEL_SAFE, 1200), (RISK_LEVEL_LOW, 1400), (RISK_LEVEL_SAFE, 9000)]) =
      List.replicate 3 (EvaluateRisk LatchState.init RISK_LEVEL_HIGH 1000).max_triggered_level :=
  (latch_holds_below_medium (EvaluateRisk LatchState.init RISK_LEVEL_HIGH 1000)
    [(RISK_LEVEL_SAFE, 1200), (RISK_LEVEL_LOW, 1400), (RISK_LEVEL_SAFE, 9000)]
    (by decide) (by decide) (by decide)).1

/-- C4: on every latched state, the tick that processes an acknowledgment (the flag
raised by the reset command, the raw level below Medium) ends with the confirmed level
and the worst level seen at Safe and the latch cleared; in particular the run High, Safe
is latched at High, and an acknowledgment followed by a Safe tick resets both levels to
Safe. -/
theorem latch_reset_on_ack (s : LatchState) (raw_level : RiskLevel) (tick t1 t2 t3 : Nat)
    (hm : s.manual_reset_required = true) (h : raw_level < RISK_LEVEL_MEDIUM) :
    ((EvaluateRisk (IoTCloud_HandleResetCommand s) raw_level tick).confirmed_level
        = RISK_LEVEL_SAFE ∧
      (EvaluateRisk (IoTCloud_HandleResetCommand s) raw_level tick).max_triggered_level
        = RISK_LEVEL_SAFE ∧
      (EvaluateRisk (IoTCloud_HandleResetCommand s) raw_level tick).manual_reset_required
        = false) ∧
    ((runEvents LatchState.init
        [.tick RISK_LEVEL_HIGH t1, .tick RISK_LEVEL_SAFE t2]).confirmed_level = RISK_LEVEL_HIGH ∧
      (runEvents LatchState.init
        [.tick RISK_LEVEL_HIGH t1, .tick RISK_LEVEL_SAFE t2]).manual_reset_required = true ∧
      (runEvents LatchState.init
        [.tick RISK_LEVEL_HIGH t1, .tick RISK_LEVEL_SAFE t2, .ack,
          .tick RISK_LEVEL_SAFE t3]).confirmed_level = RISK_LEVEL_SAFE ∧
      (runEvents LatchState.init
        [.tick RISK_LEVEL_HIGH t1, .tick RISK_LEVEL_SAFE t2, .ack,
          .tick RISK_LEVEL_SAFE t3]).max_triggered_level = RISK_LEVEL_SAFE ∧
      (runEvents LatchState.init
        [.tick RISK_LEVEL_HIGH t1, .tick RISK_LEVEL_SAFE t2, .ack,
          .tick RISK_LEVEL_SAFE t3]).manual_reset_required = false) := by
  constructor
  · rw [EvaluateRisk_reset (IoTCloud_HandleResetCommand s) raw_level tick h hm rfl]
    exact ⟨rfl, rfl, rfl⟩
  · have hn : ¬ RISK_LEVEL_MEDIUM ≤ RISK_LEVEL_SAFE := by decide
    have hy : RISK_LEVEL_MEDIUM ≤ RISK_LEVEL_HIGH := by decide
    have hz : RISK_LEVEL_SAFE < RISK_LEVEL_HIGH := by decide
    simp [runEvents, LatchEvent.apply, EvaluateRisk, IoTCloud_HandleResetCommand,
      LatchState.init, hn, hy, hz]

/-- C4 (witness): the reset of the state latched at Critical by a Low tick. -/
theorem latch_reset_on_ack_witness :
    (EvaluateRisk LatchState.init RISK_LEVEL_CRITICAL 1000).manual_reset_required = true ∧
      (EvaluateRisk
        (IoTCloud_HandleResetCommand (EvaluateRisk LatchState.init RISK_LEVEL_CRITICAL 1000))
        RISK_LEVEL_LOW 1200).confirmed_level = RISK_LEVEL_SAFE :=
  ⟨by decide,
    (latch_reset_on_ack (EvaluateRisk LatchState.init RISK_LEVEL_CRITICAL 1000) RISK_LEVEL_LOW
      1200 1000 1200 1400 (by decide) (by decide)).1.1⟩

/-- C5 (counterexample): on ticks 200 ms apart, Safe at 1000 and Low from 1200 on, the
latch stays unset, the confirmed level is still Safe after the tick at 3800 and becomes
Low at the tick at 4000, at which Low has been observed for 2800 ms only; and when the
tick after the Safe tick at 1000 comes at 5000, the confirmed level becomes Low at the
first tick that observes Low. -/
theorem debounce_changes_before_3000 :
    (runEvents LatchState.init (ticksOf sampledLowRun.dropLast)).confirmed_level
        = RISK_LEVEL_SAFE ∧
      (runEvents LatchState.init (ticksOf sampledLowRun)).confirmed_level = RISK_LEVEL_LOW ∧
      (runEvents LatchState.init (ticksOf sampledLowRun)).manual_reset_required = false ∧
      sampledLowRun.getLast? = some (RISK_LEVEL_LOW, 4000) ∧
      observedFor sampledLowRun = 2800 ∧
      (runEvents LatchState.init
        (ticksOf [(RISK_LEVEL_SAFE, 1000), (RISK_LEVEL_LOW, 5000)])).confirmed_level
        = RISK_LEVEL_LOW ∧
      observedFor [(RISK_LEVEL_SAFE, 1000), (RISK_LEVEL_LOW, 5000)] = 0 := by
  decide

/-- A run of ticks at the confirmed level of an unlatched state keeps that level. -/
theorem levelTrace_agree (s : LatchState) (ts : List Nat)
    (hm : s.manual_reset_required = false) (hc : s.confirmed_level < RISK_LEVEL_MEDIUM) :
    levelTrace s (holdOf s.confirmed_level ts) = List.replicate ts.length s.confirmed_level := by
  induction ts generalizing s with
  | nil => simp [holdOf, levelTrace]
  | cons t ts ih =>
    have hstep := EvaluateRisk_agree s t hc hm
    have hconf : (EvaluateRisk s s.confirmed_level t).confirmed_level = s.confirmed_level := by
      rw [hstep]
    have htr : levelTrace s (holdOf s.confirmed_level (t :: ts)) =
        (EvaluateRisk s s.confirmed_level t).confirmed_level ::
          levelTrace (EvaluateRisk s s.confirmed_level t) (holdOf s.confirmed_level ts) := rfl
    have hrest := ih (EvaluateRisk s s.confirmed_level t) (by rw [hstep]; exact hm)
      (by rw [hconf]; exact hc)
    rw [hconf] at hrest
    rw [htr, hrest, hconf]
    simp [List.replicate_succ]

theorem map_eq_replicate_of_forall {β : Type} (f : Nat → β) (b : β) (l : List Nat)
    (h : ∀ t ∈ l, f t = b) : l.map f = List.replicate l.length b := by
  induction l with
  | nil => simp
  | cons t l ih =>
    simp only [List.map_cons, List.length_cons, List.replicate_succ]
    rw [h t (List.mem_cons_self _ _), ih (fun u hu => h u (List.mem_cons_of_mem _ hu))]

/-- A run of ticks at a candidate level on an unlatched state whose timer was started
at `t0`: the confirmed level after the tick at `t` is the candidate exactly when `t` is
at least 3000 later than `t0`. -/
theorem levelTrace_candidate (s : LatchState) (r : RiskLevel) (ts : List Nat)
    (hm : s.manual_reset_required = false) (hr : r < RISK_LEVEL_MEDIUM)
    (hne : r ≠ s.confirmed_level) (h0 : 0 < s.level_start_time)
    (hs : List.Pairwise (fun a b => a < b) (s.level_start_time :: ts))
    (hb : ∀ t ∈ ts, t < UINT32_MOD) :
    levelTrace s (holdOf r ts) =
      ts.map (fun t => if s.level_start_time + 3000 ≤ t then r else s.confirmed_level) := by
  induction ts generalizing s with
  | nil => simp [holdOf, levelTrace]
  | cons t ts ih =>
    have hpw := List.pairwise_cons.mp hs
    have hpw2 := List.pairwise_cons.mp hpw.2
    have ht0 : s.level_start_time < t := hpw.1 t (List.mem_cons_self _ _)
    have htb : t < UINT32_MOD := hb t (List.mem_cons_self _ _)
    have hstep := EvaluateRisk_candidate s r t hr hm hne h0 (Nat.le_of_lt ht0) htb
    have htr : levelTrace s (holdOf r (t :: ts)) =
        (EvaluateRisk s r t).confirmed_level :: levelTrace (EvaluateRisk s r t) (holdOf r ts) :=
      rfl
    rw [htr, hstep, List.map_cons]
    by_cases hge : s.level_start_time + 3000 ≤ t
    · simp only [if_pos hge]
      have hag := levelTrace_agree
        { s with confirmed_level := r, level_start_time := t } ts hm hr
      simp only at hag
      rw [hag]
      congr 1
      symm
      apply map_eq_replicate_of_forall
      intro u hu
      have : t < u := hpw2.1 u hu
      rw [if_pos (by omega)]
    · simp only [if_neg hge]
      congr 1
      apply ih s hm hne h0
      · exact List.pairwise_cons.mpr
          ⟨fun u hu => hpw.1 u (List.mem_cons_of_mem _ hu), hpw2.2⟩
      · exact fun u hu => hb u (List.mem_cons_of_mem _ hu)

/-- The number of changes in the trace of a candidate run: one if some tick is at least
3000 later than `t0`, none otherwise. -/
theorem transitions_candidate (c r : RiskLevel) (t0 : Nat) (ts : List Nat) (hne : r ≠ c)
    (hs : List.Pairwise (fun a b => a < b) ts) :
    transitions c (ts.map (fun t => if t0 + 3000 ≤ t then r else c)) =
      if ∃ t ∈ ts, t0 + 3000 ≤ t then 1 else 0 := by
  induction ts with
  | nil => simp [transitions]
  | cons t ts ih =>
    have hpw := List.pairwise_cons.mp hs
    by_cases hge : t0 + 3000 ≤ t
    · have hall : ∀ u ∈ ts, (fun t => if t0 + 3000 ≤ t then r else c) u = r := by
        intro u hu
        have : t < u := hpw.1 u hu
        simp only
        rw [if_pos (by omega)]
      rw [List.map_cons, map_eq_replicate_of_forall _ r ts hall]
      simp only [if_pos hge]
      rw [if_pos ⟨t, List.mem_cons_self _ _, hge⟩]
      simp [transitions, transitions_replicate, hne]
    · rw [List.map_cons]
      simp only [if_neg hge]
      simp only [transitions, if_true, Nat.zero_add]
      rw [ih hpw.2]
      by_cases hex : ∃ u ∈ ts, t0 + 3000 ≤ u
      · rw [if_pos hex, if_pos]
        obtain ⟨u, hu, hu2⟩ := hex
        exact ⟨u, List.mem_cons_of_mem _ hu, hu2⟩
      · rw [if_neg hex, if_neg]
        rintro ⟨u, hu, hu2⟩
        rcases List.mem_cons.mp hu with rfl | hu
        · exact hge hu2
        · exact hex ⟨u, hu, hu2⟩

/-- C5 (amended): with the latch unset and all raw levels below Medium, the debounce
timer runs from the latest tick whose raw level equalled the confirmed level. After such
a tick at time `t0`, while another level is observed at ticks with increasing timestamps,
the confirmed level is unchanged after every tick earlier than `t0 + 3000` and is the
candidate after every tick from `t0 + 3000` on; so it changes exactly once when the
candidate is held that long, and not at all otherwise. -/
theorem debounce_after_agreement (s : LatchState) (r : RiskLevel) (t0 : Nat) (ts : List Nat)
    (hm : s.manual_reset_required = false) (hc : s.confirmed_level < RISK_LEVEL_MEDIUM)
    (hr : r < RISK_LEVEL_MEDIUM) (hne : r ≠ s.confirmed_level)
    (h0 : 0 < t0) (hb0 : t0 < UINT32_MOD)
    (hs : List.Pairwise (fun a b => a < b) (t0 :: ts)) (hb : ∀ t ∈ ts, t < UINT32_MOD) :
    levelTrace s (LatchEvent.tick s.confirmed_level t0 :: holdOf r ts) =
        s.confirmed_level ::
          ts.map (fun t => if t0 + 3000 ≤ t then r else s.confirmed_level) ∧
      transitions s.confirmed_level
          (levelTrace s (LatchEvent.tick s.confirmed_level t0 :: holdOf r ts)) =
        if ∃ t ∈ ts, t0 + 3000 ≤ t then 1 else 0 := by
  have hstep := EvaluateRisk_agree s t0 hc hm
  rw [Nat.mod_eq_of_lt hb0] at hstep
  have htr : levelTrace s (LatchEvent.tick s.confirmed_level t0 :: holdOf r ts) =
      (EvaluateRisk s s.confirmed_level t0).confirmed_level ::
        levelTrace (EvaluateRisk s s.confirmed_level t0) (holdOf r ts) := rfl
  have hcand := levelTrace_candidate { s with level_start_time := t0 } r ts hm hr hne h0 hs hb
  simp only at hcand
  have heq : levelTrace s (LatchEvent.tick s.confirmed_level t0 :: holdOf r ts) =
      s.confirmed_level ::
        ts.map (fun t => if t0 + 3000 ≤ t then r else s.confirmed_level) := by
    rw [htr, hstep, hcand]
  refine ⟨heq, ?_⟩
  rw [heq]
  simp only [transitions, if_true, Nat.zero_add]
  exact transitions_candidate s.confirmed_level r t0 ts hne (List.pairwise_cons.mp hs).2

/-- C5 (witness): after a Safe tick at 1000, Low at 1200, 2600, 4000 and 4200 changes
the confirmed level once, at the tick at 4000. -/
theorem debounce_after_agreement_witness :
    levelTrace LatchState.init
        (LatchEvent.tick LatchState.init.confirmed_level 1000 ::
          holdOf RISK_LEVEL_LOW [1200, 2600, 4000, 4200]) =
      LatchState.init.confirmed_level ::
        [1200, 2600, 4000, 4200].map
          (fun t => if 1000 + 3000 ≤ t then RISK_LEVEL_LOW
            else LatchState.init.confirmed_level) :=
  (debounce_after_agreement LatchState.init RISK_LEVEL_LOW 1000 [1200, 2600, 4000, 4200]
    rfl (by decide) (by decide) (by decide) (by decide) (by decide) (by decide)
    (by decide)).1

/-! ## Theorems: the telemetry cache -/

section Cache

variable {α : Type}

/-- Two offsets below the capacity that land on the same slot are equal. -/
theorem slot_inj (cap head k j : Nat) (hk : k < cap) (hj : j < cap)
    (h : (head + k) % cap = (head + j) % cap) : k = j := by
  have h1 : head + k ≡ head + j [MOD cap] := h
  have h2 : k ≡ j [MOD cap] := Nat.ModEq.add_left_cancel' head h1
  exact Nat.ModEq.eq_of_lt_of_lt h2 hk hj

theorem setItem_same (items : Nat → CachedDataItem α) (i : Nat) (v : CachedDataItem α) :
    setItem items i v i = v := by
  simp [setItem]

theorem setItem_other (items : Nat → CachedDataItem α) (i j : Nat) (v : CachedDataItem α)
    (h : j ≠ i) : setItem items i v j = items j := by
  simp [setItem, h]

/-- The queue of a non-empty cache starts with the item in the head slot. -/
theorem queue_cons (cap : Nat) (c : DataCache α) (hpos : 0 < c.count) (hh : c.head < cap) :
    queue cap c = c.items c.head ::
      (List.range (c.count - 1)).map (fun k => c.items ((c.head + (k + 1)) % cap)) := by
  unfold queue
  obtain ⟨n, hn⟩ : ∃ n, c.count = n + 1 := ⟨c.count - 1, by omega⟩
  rw [hn, List.range_succ_eq_map]
  simp [Nat.mod_eq_of_lt hh, Function.comp_def]

/-- Advancing `head` and lowering `count` removes the first item of the queue. -/
theorem queue_advance (cap : Nat) (c c2 : DataCache α) (hpos : 0 < c.count)
    (hh : c.head < cap) (hh2 : c2.head = (c.head + 1) % cap) (hc2 : c2.count = c.count - 1)
    (hi : ∀ k, 0 < k → k < c.count →
      c2.items ((c.head + k) % cap) = c.items ((c.head + k) % cap)) :
    queue cap c2 = (queue cap c).tail := by
  rw [queue_cons cap c hpos hh, List.tail_cons]
  unfold queue
  rw [hh2, hc2]
  apply List.map_congr_left
  intro k hk
  have hk2 : k < c.count - 1 := List.mem_range.mp hk
  rw [Nat.mod_add_mod, Nat.add_assoc, Nat.add_comm 1 k]
  exact hi (k + 1) (by omega) (by omega)

/-- Writing the slot after the window and raising `count` appends to the queue. -/
theorem queue_snoc (cap : Nat) (c c2 : DataCache α) (hh2 : c2.head = c.head)
    (hc2 : c2.count = c.count + 1)
    (hi : ∀ k, k < c.count → c2.items ((c.head + k) % cap) = c.items ((c.head + k) % cap)) :
    queue cap c2 = queue cap c ++ [c2.items ((c.head + c.count) % cap)] := by
  unfold queue
  rw [hh2, hc2, List.range_succ, List.map_append]
  congr 1
  apply List.map_congr_left
  intro k hk
  exact hi k (List.mem_range.mp hk)

/-- Advancing `head` keeps a cache well formed. -/
theorem CacheWF_advance (cap : Nat) (c c2 : DataCache α) (hwf : CacheWF cap c)
    (hpos : 0 < c.count) (hh2 : c2.head = (c.head + 1) % cap) (hc2 : c2.count = c.count - 1)
    (ht2 : c2.tail = c.tail)
    (hi : ∀ k, 0 < k → k < c.count →
      c2.items ((c.head + k) % cap) = c.items ((c.head + k) % cap)) :
    CacheWF cap c2 := by
  obtain ⟨h1, h2, h3, h4, h5⟩ := hwf
  have hcap : 0 < cap := by omega
  have hslot : ∀ k, (c2.head + k) % cap = (c.head + (k + 1)) % cap := by
    intro k
    rw [hh2, Nat.mod_add_mod, Nat.add_assoc, Nat.add_comm 1 k]
  refine ⟨?_, ?_, ?_, ?_, ?_⟩
  · rw [hh2]; exact Nat.mod_lt _ hcap
  · omega
  · rw [ht2, h3, hslot, hc2]
    congr 2
    omega
  · intro k hk
    rw [hslot, hi (k + 1) (by omega) (by omega)]
    exact h4 (k + 1) (by omega)
  · intro k _ hk
    rw [hslot, hi (k + 1) (by omega) (by omega)]
    exact h5 (k + 1) (by omega) (by omega)

/-- Writing a fresh valid item at `tail` keeps a cache with room well formed. -/
theorem CacheWF_snoc (cap : Nat) (c c2 : DataCache α) (hwf : CacheWF cap c)
    (hroom : c.count < cap) (hh2 : c2.head = c.head) (hc2 : c2.count = c.count + 1)
    (ht2 : c2.tail = (c.tail + 1) % cap)
    (hv : (c2.items c.tail).is_valid = true) (hr : (c2.items c.tail).retry_count = 0)
    (hi : ∀ j, j ≠ c.tail → c2.items j = c.items j) :
    CacheWF cap c2 ∧ queue cap c2 = queue cap c ++ [c2.items c.tail] := by
  obtain ⟨h1, h2, h3, h4, h5⟩ := hwf
  have hold : ∀ k, k < c.count → (c.head + k) % cap ≠ c.tail := by
    intro k hk heq
    rw [h3] at heq
    have := slot_inj cap c.head k c.count (by omega) hroom heq
    omega
  constructor
  · refine ⟨?_, ?_, ?_, ?_, ?_⟩
    · rw [hh2]; exact h1
    · omega
    · rw [ht2, h3, hh2, hc2, Nat.mod_add_mod, Nat.add_assoc]
    · intro k hk
      rw [hh2]
      by_cases hlast : k = c.count
      · rw [hlast, ← h3]; exact hv
      · rw [hi _ (hold k (by omega))]
        exact h4 k (by omega)
    · intro k hk0 hk
      rw [hh2]
      by_cases hlast : k = c.count
      · rw [hlast, ← h3]; exact hr
      · rw [hi _ (hold k (by omega))]
        exact h5 k hk0 (by omega)
  · rw [queue_snoc cap c c2 hh2 hc2 (fun k hk => hi _ (hold k hk)), ← h3]

/-- The item `DataCache_Add` writes. -/
theorem DataCache_Add_body_spec (cap : Nat) (c : DataCache α) (data : α) (tick : Nat)
    (hwf : CacheWF cap c) (hcap : 0 < cap) :
    CacheWF cap (DataCache_Add_body cap c data tick) ∧
      queue cap (DataCache_Add_body cap c data tick) =
        (if cap ≤ c.count then (queue cap c).tail else queue cap c) ++
          [{ data := data, timestamp := tick % UINT32_MOD, retry_count := 0,
             is_valid := true }] := by
  by_cases hfull : cap ≤ c.count
  · have hpos : 0 < c.count := by omega
    have hwf1 : CacheWF cap { c with head := (c.head + 1) % cap, count := c.count - 1 } :=
      CacheWF_advance cap c _ hwf hpos rfl rfl rfl (fun _ _ _ => rfl)
    have hq1 : queue cap { c with head := (c.head + 1) % cap, count := c.count - 1 } =
        (queue cap c).tail :=
      queue_advance cap c _ hpos hwf.1 rfl rfl (fun _ _ _ => rfl)
    have hroom : ({ c with head := (c.head + 1) % cap, count := c.count - 1 } :
        DataCache α).count < cap := by
      have := hwf.2.1
      show c.count - 1 < cap
      omega
    have hbody : DataCache_Add_body cap c data tick =
        { c with
          head := (c.head + 1) % cap
          items := setItem c.items c.tail
            { data := data, timestamp := tick % UINT32_MOD, retry_count := 0,
              is_valid := true }
          tail := (c.tail + 1) % cap
          count := c.count - 1 + 1
          total_cached := (c.total_cached + 1) % UINT32_MOD } := by
      simp [DataCache_Add_body, hfull]
    have hsn := CacheWF_snoc cap _ (DataCache_Add_body cap c data tick) hwf1 hroom
      (by rw [hbody]) (by rw [hbody]) (by rw [hbody])
      (by rw [hbody]; simp [setItem]) (by rw [hbody]; simp [setItem])
      (by intro j hj; rw [hbody]; exact setItem_other _ _ _ _ hj)
    refine ⟨hsn.1, ?_⟩
    rw [hsn.2, hq1, if_pos hfull, hbody]
    simp [setItem]
  · have hroom : c.count < cap := by omega
    have hbody : DataCache_Add_body cap c data tick =
        { c with
          items := setItem c.items c.tail
            { data := data, timestamp := tick % UINT32_MOD, retry_count := 0,
              is_valid := true }
          tail := (c.tail + 1) % cap
          count := c.count + 1
          total_cached := (c.total_cached + 1) % UINT32_MOD } := by
      simp [DataCache_Add_body, hfull]
    have hsn := CacheWF_snoc cap c (DataCache_Add_body cap c data tick) hwf hroom
      (by rw [hbody]) (by rw [hbody]) (by rw [hbody])
      (by rw [hbody]; simp [setItem]) (by rw [hbody]; simp [setItem])
      (by intro j hj; rw [hbody]; exact setItem_other _ _ _ _ hj)
    refine ⟨hsn.1, ?_⟩
    rw [hsn.2, if_neg hfull, hbody]
    simp [setItem]

theorem DataCache_Add_body_count (cap : Nat) (c : DataCache α) (data : α) (tick : Nat) :
    (DataCache_Add_body cap c data tick).count =
      if cap ≤ c.count then c.count - 1 + 1 else c.count + 1 := by
  by_cases hfull : cap ≤ c.count <;> simp [DataCache_Add_body, hfull]

theorem sendBody_count_le (cap : Nat) (conn : Nat → Bool) (st : SendState α) :
    (sendBody cap conn st).1.cache.count ≤ st.cache.count := by
  unfold sendBody advanceHead
  simp only
  split_ifs <;> simp

theorem sendLoop_count_le (cap : Nat) (conn : Nat → Bool) (fuel : Nat) (st : SendState α) :
    (sendLoop cap conn fuel st).cache.count ≤ st.cache.count := by
  induction fuel generalizing st with
  | zero => simp [sendLoop]
  | succ fuel ih =>
    unfold sendLoop
    split_ifs
    · exact sendBody_count_le cap conn st
    · exact Nat.le_trans (ih _) (sendBody_count_le cap conn st)
    · exact Nat.le_refl _

theorem DataCache_SendPending_count_le (cap : Nat) (st : CacheState α) (conn : Nat → Bool) :
    (DataCache_SendPending cap st conn).state.g_data_cache.count ≤ st.g_data_cache.count := by
  unfold DataCache_SendPending
  split_ifs
  · exact Nat.le_refl _
  · exact sendLoop_count_le cap conn 10 _

/-- A pass that stays in the loop raises `processed_count` by one. -/
theorem sendBody_processed (cap : Nat) (conn : Nat → Bool) (st : SendState α)
    (h : (sendBody cap conn st).2 = false) :
    (sendBody cap conn st).1.processed_count = st.processed_count + 1 := by
  revert h
  unfold sendBody
  simp only
  split_ifs <;> simp

/-- Ten passes are all the loop can make: any fuel that covers the distance of
`processed_count` from 10 gives the same result. -/
theorem sendLoop_fuel (cap : Nat) (conn : Nat → Bool) (n m : Nat) (st : SendState α)
    (hn : 10 ≤ st.processed_count + n) (hm : 10 ≤ st.processed_count + m) :
    sendLoop cap conn n st = sendLoop cap conn m st := by
  induction n generalizing m st with
  | zero =>
    cases m with
    | zero => rfl
    | succ m =>
      have : ¬ (st.processed_count < st.cache.count ∧ st.processed_count < 10) := by omega
      simp [sendLoop, this]
  | succ n ih =>
    cases m with
    | zero =>
      have : ¬ (st.processed_count < st.cache.count ∧ st.processed_count < 10) := by omega
      simp [sendLoop, this]
    | succ m =>
      unfold sendLoop
      split_ifs with hg hb
      · rfl
      · have hp := sendBody_processed cap conn st (by simpa using hb)
        exact ih m _ (by omega) (by omega)
      · rfl

theorem CacheOp_apply_count_le [Inhabited α] (cap : Nat) (r : CacheRun α) (op : CacheOp α)
    (hcap : 0 < cap) (h : r.state.g_data_cache.count ≤ cap) :
    (op.apply cap r).state.g_data_cache.count ≤ cap := by
  cases op with
  | add data tick =>
    simp only [CacheOp.apply, DataCache_Add]
    split_ifs
    · exact h
    · simp only [DataCache_Add_body_count]
      split_ifs <;> omega
  | sendPending conn =>
    exact Nat.le_trans (DataCache_SendPending_count_le cap r.state conn) h
  | clear =>
    simp only [CacheOp.apply, DataCache_Clear]
    split_ifs
    · exact h
    · exact Nat.zero_le _

theorem runOps_count_le [Inhabited α] (cap : Nat) (r : CacheRun α) (ops : List (CacheOp α))
    (hcap : 0 < cap) (h : r.state.g_data_cache.count ≤ cap) :
    (runOps cap r ops).state.g_data_cache.count ≤ cap := by
  induction ops generalizing r with
  | nil => exact h
  | cons op ops ih => exact ih (op.apply cap r) (CacheOp_apply_count_le cap r op hcap h)

/-- C6: for every sequence of `DataCache_Add`, `DataCache_SendPending` and
`DataCache_Clear` calls on the initialised cache, whatever the payloads, tick counts and
transport answers, `count` is at most the capacity after every call of the sequence. -/
theorem cache_count_le_capacity [Inhabited α] (cap : Nat) (ops : List (CacheOp α)) (n : Nat)
    (hcap : 0 < cap) :
    (runOps cap CacheRun.init (ops.take n)).state.g_data_cache.count ≤ cap :=
  runOps_count_le cap CacheRun.init (ops.take n) hcap (Nat.zero_le _)

/-- C7 (amended): on a well-formed full cache `DataCache_Add` succeeds, removes exactly
the oldest record (the item in the head slot), keeps every other queued item in order,
appends the new record as the newest with retry count 0, keeps `count` at the capacity
and raises `total_cached` by one; `total_failed` and `total_sent` keep their values, so
the eviction is not counted as a dropped record. -/
theorem add_to_full_cache_evicts_oldest (cap : Nat) (st : CacheState α) (data : α)
    (tick : Nat) (hcap : 0 < cap) (hinit : st.g_cache_initialized = true)
    (hwf : CacheWF cap st.g_data_cache) (hfull : st.g_data_cache.count = cap) :
    queue cap st.g_data_cache =
        st.g_data_cache.items st.g_data_cache.head :: (queue cap st.g_data_cache).tail ∧
      queue cap (DataCache_Add cap st (some data) tick).1.g_data_cache =
        (queue cap st.g_data_cache).tail ++
          [{ data := data, timestamp := tick % UINT32_MOD, retry_count := 0,
             is_valid := true }] ∧
      (DataCache_Add cap st (some data) tick).1.g_data_cache.count = cap ∧
      (DataCache_Add cap st (some data) tick).1.g_data_cache.total_cached =
        (st.g_data_cache.total_cached + 1) % UINT32_MOD ∧
      (DataCache_Add cap st (some data) tick).1.g_data_cache.total_failed =
        st.g_data_cache.total_failed ∧
      (DataCache_Add cap st (some data) tick).1.g_data_cache.total_sent =
        st.g_data_cache.total_sent ∧
      (DataCache_Add cap st (some data) tick).2 = 0 := by
  have hle : cap ≤ st.g_data_cache.count := by omega
  have hadd : DataCache_Add cap st (some data) tick =
      ({ st with g_data_cache := DataCache_Add_body cap st.g_data_cache data tick }, 0) := by
    simp [DataCache_Add, hinit]
  have hspec := DataCache_Add_body_spec cap st.g_data_cache data tick hwf hcap
  rw [if_pos hle] at hspec
  rw [hadd]
  refine ⟨?_, hspec.2, ?_, ?_, ?_, ?_, rfl⟩
  · rw [queue_cons cap st.g_data_cache (by omega) hwf.1, List.tail_cons]
  · simp only [DataCache_Add_body_count, if_pos hle]; omega
  · simp [DataCache_Add_body, hle]
  · simp [DataCache_Add_body, hle]
  · simp [DataCache_Add_body, hle]

/-- The pass on a valid head item whose retries are used up: the item is dropped. -/
theorem sendBody_drop (cap : Nat) (conn : Nat → Bool) (st : SendState α)
    (hcur : st.current_head = st.cache.head)
    (hv : (st.cache.items st.cache.head).is_valid = true)
    (hr : MAX_RETRY_COUNT ≤ (st.cache.items st.cache.head).retry_count) :
    sendBody cap conn st =
      ({ st with
         cache :=
           { st.cache with
             items := setItem st.cache.items st.cache.head
               { st.cache.items st.cache.head with is_valid := false }
             total_failed := (st.cache.total_failed + 1) % UINT32_MOD
             head := (st.cache.head + 1) % cap
             count := st.cache.count - 1 }
         current_head := (st.cache.head + 1) % cap
         processed_count := st.processed_count + 1 }, false) := by
  simp [sendBody, advanceHead, hcur, hv, hr]

/-- The pass on a valid head item with retries left while the transport is connected:
the item is handed to the transport and removed. -/
theorem sendBody_send (cap : Nat) (conn : Nat → Bool) (st : SendState α)
    (hcur : st.current_head = st.cache.head)
    (hv : (st.cache.items st.cache.head).is_valid = true)
    (hr : (st.cache.items st.cache.head).retry_count < MAX_RETRY_COUNT)
    (hc : conn st.processed_count = true) :
    sendBody cap conn st =
      ({ cache :=
           { st.cache with
             items := setItem st.cache.items st.cache.head
               { st.cache.items st.cache.head with is_valid := false }
             total_sent := (st.cache.total_sent + 1) % UINT32_MOD
             head := (st.cache.head + 1) % cap
             count := st.cache.count - 1 }
         current_head := (st.cache.head + 1) % cap
         processed_count := st.processed_count + 1
         sent_count := st.sent_count + 1
         sent := st.sent ++ [(st.cache.items st.cache.head).data] }, false) := by
  have hr2 : ¬ MAX_RETRY_COUNT ≤ (st.cache.items st.cache.head).retry_count := by omega
  simp [sendBody, advanceHead, hcur, hv, hr2, hc]

/-- The pass on a valid head item with retries left while the transport is down: the
retry count goes up and the loop is left. -/
theorem sendBody_fail (cap : Nat) (conn : Nat → Bool) (st : SendState α)
    (hcur : st.current_head = st.cache.head)
    (hv : (st.cache.items st.cache.head).is_valid = true)
    (hr : (st.cache.items st.cache.head).retry_count < MAX_RETRY_COUNT)
    (hc : conn st.processed_count = false) :
    sendBody cap conn st =
      ({ st with
         cache :=
           { st.cache with
             items := setItem st.cache.items st.cache.head
               { st.cache.items st.cache.head with
                 retry_count := (st.cache.items st.cache.head).retry_count + 1 } } },
        true) := by
  have hr2 : ¬ MAX_RETRY_COUNT ≤ (st.cache.items st.cache.head).retry_count := by omega
  simp [sendBody, hcur, hv, hr2, hc]

/-- The head item of a non-empty well-formed cache is valid. -/
theorem CacheWF_head_valid (cap : Nat) (c : DataCache α) (hwf : CacheWF cap c)
    (hpos : 0 < c.count) : (c.items c.head).is_valid = true := by
  have := hwf.2.2.2.1 0 hpos
  rwa [Nat.add_zero, Nat.mod_eq_of_lt hwf.1] at this

/-- The slots of the window behind the head differ from the head slot. -/
theorem CacheWF_slot_ne_head (cap : Nat) (c : DataCache α) (hwf : CacheWF cap c) (k : Nat)
    (hk0 : 0 < k) (hk : k < c.count) : (c.head + k) % cap ≠ c.head := by
  intro heq
  have h0 : (c.head + 0) % cap = c.head := by
    rw [Nat.add_zero, Nat.mod_eq_of_lt hwf.1]
  have := slot_inj cap c.head k 0 (by have := hwf.2.1; omega) (by have := hwf.1; omega)
    (by rw [heq, h0])
  omega

/-- Removing the head item, whatever is written into its slot, keeps the cache well
formed and removes the first item of the queue. -/
theorem CacheWF_pop (cap : Nat) (c c2 : DataCache α) (v : CachedDataItem α)
    (hwf : CacheWF cap c) (hpos : 0 < c.count) (hh2 : c2.head = (c.head + 1) % cap)
    (hc2 : c2.count = c.count - 1) (ht2 : c2.tail = c.tail)
    (hi2 : c2.items = setItem c.items c.head v) :
    CacheWF cap c2 ∧ queue cap c2 = (queue cap c).tail := by
  have hi : ∀ k, 0 < k → k < c.count →
      c2.items ((c.head + k) % cap) = c.items ((c.head + k) % cap) := by
    intro k hk0 hk
    rw [hi2]
    exact setItem_other _ _ _ _ (CacheWF_slot_ne_head cap c hwf k hk0 hk)
  exact ⟨CacheWF_advance cap c c2 hwf hpos hh2 hc2 ht2 hi,
    queue_advance cap c c2 hpos hwf.1 hh2 hc2 hi⟩

/-- Rewriting the head item in place, keeping it valid, keeps the cache well formed and
changes only the first item of the queue. -/
theorem CacheWF_touch (cap : Nat) (c c2 : DataCache α) (v : CachedDataItem α)
    (hwf : CacheWF cap c) (hpos : 0 < c.count) (hh2 : c2.head = c.head)
    (hc2 : c2.count = c.count) (ht2 : c2.tail = c.tail)
    (hi2 : c2.items = setItem c.items c.head v) (hv : v.is_valid = true) :
    CacheWF cap c2 ∧ queue cap c2 = v :: (queue cap c).tail := by
  obtain ⟨h1, h2, h3, h4, h5⟩ := hwf
  have hi : ∀ k, 0 < k → k < c.count →
      c2.items ((c.head + k) % cap) = c.items ((c.head + k) % cap) := by
    intro k hk0 hk
    rw [hi2]
    exact setItem_other _ _ _ _ (CacheWF_slot_ne_head cap c ⟨h1, h2, h3, h4, h5⟩ k hk0 hk)
  have hhead : c2.items c.head = v := by rw [hi2]; exact setItem_same _ _ _
  constructor
  · refine ⟨by rw [hh2]; exact h1, by omega, by rw [ht2, hh2, hc2]; exact h3, ?_, ?_⟩
    · intro k hk
      rw [hh2]
      by_cases hk0 : k = 0
      · rw [hk0, Nat.add_zero, Nat.mod_eq_of_lt h1, hhead]; exact hv
      · rw [hi k (by omega) (by omega)]; exact h4 k (by omega)
    · intro k hk0 hk
      rw [hh2, hi k hk0 (by omega)]
      exact h5 k hk0 (by omega)
  · have hpos2 : 0 < c2.count := by omega
    have hh2lt : c2.head < cap := by rw [hh2]; exact h1
    rw [queue_cons cap c2 hpos2 hh2lt, queue_cons cap c hpos h1, List.tail_cons, hh2, hc2,
      hhead]
    congr 1
    apply List.map_congr_left
    intro k hk
    have hk2 : k < c.count - 1 := List.mem_range.mp hk
    exact hi (k + 1) (by omega) (by omega)

/-- The induction principle of the send loop: `P` holds on entry and is kept by every
pass that stays in the loop, `Q` follows from `P` on leaving through the guard and holds
after every pass that leaves through `break`. -/
theorem sendLoop_induct (cap : Nat) (conn : Nat → Bool) (P Q : SendState α → Prop)
    (hstay : ∀ st, P st → st.processed_count < st.cache.count → st.processed_count < 10 →
      (sendBody cap conn st).2 = false → P (sendBody cap conn st).1)
    (hbreak : ∀ st, P st → st.processed_count < st.cache.count → st.processed_count < 10 →
      (sendBody cap conn st).2 = true → Q (sendBody cap conn st).1)
    (hexit : ∀ st, P st → Q st) (fuel : Nat) (st : SendState α) (h : P st) :
    Q (sendLoop cap conn fuel st) := by
  induction fuel generalizing st with
  | zero => exact hexit st h
  | succ fuel ih =>
    unfold sendLoop
    split_ifs with hg hb
    · exact hbreak st h hg.1 hg.2 hb
    · exact ih _ (hstay st h hg.1 hg.2 (by simpa using hb))
    · exact hexit st h

theorem queueData_cons (cap : Nat) (c : DataCache α) (hpos : 0 < c.count)
    (hh : c.head < cap) :
    queueData cap c = (c.items c.head).data :: (queueData cap c).tail := by
  unfold queueData
  rw [queue_cons cap c hpos hh]
  simp

theorem queueData_tail (cap : Nat) (c : DataCache α) :
    (queueData cap c).tail = (queue cap c).tail.map (fun it => it.data) := by
  unfold queueData
  rw [List.map_tail]

/-- What one pass of the send loop does to a well-formed cache whose scan position is
the head: the cache stays well formed, the scan position stays the head when the loop
goes on, the queue loses a front part `mid` (empty or the head item), and what the pass
hands to the transport is a sublist of `mid`. -/
theorem sendBody_queue (cap : Nat) (conn : Nat → Bool) (st : SendState α)
    (hwf : CacheWF cap st.cache) (hcur : st.current_head = st.cache.head)
    (hg : st.processed_count < st.cache.count) :
    CacheWF cap (sendBody cap conn st).1.cache ∧
      ((sendBody cap conn st).2 = false →
        (sendBody cap conn st).1.current_head = (sendBody cap conn st).1.cache.head) ∧
      ∃ mid new, queueData cap st.cache = mid ++ queueData cap (sendBody cap conn st).1.cache ∧
        (sendBody cap conn st).1.sent = st.sent ++ new ∧ new.Sublist mid := by
  have hpos : 0 < st.cache.count := by omega
  have hv := CacheWF_head_valid cap st.cache hwf hpos
  have hqd := queueData_cons cap st.cache hpos hwf.1
  by_cases hr : MAX_RETRY_COUNT ≤ (st.cache.items st.cache.head).retry_count
  · rw [sendBody_drop cap conn st hcur hv hr]
    have hpop := CacheWF_pop cap st.cache
      { st.cache with
        items := setItem st.cache.items st.cache.head
          { st.cache.items st.cache.head with is_valid := false }
        total_failed := (st.cache.total_failed + 1) % UINT32_MOD
        head := (st.cache.head + 1) % cap
        count := st.cache.count - 1 } _ hwf hpos rfl rfl rfl rfl
    refine ⟨hpop.1, fun _ => rfl, [(st.cache.items st.cache.head).data], [], ?_, ?_, ?_⟩
    · simp only [queueData] at hqd ⊢
      rw [hpop.2, List.map_tail]
      exact hqd
    · simp
    · exact List.nil_sublist _
  · have hr2 : (st.cache.items st.cache.head).retry_count < MAX_RETRY_COUNT := by omega
    cases hc : conn st.processed_count with
    | true =>
      rw [sendBody_send cap conn st hcur hv hr2 hc]
      have hpop := CacheWF_pop cap st.cache
        { st.cache with
          items := setItem st.cache.items st.cache.head
            { st.cache.items st.cache.head with is_valid := false }
          total_sent := (st.cache.total_sent + 1) % UINT32_MOD
          head := (st.cache.head + 1) % cap
          count := st.cache.count - 1 } _ hwf hpos rfl rfl rfl rfl
      refine ⟨hpop.1, fun _ => rfl, [(st.cache.items st.cache.head).data],
        [(st.cache.items st.cache.head).data], ?_, rfl, List.Sublist.refl _⟩
      simp only [queueData] at hqd ⊢
      rw [hpop.2, List.map_tail]
      exact hqd
    | false =>
      rw [sendBody_fail cap conn st hcur hv hr2 hc]
      have htouch := CacheWF_touch cap st.cache
        { st.cache with
          items := setItem st.cache.items st.cache.head
            { st.cache.items st.cache.head with
              retry_count := (st.cache.items st.cache.head).retry_count + 1 } } _
        hwf hpos rfl rfl rfl rfl hv
      refine ⟨htouch.1, fun h => absurd h (by simp), [], [], ?_, ?_, List.Sublist.refl _⟩
      · simp only [queueData] at hqd ⊢
        rw [htouch.2, List.nil_append, List.map_cons, List.map_tail]
        exact hqd
      · simp

/-- The send loop on a well-formed cache scanned from the head: the cache stays well
formed, the queue loses a front part, and what the loop hands to the transport is a
sublist of that front part. -/
theorem sendLoop_queue (cap : Nat) (conn : Nat → Bool) (q0 : List α) (fuel : Nat)
    (st : SendState α) (hwf : CacheWF cap st.cache) (hcur : st.current_head = st.cache.head)
    (hq : ∃ front, q0 = front ++ queueData cap st.cache ∧ st.sent.Sublist front) :
    CacheWF cap (sendLoop cap conn fuel st).cache ∧
      ∃ front, q0 = front ++ queueData cap (sendLoop cap conn fuel st).cache ∧
        (sendLoop cap conn fuel st).sent.Sublist front := by
  have key : ∀ st : SendState α,
      (CacheWF cap st.cache ∧ st.current_head = st.cache.head ∧
        ∃ front, q0 = front ++ queueData cap st.cache ∧ st.sent.Sublist front) →
      st.processed_count < st.cache.count →
      CacheWF cap (sendBody cap conn st).1.cache ∧
        ((sendBody cap conn st).2 = false →
          (sendBody cap conn st).1.current_head = (sendBody cap conn st).1.cache.head) ∧
        ∃ front, q0 = front ++ queueData cap (sendBody cap conn st).1.cache ∧
          (sendBody cap conn st).1.sent.Sublist front := by
    intro st hP hg
    obtain ⟨hwf, hcur, front, hq0, hsub⟩ := hP
    obtain ⟨hwf2, hcur2, mid, new, hmid, hsent, hnew⟩ := sendBody_queue cap conn st hwf hcur hg
    refine ⟨hwf2, hcur2, front ++ mid, ?_, ?_⟩
    · rw [hq0, hmid, List.append_assoc]
    · rw [hsent]
      exact List.Sublist.append hsub hnew
  exact sendLoop_induct cap conn
    (fun st => CacheWF cap st.cache ∧ st.current_head = st.cache.head ∧
      ∃ front, q0 = front ++ queueData cap st.cache ∧ st.sent.Sublist front)
    (fun st => CacheWF cap st.cache ∧
      ∃ front, q0 = front ++ queueData cap st.cache ∧ st.sent.Sublist front)
    (fun st hP hg _ hb => ⟨(key st hP hg).1, (key st hP hg).2.1 hb, (key st hP hg).2.2⟩)
    (fun st hP hg _ _ => ⟨(key st hP hg).1, (key st hP hg).2.2⟩)
    (fun st hP => ⟨hP.1, hP.2.2⟩) fuel st ⟨hwf, hcur, hq⟩

/-- A call of `DataCache_SendPending` on a well-formed cache: the cache stays well formed,
the queue loses a front part, and the payloads handed to the transport are a sublist of
that front part. -/
theorem DataCache_SendPending_queue (cap : Nat) (st : CacheState α) (conn : Nat → Bool)
    (hwf : CacheWF cap st.g_data_cache) :
    CacheWF cap (DataCache_SendPending cap st conn).state.g_data_cache ∧
      (DataCache_SendPending cap st conn).state.g_cache_initialized = st.g_cache_initialized ∧
      ∃ front, queueData cap st.g_data_cache =
          front ++ queueData cap (DataCache_SendPending cap st conn).state.g_data_cache ∧
        (DataCache_SendPending cap st conn).sent.Sublist front := by
  unfold DataCache_SendPending
  split_ifs
  · exact ⟨hwf, rfl, [], rfl, List.Sublist.refl _⟩
  · have := sendLoop_queue cap conn (queueData cap st.g_data_cache) 10
      (SendState.start st.g_data_cache) hwf rfl ⟨[], rfl, List.Sublist.refl _⟩
    exact ⟨this.1, rfl, this.2⟩

/-- The property of a run that its history explains its cache: the cache is initialised
and well formed, and `hist` followed by the enqueued payloads splits into a front part,
of which the transmitted payloads are a sublist, and the payloads still queued. -/
theorem CacheOp_apply_history [Inhabited α] (cap : Nat) (hist : List α) (r : CacheRun α)
    (op : CacheOp α) (hcap : 0 < cap)
    (h : r.state.g_cache_initialized = true ∧ CacheWF cap r.state.g_data_cache ∧
      ∃ front, hist ++ r.enqueued = front ++ queueData cap r.state.g_data_cache ∧
        r.transmitted.Sublist front) :
    (op.apply cap r).state.g_cache_initialized = true ∧
      CacheWF cap (op.apply cap r).state.g_data_cache ∧
      ∃ front, hist ++ (op.apply cap r).enqueued =
          front ++ queueData cap (op.apply cap r).state.g_data_cache ∧
        (op.apply cap r).transmitted.Sublist front := by
  obtain ⟨hinit, hwf, front, hq, hsub⟩ := h
  cases op with
  | add data tick =>
    have hadd : DataCache_Add cap r.state (some data) tick =
        ({ r.state with
           g_data_cache := DataCache_Add_body cap r.state.g_data_cache data tick }, 0) := by
      simp [DataCache_Add, hinit]
    have hspec := DataCache_Add_body_spec cap r.state.g_data_cache data tick hwf hcap
    simp only [CacheOp.apply, hadd]
    refine ⟨hinit, hspec.1, ?_⟩
    by_cases hfull : cap ≤ r.state.g_data_cache.count
    · have hpos : 0 < r.state.g_data_cache.count := by omega
      have hqd := queueData_cons cap r.state.g_data_cache hpos hwf.1
      refine ⟨front ++ [(r.state.g_data_cache.items r.state.g_data_cache.head).data], ?_, ?_⟩
      · have h2 : queueData cap (DataCache_Add_body cap r.state.g_data_cache data tick) =
            (queueData cap r.state.g_data_cache).tail ++ [data] := by
          rw [queueData_tail]
          simp only [queueData]
          rw [hspec.2, if_pos hfull]
          simp
        rw [h2, ← List.append_assoc, hq, hqd]
        simp
      · exact List.Sublist.trans hsub (List.sublist_append_left _ _)
    · refine ⟨front, ?_, hsub⟩
      have h2 : queueData cap (DataCache_Add_body cap r.state.g_data_cache data tick) =
          queueData cap r.state.g_data_cache ++ [data] := by
        simp only [queueData]
        rw [hspec.2, if_neg hfull]
        simp
      rw [h2, ← List.append_assoc, hq, List.append_assoc]
  | sendPending conn =>
    obtain ⟨hwf2, hinit2, mid, hmid, hsent⟩ := DataCache_SendPending_queue cap r.state conn hwf
    simp only [CacheOp.apply]
    refine ⟨by rw [hinit2]; exact hinit, hwf2, front ++ mid, ?_, ?_⟩
    · rw [hq, hmid, List.append_assoc]
    · exact List.Sublist.append hsub hsent
  | clear =>
    simp only [CacheOp.apply, DataCache_Clear, hinit]
    refine ⟨rfl, ?_, front ++ queueData cap r.state.g_data_cache, ?_, ?_⟩
    · refine ⟨hcap, Nat.zero_le _, ?_, ?_, ?_⟩
      · simp
      · intro k hk; exact absurd hk (by simp)
      · intro k _ hk; exact absurd hk (by simp)
    · simp [queueData, queue, hq]
    · exact List.Sublist.trans hsub (List.sublist_append_left _ _)

theorem runOps_history [Inhabited α] (cap : Nat) (hist : List α) (r : CacheRun α)
    (ops : List (CacheOp α)) (hcap : 0 < cap)
    (h : r.state.g_cache_initialized = true ∧ CacheWF cap r.state.g_data_cache ∧
      ∃ front, hist ++ r.enqueued = front ++ queueData cap r.state.g_data_cache ∧
        r.transmitted.Sublist front) :
    (runOps cap r ops).state.g_cache_initialized = true ∧
      CacheWF cap (runOps cap r ops).state.g_data_cache ∧
      ∃ front, hist ++ (runOps cap r ops).enqueued =
          front ++ queueData cap (runOps cap r ops).state.g_data_cache ∧
        (runOps cap r ops).transmitted.Sublist front := by
  induction ops generalizing r with
  | nil => exact h
  | cons op ops ih => exact ih (op.apply cap r) (CacheOp_apply_history cap hist r op hcap h)

theorem CacheWF_init [Inhabited α] (cap : Nat) (hcap : 0 < cap) :
    CacheWF cap (CacheState.init : CacheState α).g_data_cache := by
  refine ⟨hcap, Nat.zero_le _, ?_, ?_, ?_⟩
  · simp [CacheState.init]
  · intro k hk; exact absurd hk (by simp [CacheState.init])
  · intro k _ hk; exact absurd hk (by simp [CacheState.init])

/-- C8: for every sequence of `DataCache_Add`, `DataCache_SendPending` and
`DataCache_Clear` calls on the initialised cache, the payloads handed to the transport,
in the order of their transmission, are a sublist of the payloads in the order of their
enqueueing: of two transmitted records the one enqueued first is transmitted first. -/
theorem transmitted_sublist_enqueued [Inhabited α] (cap : Nat) (ops : List (CacheOp α))
    (hcap : 0 < cap) :
    (runOps cap CacheRun.init ops).transmitted.Sublist (runOps cap CacheRun.init ops).enqueued := by
  obtain ⟨_, _, front, hq, hsub⟩ := runOps_history cap [] CacheRun.init ops hcap
    ⟨rfl, CacheWF_init cap hcap, [], by simp [CacheRun.init, queueData, queue, CacheState.init],
      List.Sublist.refl _⟩
  rw [List.nil_append] at hq
  rw [hq]
  exact List.Sublist.trans hsub (List.sublist_append_left _ _)

/-- A drain of an initialised, non-empty cache runs the loop. -/
theorem DataCache_SendPending_eq (cap : Nat) (st : CacheState α) (conn : Nat → Bool)
    (hinit : st.g_cache_initialized = true) (hpos : 0 < st.g_data_cache.count) :
    DataCache_SendPending cap st conn =
      { state :=
          { st with
            g_data_cache := (sendLoop cap conn 10 (SendState.start st.g_data_cache)).cache }
        sent_count := (sendLoop cap conn 10 (SendState.start st.g_data_cache)).sent_count
        sent := (sendLoop cap conn 10 (SendState.start st.g_data_cache)).sent } := by
  unfold DataCache_SendPending
  rw [if_neg]
  simp only [hinit, Bool.not_true, Bool.false_or, beq_iff_eq]
  omega

end Cache

/-- C8 (witness): the order of transmission at the capacity of the firmware, on a run
with an eviction-free backlog, a failed drain and a successful one. -/
theorem transmitted_sublist_enqueued_witness :
    0 < MAX_CACHE_SIZE ∧
      (runOps MAX_CACHE_SIZE CacheRun.init
        ([CacheOp.add 7 100, CacheOp.add 8 200, CacheOp.sendPending (fun _ => false),
          CacheOp.add 9 300, CacheOp.sendPending (fun _ => true)] :
            List (CacheOp Nat))).transmitted.Sublist
        (runOps MAX_CACHE_SIZE CacheRun.init
          ([CacheOp.add 7 100, CacheOp.add 8 200, CacheOp.sendPending (fun _ => false),
            CacheOp.add 9 300, CacheOp.sendPending (fun _ => true)] :
              List (CacheOp Nat))).enqueued :=
  ⟨by decide, transmitted_sublist_enqueued MAX_CACHE_SIZE _ (by decide)⟩

/-- C9 (failing input): with capacity 3, the records A, B, C, D are enqueued while the
transport is down, which leaves B, C, D queued; the drain with the transport up hands
only B and C to the transport, returns 2, raises `total_sent` to 2 and leaves D queued.
The same happens at the capacity of the firmware with B, C, D queued. -/
theorem drain_stops_halfway :
    queueData 3 (runOps 3 CacheRun.init
        [.add 'A' 10, .add 'B' 20, .add 'C' 30, .add 'D' 40]).state.g_data_cache
        = ['B', 'C', 'D'] ∧
      (DataCache_SendPending 3 (runOps 3 CacheRun.init
        [.add 'A' 10, .add 'B' 20, .add 'C' 30, .add 'D' 40]).state (fun _ => true)).sent
        = ['B', 'C'] ∧
      (DataCache_SendPending 3 (runOps 3 CacheRun.init
        [.add 'A' 10, .add 'B' 20, .add 'C' 30, .add 'D' 40]).state (fun _ => true)).sent_count
        = 2 ∧
      (DataCache_SendPending 3 (runOps 3 CacheRun.init
        [.add 'A' 10, .add 'B' 20, .add 'C' 30, .add 'D' 40]).state
        (fun _ => true)).state.g_data_cache.total_sent = 2 ∧
      queueData 3 (DataCache_SendPending 3 (runOps 3 CacheRun.init
        [.add 'A' 10, .add 'B' 20, .add 'C' 30, .add 'D' 40]).state
        (fun _ => true)).state.g_data_cache = ['D'] ∧
      (DataCache_SendPending MAX_CACHE_SIZE (runOps MAX_CACHE_SIZE CacheRun.init
        [.add 'B' 20, .add 'C' 30, .add 'D' 40]).state (fun _ => true)).sent = ['B', 'C'] ∧
      queueData MAX_CACHE_SIZE (DataCache_SendPending MAX_CACHE_SIZE
        (runOps MAX_CACHE_SIZE CacheRun.init
          [.add 'B' 20, .add 'C' 30, .add 'D' 40]).state
        (fun _ => true)).state.g_data_cache = ['D'] := by
  decide

/-- C6 (witness): the bound at the capacity of the firmware, after the first five calls
of a sequence of three enqueues, a drain, a clear and a further enqueue. -/
theorem cache_count_le_capacity_witness :
    0 < MAX_CACHE_SIZE ∧
      (runOps MAX_CACHE_SIZE CacheRun.init
        (([CacheOp.add 7 100, CacheOp.add 8 200, CacheOp.add 9 300,
          CacheOp.sendPending (fun _ => true), CacheOp.clear, CacheOp.add 10 400] :
            List (CacheOp Nat)).take 5)).state.g_data_cache.count ≤ MAX_CACHE_SIZE :=
  ⟨by decide, cache_count_le_capacity MAX_CACHE_SIZE _ 5 (by decide)⟩

/-- C7 (witness): the enqueue of a fourth record into the cache of capacity 3 filled by
three enqueues. -/
theorem add_to_full_cache_evicts_oldest_witness :
    (runOps 3 CacheRun.init
        ([CacheOp.add 1 10, CacheOp.add 2 20, CacheOp.add 3 30] :
          List (CacheOp Nat))).state.g_data_cache.count = 3 ∧
      queue 3 (DataCache_Add 3 (runOps 3 CacheRun.init
        ([CacheOp.add 1 10, CacheOp.add 2 20, CacheOp.add 3 30] :
          List (CacheOp Nat))).state (some 4) 40).1.g_data_cache =
        (queue 3 (runOps 3 CacheRun.init
          ([CacheOp.add 1 10, CacheOp.add 2 20, CacheOp.add 3 30] :
            List (CacheOp Nat))).state.g_data_cache).tail ++
          [{ data := 4, timestamp := 40 % UINT32_MOD, retry_count := 0, is_valid := true }] :=
  ⟨by decide,
    (add_to_full_cache_evicts_oldest 3
      (runOps 3 CacheRun.init
        ([CacheOp.add 1 10, CacheOp.add 2 20, CacheOp.add 3 30] : List (CacheOp Nat))).state
      4 40 (by decide) rfl
      (runOps_history 3 [] CacheRun.init _ (by decide)
        ⟨rfl, CacheWF_init 3 (by decide), [], rfl, List.Sublist.refl _⟩).2.1
      (by decide)).2.1⟩

set_option maxRecDepth 100000 in
/-- C7 (counterexample): after 100 enqueues the cache of the firmware is full with
`total_failed = 0`, and the enqueue that follows leaves `total_failed` at 0 although it
evicts a record. -/
theorem eviction_not_counted :
    (runOps MAX_CACHE_SIZE CacheRun.init
        ((List.range 100).map (fun k => CacheOp.add k k))).state.g_data_cache.count
        = MAX_CACHE_SIZE ∧
      (runOps MAX_CACHE_SIZE CacheRun.init
        ((List.range 100).map (fun k => CacheOp.add k k))).state.g_data_cache.total_failed
        = 0 ∧
      (DataCache_Add MAX_CACHE_SIZE
        (runOps MAX_CACHE_SIZE CacheRun.init
          ((List.range 100).map (fun k => CacheOp.add k k))).state
        (some 100) 100).1.g_data_cache.total_failed = 0 ∧
      (queueData MAX_CACHE_SIZE (DataCache_Add MAX_CACHE_SIZE
        (runOps MAX_CACHE_SIZE CacheRun.init
          ((List.range 100).map (fun k => CacheOp.add k k))).state
        (some 100) 100).1.g_data_cache).head? = some 1 := by
  decide

/-! ## Theorems: risk factors and raw level -/

/-- Sample values of the binary32 rounding: the constants of the source, a value that is
already a binary32 number, and two ties, which go to the even neighbour. -/
theorem f32_samples :
    f32 0 = 0 ∧ f32 1 = 1 ∧ f32 0.5 = 0.5 ∧ f32 0.25 = 0.25 ∧
      f32 0.1 = 13421773 / 134217728 ∧ f32 0.2 = 13421773 / 67108864 ∧
      f32 0.3 = 5033165 / 16777216 ∧ f32 0.4 = 13421773 / 33554432 ∧
      f32 0.6 = 5033165 / 8388608 ∧ f32 0.7 = 11744051 / 16777216 ∧
      f32 0.8 = 13421773 / 16777216 ∧ f32 0.05 = 13421773 / 268435456 ∧
      f32 (f32 0.8) = f32 0.8 ∧ f32 (-0.3) = -f32 0.3 ∧
      f32 (1 + 1 / 16777216) = 1 ∧ f32 (1 + 3 / 16777216) = 1 + 1 / 4194304 := by
  decide!

/-- The values the tilt factor can take. -/
theorem EvaluateRisk_tilt_risk_mem (a : ℚ) :
    EvaluateRisk_tilt_risk a ∈ [0, f32 0.3, f32 0.6, f32 0.8, (1 : ℚ)] := by
  unfold EvaluateRisk_tilt_risk
  split_ifs <;> simp

/-- The values the vibration factor can take. -/
theorem EvaluateRisk_vibration_risk_mem (v : ℚ) :
    EvaluateRisk_vibration_risk v ∈ [0, f32 0.2, f32 0.4, f32 0.7, (1 : ℚ)] := by
  unfold EvaluateRisk_vibration_risk
  split_ifs <;> simp

/-- The values the humidity factor can take: a level score, a level score with the
bonus added in binary32, or the clamp. -/
theorem EvaluateRisk_humidity_risk_mem (h t : ℚ) :
    EvaluateRisk_humidity_risk h t ∈
      [0, f32 0.3, f32 0.6, f32 0.8, f32 (f32 0.6 + f32 0.3), (1 : ℚ)] := by
  have e0 : f32 (0 + f32 0.3) = f32 0.3 := by decide!
  have e3 : f32 (f32 0.3 + f32 0.3) = f32 0.6 := by decide!
  have c8 : f32 (f32 0.8 + f32 0.3) > 1 := by decide!
  have c6 : ¬ f32 (f32 0.6 + f32 0.3) > 1 := by decide!
  have n8 : ¬ f32 0.8 > 1 := by decide!
  have n6 : ¬ f32 0.6 > 1 := by decide!
  have n3 : ¬ f32 0.3 > 1 := by decide!
  have n0 : ¬ (0 : ℚ) > 1 := by decide!
  unfold EvaluateRisk_humidity_risk
  dsimp only
  by_cases ht : t > 10
  · simp only [if_pos ht]
    by_cases h90 : h > 90
    · simp only [if_pos h90, if_pos c8]
      simp
    · by_cases h80 : h > 80
      · simp only [if_neg h90, if_pos h80, if_neg c6]
        simp
      · by_cases h70 : h > 70
        · simp only [if_neg h90, if_neg h80, if_pos h70, e3, if_neg n6]
          simp
        · simp only [if_neg h90, if_neg h80, if_neg h70, e0, if_neg n3]
          simp
  · simp only [if_neg ht]
    by_cases h90 : h > 90
    · simp only [if_pos h90, if_neg n8]
      simp
    · by_cases h80 : h > 80
      · simp only [if_neg h90, if_pos h80, if_neg n6]
        simp
      · by_cases h70 : h > 70
        · simp only [if_neg h90, if_neg h80, if_pos h70, if_neg n3]
          simp
        · simp only [if_neg h90, if_neg h80, if_neg h70, if_neg n0]
          simp

/-- The values the light factor can take. -/
theorem EvaluateRisk_light_risk_mem (l : ℚ) :
    EvaluateRisk_light_risk l ∈ [0, f32 (0.5 : ℚ)] := by
  unfold EvaluateRisk_light_risk
  split_ifs <;> simp

/-- The values the deformation factor can take. -/
theorem EvaluateRisk_gps_deform_risk_mem (d : DeformationRisk) :
    EvaluateRisk_gps_deform_risk d ∈ [0, f32 0.3, f32 0.6, f32 0.8, (1 : ℚ)] := by
  cases d <;> simp [EvaluateRisk_gps_deform_risk]

/-- The tilt factor lies between 0 and 1. -/
theorem EvaluateRisk_tilt_risk_bounds (a : ℚ) :
    0 ≤ EvaluateRisk_tilt_risk a ∧ EvaluateRisk_tilt_risk a ≤ 1 :=
  (by decide! : ∀ x ∈ [0, f32 0.3, f32 0.6, f32 0.8, (1 : ℚ)], 0 ≤ x ∧ x ≤ 1) _
    (EvaluateRisk_tilt_risk_mem a)

/-- The vibration factor lies between 0 and 1. -/
theorem EvaluateRisk_vibration_risk_bounds (v : ℚ) :
    0 ≤ EvaluateRisk_vibration_risk v ∧ EvaluateRisk_vibration_risk v ≤ 1 :=
  (by decide! : ∀ x ∈ [0, f32 0.2, f32 0.4, f32 0.7, (1 : ℚ)], 0 ≤ x ∧ x ≤ 1) _
    (EvaluateRisk_vibration_risk_mem v)

/-- The humidity factor lies between 0 and 1. -/
theorem EvaluateRisk_humidity_risk_bounds (h t : ℚ) :
    0 ≤ EvaluateRisk_humidity_risk h t ∧ EvaluateRisk_humidity_risk h t ≤ 1 :=
  (by decide! : ∀ x ∈ [0, f32 0.3, f32 0.6, f32 0.8, f32 (f32 0.6 + f32 0.3), (1 : ℚ)],
    0 ≤ x ∧ x ≤ 1) _ (EvaluateRisk_humidity_risk_mem h t)

/-- The light factor lies between 0 and 1. -/
theorem EvaluateRisk_light_risk_bounds (l : ℚ) :
    0 ≤ EvaluateRisk_light_risk l ∧ EvaluateRisk_light_risk l ≤ 1 :=
  (by decide! : ∀ x ∈ [0, f32 (0.5 : ℚ)], 0 ≤ x ∧ x ≤ 1) _ (EvaluateRisk_light_risk_mem l)

/-- The deformation factor lies between 0 and 1. -/
theorem EvaluateRisk_gps_deform_risk_bounds (d : DeformationRisk) :
    0 ≤ EvaluateRisk_gps_deform_risk d ∧ EvaluateRisk_gps_deform_risk d ≤ 1 :=
  (by decide! : ∀ x ∈ [0, f32 0.3, f32 0.6, f32 0.8, (1 : ℚ)], 0 ≤ x ∧ x ≤ 1) _
    (EvaluateRisk_gps_deform_risk_mem d)


set_option maxRecDepth 1000000 in
/-- The comparison of the binary32 classification with the exact one over every
combination of factor values the factor rules can produce. -/
theorem float_classification_table :
    ∀ t ∈ [0, f32 0.3, f32 0.6, f32 0.8, (1 : ℚ)],
    ∀ v ∈ [0, f32 0.2, f32 0.4, f32 0.7, (1 : ℚ)],
    ∀ h ∈ [0, f32 0.3, f32 0.6, f32 0.8, f32 (f32 0.6 + f32 0.3), (1 : ℚ)],
    ∀ l ∈ [0, f32 (0.5 : ℚ)],
    ∀ g ∈ [0, f32 0.3, f32 0.6, f32 0.8, (1 : ℚ)],
      floatMatchesSpec t v h l g := by
  decide!


/-- The score of five given factor values. -/
theorem total_risk_score_mk (t v h l g : ℚ) :
    total_risk_score
      { tilt_risk := t, vibration_risk := v, humidity_risk := h, light_risk := l,
        gps_deform_risk := g } = accumulate_score t v h l g := rfl

/-- C15 (counterexample): a sample tilted by 17 degrees with vibration intensity 15 and
a light change of 2000, a humidity of 85 and a Low deformation risk. The factors are
`0.8f`, `0.2f`, `0.6f`, `0.5f` and `0.3f`; the binary32 accumulation ends just below
`0.6f` and the raw level is Medium, while the exact weighted sum, of these factor values
as of the decimals 0.8, 0.2, 0.6, 0.5 and 0.3, is at least 0.6 and classifies as High. -/
theorem float_score_falls_short :
    EvaluateRisk_factors
        { ProcessedData.zero with
          angle_magnitude := 17, vibration_intensity := 15, light_change_rate := 2000 }
        85 .DEFORM_RISK_LOW =
        { tilt_risk := f32 0.8, vibration_risk := f32 0.2, humidity_risk := f32 0.6,
          light_risk := f32 0.5, gps_deform_risk := f32 0.3 } ∧
      total_risk_score
        { tilt_risk := f32 0.8, vibration_risk := f32 0.2, humidity_risk := f32 0.6,
          light_risk := f32 0.5, gps_deform_risk := f32 0.3 } < f32 0.6 ∧
      raw_level_of_score (total_risk_score
        { tilt_risk := f32 0.8, vibration_risk := f32 0.2, humidity_risk := f32 0.6,
          light_risk := f32 0.5, gps_deform_risk := f32 0.3 }) = RISK_LEVEL_MEDIUM ∧
      specLevel (specScore (f32 0.8) (f32 0.2) (f32 0.6) (f32 0.5) (f32 0.3)) =
        RISK_LEVEL_HIGH ∧
      specScore 0.8 0.2 0.6 0.5 0.3 = 0.6 ∧
      specLevel (specScore 0.8 0.2 0.6 0.5 0.3) = RISK_LEVEL_HIGH := by
  decide!

/-- C15 (amended): for every processed sample, humidity and deformation risk, the raw
level, which is the classification against `0.8f`, `0.6f`, `0.4f` and `0.2f` of the
score accumulated in binary32, equals the classification, in exact arithmetic, of the
weighted sum of the five factors, except when the light factor is `0.5f`, the
deformation factor `0.3f` and the tilt, vibration and humidity factors one of the six
triples of `shortfallFactors`; there the raw level is one level below the exact
classification. -/
theorem raw_level_float_classification (processed : ProcessedData) (humidity : ℚ)
    (deform_risk : DeformationRisk) :
    ((((EvaluateRisk_factors processed humidity deform_risk).tilt_risk,
          (EvaluateRisk_factors processed humidity deform_risk).vibration_risk,
          (EvaluateRisk_factors processed humidity deform_risk).humidity_risk) ∈
            shortfallFactors ∧
        (EvaluateRisk_factors processed humidity deform_risk).light_risk = f32 0.5 ∧
        (EvaluateRisk_factors processed humidity deform_risk).gps_deform_risk = f32 0.3) →
      (raw_level_of_score
          (total_risk_score (EvaluateRisk_factors processed humidity deform_risk))).toNat + 1 =
        (specLevel (specScore
          (EvaluateRisk_factors processed humidity deform_risk).tilt_risk
          (EvaluateRisk_factors processed humidity deform_risk).vibration_risk
          (EvaluateRisk_factors processed humidity deform_risk).humidity_risk
          (EvaluateRisk_factors processed humidity deform_risk).light_risk
          (EvaluateRisk_factors processed humidity deform_risk).gps_deform_risk)).toNat) ∧
    (¬ (((EvaluateRisk_factors processed humidity deform_risk).tilt_risk,
          (EvaluateRisk_factors processed humidity deform_risk).vibration_risk,
          (EvaluateRisk_factors processed humidity deform_risk).humidity_risk) ∈
            shortfallFactors ∧
        (EvaluateRisk_factors processed humidity deform_risk).light_risk = f32 0.5 ∧
        (EvaluateRisk_factors processed humidity deform_risk).gps_deform_risk = f32 0.3) →
      raw_level_of_score
          (total_risk_score (EvaluateRisk_factors processed humidity deform_risk)) =
        specLevel (specScore
          (EvaluateRisk_factors processed humidity deform_risk).tilt_risk
          (EvaluateRisk_factors processed humidity deform_risk).vibration_risk
          (EvaluateRisk_factors processed humidity deform_risk).humidity_risk
          (EvaluateRisk_factors processed humidity deform_risk).light_risk
          (EvaluateRisk_factors processed humidity deform_risk).gps_deform_risk)) := by
  have key : floatMatchesSpec
      (EvaluateRisk_factors processed humidity deform_risk).tilt_risk
      (EvaluateRisk_factors processed humidity deform_risk).vibration_risk
      (EvaluateRisk_factors processed humidity deform_risk).humidity_risk
      (EvaluateRisk_factors processed humidity deform_risk).light_risk
      (EvaluateRisk_factors processed humidity deform_risk).gps_deform_risk :=
    float_classification_table
      _ (EvaluateRisk_tilt_risk_mem processed.angle_magnitude)
      _ (EvaluateRisk_vibration_risk_mem processed.vibration_intensity)
      _ (EvaluateRisk_humidity_risk_mem humidity processed.humidity_trend)
      _ (EvaluateRisk_light_risk_mem processed.light_change_rate)
      _ (EvaluateRisk_gps_deform_risk_mem deform_risk)
  unfold floatMatchesSpec at key
  constructor
  · intro hs
    rw [if_pos hs] at key
    exact key
  · intro hs
    rw [if_neg hs] at key
    exact key

/-- C16: for every processed-metrics input, humidity reading and deformation risk,
each of the five factors `EvaluateRisk` writes lies between 0 and 1; the humidity
factor, whose level score and bonus add up to 1.1 for a humidity of 95 rising by 15, is
clamped to 1 there. -/
theorem risk_factors_in_unit_interval (processed : ProcessedData) (humidity : ℚ)
    (deform_risk : DeformationRisk) :
    (0 ≤ (EvaluateRisk_factors processed humidity deform_risk).tilt_risk ∧
      (EvaluateRisk_factors processed humidity deform_risk).tilt_risk ≤ 1) ∧
    (0 ≤ (EvaluateRisk_factors processed humidity deform_risk).vibration_risk ∧
      (EvaluateRisk_factors processed humidity deform_risk).vibration_risk ≤ 1) ∧
    (0 ≤ (EvaluateRisk_factors processed humidity deform_risk).humidity_risk ∧
      (EvaluateRisk_factors processed humidity deform_risk).humidity_risk ≤ 1) ∧
    (0 ≤ (EvaluateRisk_factors processed humidity deform_risk).light_risk ∧
      (EvaluateRisk_factors processed humidity deform_risk).light_risk ≤ 1) ∧
    (0 ≤ (EvaluateRisk_factors processed humidity deform_risk).gps_deform_risk ∧
      (EvaluateRisk_factors processed humidity deform_risk).gps_deform_risk ≤ 1) ∧
    EvaluateRisk_humidity_risk 95 15 = 1 := by
  refine ⟨EvaluateRisk_tilt_risk_bounds _, EvaluateRisk_vibration_risk_bounds _,
    EvaluateRisk_humidity_risk_bounds _ _, EvaluateRisk_light_risk_bounds _,
    EvaluateRisk_gps_deform_risk_bounds _, ?_⟩
  decide!

/-- An invalid sample zeroes the processed data. -/
theorem ProcessSensorData_invalid (computed : ProcessedData) :
    ProcessSensorData false computed = ProcessedData.zero := by
  simp [ProcessSensorData]

/-- The factors of zeroed processed data: no tilt, vibration or light factor, the
humidity factor without the bonus for a rise. -/
theorem EvaluateRisk_factors_zero (humidity : ℚ) (deform_risk : DeformationRisk) :
    EvaluateRisk_factors ProcessedData.zero humidity deform_risk =
      { tilt_risk := 0, vibration_risk := 0
        humidity_risk := EvaluateRisk_humidity_risk humidity 0
        light_risk := 0
        gps_deform_risk := EvaluateRisk_gps_deform_risk deform_risk } := by
  have ht : EvaluateRisk_tilt_risk 0 = 0 := by norm_num [EvaluateRisk_tilt_risk]
  have hv : EvaluateRisk_vibration_risk 0 = 0 := by norm_num [EvaluateRisk_vibration_risk]
  have hl : EvaluateRisk_light_risk 0 = 0 := by norm_num [EvaluateRisk_light_risk]
  simp [EvaluateRisk_factors, ProcessedData.zero, ht, hv, hl]

/-- A sample that finds `DataProcessingTask` still in its loop and the system state
RUNNING is processed and published. -/
theorem DataProcessingTask_wake_running (st : PipelineState) (at_guard : SystemState)
    (data_valid : Bool) (computed : ProcessedData)
    (hguard : st.data_processing_guard = some at_guard)
    (hpass : DataProcessingTask_pass at_guard st.g_system_state = true) :
    DataProcessingTask_wake st data_valid computed =
      { st with
        g_latest_processed_data := ProcessSensorData data_valid computed
        data_processing_guard := some st.g_system_state } := by
  simp [DataProcessingTask_wake, hguard, hpass]

/-- A sample that finds `DataProcessingTask` gone, or that makes it leave its loop,
leaves the published processed data as they were, so the next evaluation recomputes the
factors from the stale data. -/
theorem DataProcessingTask_wake_stopped (st : PipelineState) (data_valid : Bool)
    (computed : ProcessedData) (humidity : ℚ) (deform_risk : DeformationRisk) (tick : Nat)
    (h : st.data_processing_guard = none ∨
      ∃ g, st.data_processing_guard = some g ∧
        DataProcessingTask_pass g st.g_system_state = false) :
    (DataProcessingTask_wake st data_valid computed).g_latest_processed_data =
        st.g_latest_processed_data ∧
      (DataProcessingTask_wake st data_valid computed).data_processing_guard = none ∧
      (RiskEvaluationTask_step (DataProcessingTask_wake st data_valid computed) humidity
        deform_risk tick).2.factors =
        EvaluateRisk_factors st.g_latest_processed_data humidity deform_risk := by
  rcases h with h | ⟨g, hg, hp⟩
  · simp [DataProcessingTask_wake, h, RiskEvaluationTask_step, EvaluateRisk_assess]
  · simp [DataProcessingTask_wake, hg, hp, RiskEvaluationTask_step, EvaluateRisk_assess]

/-- C17 (counterexample): with a humidity of 50 and no deformation risk, a valid sample
tilted by 25 degrees is assessed with tilt factor 1, and the invalid sample that follows
with tilt factor 0; and after valid samples tilted by 12 degrees have made Low the
published level, invalid samples bring the published level back to Safe. -/
theorem invalid_sample_changes_assessment :
    (publishedAssessments PipelineState.init
        [.sample true (tiltedSample 25), .evaluate 50 .DEFORM_RISK_SAFE 1000,
          .sample false (tiltedSample 25), .evaluate 50 .DEFORM_RISK_SAFE 1200]).map
        (fun a => a.factors.tilt_risk) = [1, 0] ∧
      (publishedAssessments PipelineState.init
        [.sample true (tiltedSample 12), .evaluate 50 .DEFORM_RISK_SAFE 1000,
          .sample true (tiltedSample 12), .evaluate 50 .DEFORM_RISK_SAFE 4000,
          .sample false (tiltedSample 12), .evaluate 50 .DEFORM_RISK_SAFE 4200,
          .sample false (tiltedSample 12), .evaluate 50 .DEFORM_RISK_SAFE 7000]).map
        (fun a => a.level) =
        [RISK_LEVEL_SAFE, RISK_LEVEL_LOW, RISK_LEVEL_LOW, RISK_LEVEL_SAFE] := by
  decide!

/-- C17 (amended): when the latest sample is invalid and `DataProcessingTask`, still in
its loop, finds the system state RUNNING and processes it, the next evaluation works on
zeroed processed data: the assessment it publishes has tilt, vibration and light
factors 0, the humidity factor of the stored humidity reading without the bonus for a
rise, and the deformation factor of the current deformation risk, whatever the previous
assessment was; its level is the confirmed level of the latch after a tick at the raw
level of the score of these factors. -/
theorem invalid_sample_assessment (st : PipelineState) (at_guard : SystemState)
    (computed : ProcessedData) (humidity : ℚ) (deform_risk : DeformationRisk) (tick : Nat)
    (hguard : st.data_processing_guard = some at_guard)
    (hpass : DataProcessingTask_pass at_guard st.g_system_state = true) :
    (RiskEvaluationTask_step (DataProcessingTask_wake st false computed) humidity deform_risk
        tick).2.factors.tilt_risk = 0 ∧
      (RiskEvaluationTask_step (DataProcessingTask_wake st false computed) humidity
        deform_risk tick).2.factors.vibration_risk = 0 ∧
      (RiskEvaluationTask_step (DataProcessingTask_wake st false computed) humidity
        deform_risk tick).2.factors.light_risk = 0 ∧
      (RiskEvaluationTask_step (DataProcessingTask_wake st false computed) humidity
        deform_risk tick).2.factors.humidity_risk = EvaluateRisk_humidity_risk humidity 0 ∧
      (RiskEvaluationTask_step (DataProcessingTask_wake st false computed) humidity
        deform_risk tick).2.factors.gps_deform_risk =
        EvaluateRisk_gps_deform_risk deform_risk ∧
      (RiskEvaluationTask_step (DataProcessingTask_wake st false computed) humidity
        deform_risk tick).2.level =
        (EvaluateRisk st.latch
          (raw_level_of_score
            (accumulate_score 0 0 (EvaluateRisk_humidity_risk humidity 0) 0
              (EvaluateRisk_gps_deform_risk deform_risk))) tick).confirmed_level := by
  rw [DataProcessingTask_wake_running st at_guard false computed hguard hpass]
  simp [RiskEvaluationTask_step, EvaluateRisk_assess, ProcessSensorData_invalid,
    EvaluateRisk_factors_zero, total_risk_score_mk]

/-- C17 (witness): an invalid sample posted to the pipeline in its initial state. -/
theorem invalid_sample_assessment_witness :
    (RiskEvaluationTask_step (DataProcessingTask_wake PipelineState.init false (tiltedSample 25))
      50 .DEFORM_RISK_SAFE 1200).2.factors.tilt_risk = 0 :=
  (invalid_sample_assessment PipelineState.init SYSTEM_STATE_RUNNING (tiltedSample 25) 50
    .DEFORM_RISK_SAFE 1200 rfl (by decide)).1

/-! ## Theorems: the durable store -/

theorem checksum_fold (data : List Nat) (acc : Nat) (hacc : acc < UINT16_MOD) :
    data.foldl (fun checksum b => (checksum + b) % UINT16_MOD) acc =
      (acc + data.sum) % UINT16_MOD := by
  induction data generalizing acc with
  | nil => simp [Nat.mod_eq_of_lt hacc]
  | cons b data ih =>
    rw [List.foldl_cons, ih _ (Nat.mod_lt _ (by decide)), List.sum_cons, Nat.mod_add_mod,
      Nat.add_assoc]

/-- The checksum is the sum of the bytes modulo 2^16. -/
theorem CalculateChecksum_eq_sum (data : List Nat) :
    CalculateChecksum data = data.sum % UINT16_MOD := by
  unfold CalculateChecksum
  rw [checksum_fold data 0 (by decide), Nat.zero_add]

/-- A successful store on the driver that never fails: the record is written at
`current_index`, after the erase of its sector when it starts one. -/
theorem DataStorage_Store_ideal (st : Storage) (d : List Nat) (tick : Nat)
    (hinit : st.mgr.initialized = true) :
    (DataStorage_Store FlashHal.ideal st (some d) tick).2 = 0 ∧
      (DataStorage_Store FlashHal.ideal st (some d) tick).1.mgr.initialized = true ∧
      (DataStorage_Store FlashHal.ideal st (some d) tick).1.mgr.record_count =
        (if st.mgr.record_count < STORAGE_MAX_RECORDS then st.mgr.record_count + 1
          else st.mgr.record_count) ∧
      (DataStorage_Store FlashHal.ideal st (some d) tick).1.flash =
        flashWrite
          (if st.mgr.current_index % (STORAGE_SECTOR_SIZE / STORAGE_RECORD_SIZE) = 0 then
            flashErase st.flash
              (GetRecordAddress st.mgr.current_index -
                GetRecordAddress st.mgr.current_index % STORAGE_SECTOR_SIZE)
          else st.flash)
          st.mgr.current_index
          { header :=
              { magic := STORAGE_MAGIC_NUMBER
                timestamp := tick % UINT32_MOD
                data_size := d.length % UINT16_MOD
                checksum := CalculateChecksum d }
            data := d } := by
  simp only [DataStorage_Store, FlashHal.ideal, hinit]
  by_cases he : st.mgr.current_index % (STORAGE_SECTOR_SIZE / STORAGE_RECORD_SIZE) = 0 <;>
    simp [he]

/-- A slot that holds a record with the magic number and the checksum of its payload
reads back as that payload. -/
theorem DataStorage_Read_ideal (st : Storage) (index : Nat) (d : List Nat) (ts size : Nat)
    (hinit : st.mgr.initialized = true) (hidx : index < STORAGE_MAX_RECORDS)
    (hslot : st.flash index =
      { header :=
          { magic := STORAGE_MAGIC_NUMBER, timestamp := ts, data_size := size,
            checksum := CalculateChecksum d }
        data := d }) :
    DataStorage_Read FlashHal.ideal st index = some d := by
  have hn : ¬ STORAGE_MAX_RECORDS ≤ index := by omega
  simp [DataStorage_Read, FlashHal.ideal, hinit, hn, hslot]

/-- Every pass of the scan counts its index either as processed or as failed. -/
theorem scan_counts {σ : Type} (hal : FlashHal) (st : Storage)
    (cb : σ → List Nat → σ × Int) (l : List Nat) (sc : ScanState σ) :
    (l.foldl (scanStep hal st cb) sc).processed_count +
        (l.foldl (scanStep hal st cb) sc).failed_count =
      sc.processed_count + sc.failed_count + l.length := by
  induction l generalizing sc with
  | nil => simp
  | cons i l ih =>
    rw [List.foldl_cons, ih, List.length_cons]
    unfold scanStep
    cases hr : DataStorage_Read hal st i with
    | none => simp only; omega
    | some d =>
      simp only
      split_ifs <;> simp only <;> omega

/-- The written slot of a successful store reads back as the payload stored. -/
theorem DataStorage_Read_after_Store (st : Storage) (d : List Nat) (tick : Nat)
    (hinit : st.mgr.initialized = true) (hci : st.mgr.current_index < STORAGE_MAX_RECORDS) :
    DataStorage_Read FlashHal.ideal (DataStorage_Store FlashHal.ideal st (some d) tick).1
      st.mgr.current_index = some d := by
  obtain ⟨_, hi, _, hf⟩ := DataStorage_Store_ideal st d tick hinit
  apply DataStorage_Read_ideal _ _ d (tick % UINT32_MOD) (d.length % UINT16_MOD) hi hci
  rw [hf]
  simp [flashWrite]

set_option maxRecDepth 100000 in
/-- Flipping one bit of a byte moves it up or down by the weight of the bit. -/
theorem byte_flip (b k : Nat) (hb : b < 256) (hk : k < 8) :
    b ^^^ 2 ^ k = b + 2 ^ k ∨ (b ^^^ 2 ^ k) + 2 ^ k = b := by
  have h : ∀ b, b < 256 → ∀ k, k < 8 → (b ^^^ 2 ^ k = b + 2 ^ k ∨ (b ^^^ 2 ^ k) + 2 ^ k = b) := by
    decide
  exact h b hb k hk

theorem sum_set (l : List Nat) (pos v : Nat) (hpos : pos < l.length) :
    (l.set pos v).sum + l.getD pos 0 = l.sum + v := by
  induction l generalizing pos with
  | nil => simp at hpos
  | cons a l ih =>
    cases pos with
    | zero => simp; omega
    | succ pos =>
      have := ih pos (by simpa using hpos)
      simp only [List.set_cons_succ, List.sum_cons, List.getD_cons_succ]
      omega

/-- Flipping one bit of one byte of a payload changes its checksum. -/
theorem CalculateChecksum_flip (d : List Nat) (pos bit : Nat) (hpos : pos < d.length)
    (hbyte : d.getD pos 0 < 256) (hbit : bit < 8) :
    CalculateChecksum (d.set pos (d.getD pos 0 ^^^ 2 ^ bit)) ≠ CalculateChecksum d := by
  rw [CalculateChecksum_eq_sum, CalculateChecksum_eq_sum]
  have hsum := sum_set d pos (d.getD pos 0 ^^^ 2 ^ bit) hpos
  have hpow : 0 < 2 ^ bit ∧ 2 ^ bit < 256 := by
    have h : ∀ k, k < 8 → (0 < 2 ^ k ∧ 2 ^ k < 256) := by decide
    exact h bit hbit
  have hflip := byte_flip (d.getD pos 0) bit hbyte hbit
  unfold UINT16_MOD
  rcases hflip with h | h <;> omega

/-- C14: for every slot written by `DataStorage_Store` with a payload of bytes, every
byte position of the payload and every bit of that byte, flipping that bit in the stored
payload makes `DataStorage_Read` reject the slot: the checksum recomputed over the
modified payload differs from the stored checksum. -/
theorem bit_flip_rejected (st : Storage) (d : List Nat) (tick pos bit : Nat)
    (hinit : st.mgr.initialized = true) (hci : st.mgr.current_index < STORAGE_MAX_RECORDS)
    (hbytes : ∀ b ∈ d, b < 256) (hpos : pos < d.length) (hbit : bit < 8) :
    CalculateChecksum (d.set pos (d.getD pos 0 ^^^ 2 ^ bit)) ≠
        ((DataStorage_Store FlashHal.ideal st (some d) tick).1.flash
          st.mgr.current_index).header.checksum ∧
      DataStorage_Read FlashHal.ideal
        { (DataStorage_Store FlashHal.ideal st (some d) tick).1 with
          flash := flipPayloadBit (DataStorage_Store FlashHal.ideal st (some d) tick).1.flash
            st.mgr.current_index pos bit }
        st.mgr.current_index = none := by
  obtain ⟨_, hi, _, hf⟩ := DataStorage_Store_ideal st d tick hinit
  have hbyte : d.getD pos 0 < 256 := by
    rw [List.getD_eq_getElem d 0 hpos]
    exact hbytes _ (List.getElem_mem hpos)
  have hne := CalculateChecksum_flip d pos bit hpos hbyte hbit
  have hn : ¬ STORAGE_MAX_RECORDS ≤ st.mgr.current_index := by omega
  generalize (DataStorage_Store FlashHal.ideal st (some d) tick).1 = st2 at hi hf ⊢
  constructor
  · rw [hf]
    simpa [flashWrite] using hne
  · simp only [DataStorage_Read, FlashHal.ideal, hi, hn, flipPayloadBit, hf, flashWrite]
    simp
    simpa using hne

set_option maxRecDepth 100000 in
/-- C14 (witness): bit 7 of the second byte of the payload `[1, 2, 3]` stored into the
fresh store. -/
theorem bit_flip_rejected_witness :
    DataStorage_Read FlashHal.ideal
        { (DataStorage_Store FlashHal.ideal Storage.fresh (some [1, 2, 3]) 10).1 with
          flash := flipPayloadBit
            (DataStorage_Store FlashHal.ideal Storage.fresh (some [1, 2, 3]) 10).1.flash
            Storage.fresh.mgr.current_index 1 7 }
        Storage.fresh.mgr.current_index = none :=
  (bit_flip_rejected Storage.fresh [1, 2, 3] 10 1 7 (by decide) (by decide) (by decide)
    (by decide) (by decide)).2

set_option maxRecDepth 100000 in
/-- C20 (counterexample): in the store that holds the record `[1, 2, 3]` in slot 0 and
a corrupted record in slot 1, the scan with a callback that accepts everything consumes
slot 0 and fails on slot 1; after the call the store still counts two records and slot 0
still reads back as `[1, 2, 3]`. -/
theorem consumed_slot_stays :
    (DataStorage_ProcessCached FlashHal.ideal corruptedStore (some acceptAll) 0).processed_count
        = 1 ∧
      (DataStorage_ProcessCached FlashHal.ideal corruptedStore (some acceptAll) 0).handed
        = [[1, 2, 3]] ∧
      (scanAll FlashHal.ideal corruptedStore acceptAll 0).failed_count = 1 ∧
      (DataStorage_ProcessCached FlashHal.ideal corruptedStore
        (some acceptAll) 0).storage.mgr.record_count = 2 ∧
      DataStorage_Read FlashHal.ideal
        (DataStorage_ProcessCached FlashHal.ideal corruptedStore (some acceptAll) 0).storage 0
        = some [1, 2, 3] ∧
      DataStorage_Read FlashHal.ideal
        (DataStorage_ProcessCached FlashHal.ideal corruptedStore (some acceptAll) 0).storage 1
        = none := by
  decide

/-- C20 (amended): for every store state in which the scan of
`DataStorage_ProcessCached` finds some slots that fail and others that the callback
consumes, the call erases nothing: the store after the call is the store before it, so
the consumed slots and the failing slots all remain and every slot reads as before. -/
theorem mixed_scan_keeps_store {σ : Type} (hal : FlashHal) (st : Storage)
    (cb : σ → List Nat → σ × Int) (cs : σ)
    (hfail : 0 < (scanAll hal st cb cs).failed_count)
    (hproc : 0 < (scanAll hal st cb cs).processed_count) :
    (DataStorage_ProcessCached hal st (some cb) cs).storage = st ∧
      ∀ i, DataStorage_Read hal (DataStorage_ProcessCached hal st (some cb) cs).storage i =
        DataStorage_Read hal st i := by
  have hcount := scan_counts hal st cb (List.range st.mgr.record_count)
    { cb_state := cs, processed_count := 0, failed_count := 0, handed := [] }
  rw [List.length_range] at hcount
  have hcount2 : (scanAll hal st cb cs).processed_count +
      (scanAll hal st cb cs).failed_count = st.mgr.record_count := by
    simpa [scanAll] using hcount
  have hst : (DataStorage_ProcessCached hal st (some cb) cs).storage = st := by
    simp only [DataStorage_ProcessCached]
    split_ifs with h1 h2 h3
    · rfl
    · omega
    · omega
    · rfl
  exact ⟨hst, fun i => by rw [hst]⟩

set_option maxRecDepth 100000 in
/-- C20 (witness): the scan of the store with one sound and one corrupted record. -/
theorem mixed_scan_keeps_store_witness :
    0 < (scanAll FlashHal.ideal corruptedStore acceptAll 0).failed_count ∧
      (DataStorage_ProcessCached FlashHal.ideal corruptedStore (some acceptAll) 0).storage =
        corruptedStore :=
  ⟨by decide,
    (mixed_scan_keeps_store FlashHal.ideal corruptedStore acceptAll 0 (by decide)
      (by decide)).1⟩

/-- A store with a driver that never fails keeps the store initialised, the write index
below the capacity and at most the record count. -/
theorem DataStorage_Store_index (st : Storage) (d : List Nat) (tick : Nat)
    (hinit : st.mgr.initialized = true)
    (hrc : st.mgr.current_index ≤ st.mgr.record_count) :
    (DataStorage_Store FlashHal.ideal st (some d) tick).1.mgr.initialized = true ∧
      (DataStorage_Store FlashHal.ideal st (some d) tick).1.mgr.current_index <
        STORAGE_MAX_RECORDS ∧
      (DataStorage_Store FlashHal.ideal st (some d) tick).1.mgr.current_index ≤
        (DataStorage_Store FlashHal.ideal st (some d) tick).1.mgr.record_count := by
  have hmax : STORAGE_MAX_RECORDS = 100 := rfl
  simp only [DataStorage_Store, FlashHal.ideal, hinit]
  by_cases he : st.mgr.current_index % (STORAGE_SECTOR_SIZE / STORAGE_RECORD_SIZE) = 0 <;>
    simp [he, hinit] <;> rw [hmax] <;> refine ⟨Nat.mod_lt _ (by omega), ?_⟩ <;>
    split_ifs <;> omega

/-- The hypotheses of the read-back of a stored record hold in every store reached from
the fresh store by stores with a driver that never fails. -/
theorem stores_keep_index (ds : List (List Nat × Nat)) :
    (ds.foldl (fun st p => (DataStorage_Store FlashHal.ideal st (some p.1) p.2).1)
        Storage.fresh).mgr.initialized = true ∧
      (ds.foldl (fun st p => (DataStorage_Store FlashHal.ideal st (some p.1) p.2).1)
        Storage.fresh).mgr.current_index < STORAGE_MAX_RECORDS ∧
      (ds.foldl (fun st p => (DataStorage_Store FlashHal.ideal st (some p.1) p.2).1)
        Storage.fresh).mgr.current_index ≤
        (ds.foldl (fun st p => (DataStorage_Store FlashHal.ideal st (some p.1) p.2).1)
          Storage.fresh).mgr.record_count := by
  have key : ∀ (ds : List (List Nat × Nat)) (st : Storage),
      (st.mgr.initialized = true ∧ st.mgr.current_index < STORAGE_MAX_RECORDS ∧
        st.mgr.current_index ≤ st.mgr.record_count) →
      ((ds.foldl (fun st p => (DataStorage_Store FlashHal.ideal st (some p.1) p.2).1)
          st).mgr.initialized = true ∧
        (ds.foldl (fun st p => (DataStorage_Store FlashHal.ideal st (some p.1) p.2).1)
          st).mgr.current_index < STORAGE_MAX_RECORDS ∧
        (ds.foldl (fun st p => (DataStorage_Store FlashHal.ideal st (some p.1) p.2).1)
          st).mgr.current_index ≤
          (ds.foldl (fun st p => (DataStorage_Store FlashHal.ideal st (some p.1) p.2).1)
            st).mgr.record_count) := by
    intro ds
    induction ds with
    | nil => intro st h; exact h
    | cons p ds ih =>
      intro st h
      rw [List.foldl_cons]
      exact ih _ (DataStorage_Store_index st p.1 p.2 h.1 h.2.2)
  exact key ds Storage.fresh ⟨by decide, by decide, by decide⟩

/-! ## Theorems: the upload path -/

/-- C11 (failing input): a cache holding one valid record, a drain during which
`mqtt_is_connected()` answers true, and an `MQTTPublish` that fails. The publish does not
happen, yet the drain has handed the record to `send_msg_to_mqtt`, marked it invalid with
its retry count still 0, removed it from the queue and counted it in `total_sent`. -/
theorem publish_failure_counted_as_sent :
    (send_msg_to_mqtt true true false).published = false ∧
      (DataCache_SendPending MAX_CACHE_SIZE
        (DataCache_Add MAX_CACHE_SIZE CacheState.init (some 7) 100).1
        (fun _ => true)).sent = [7] ∧
      (DataCache_SendPending MAX_CACHE_SIZE
        (DataCache_Add MAX_CACHE_SIZE CacheState.init (some 7) 100).1
        (fun _ => true)).state.g_data_cache.total_sent = 1 ∧
      ((DataCache_SendPending MAX_CACHE_SIZE
        (DataCache_Add MAX_CACHE_SIZE CacheState.init (some 7) 100).1
        (fun _ => true)).state.g_data_cache.items 0).is_valid = false ∧
      ((DataCache_SendPending MAX_CACHE_SIZE
        (DataCache_Add MAX_CACHE_SIZE CacheState.init (some 7) 100).1
        (fun _ => true)).state.g_data_cache.items 0).retry_count = 0 ∧
      (DataCache_SendPending MAX_CACHE_SIZE
        (DataCache_Add MAX_CACHE_SIZE CacheState.init (some 7) 100).1
        (fun _ => true)).state.g_data_cache.count = 0 := by
  decide

/-- C12 (counterexample): on the cache that `DataCache_Init` has zeroed but not yet
flagged as initialised, `DataCache_Add` of a record returns -1 and enqueues nothing. -/
theorem add_refused_before_init :
    (DataCache_Add MAX_CACHE_SIZE
        ({ g_data_cache := DataCache.zero, g_cache_initialized := false } : CacheState Nat)
        (some 7) 100).2 = -1 ∧
      (DataCache_Add MAX_CACHE_SIZE
        ({ g_data_cache := DataCache.zero, g_cache_initialized := false } : CacheState Nat)
        (some 7) 100).1.g_data_cache.count = 0 := by
  decide

/-- An enqueue into an initialised, well-formed cache succeeds and makes the record the
newest item of the queue. -/
theorem DataCache_Add_initialised {α : Type} (cap : Nat) (st : CacheState α) (data : α)
    (tick : Nat) (hcap : 0 < cap) (hinit : st.g_cache_initialized = true)
    (hwf : CacheWF cap st.g_data_cache) :
    (DataCache_Add cap st (some data) tick).2 = 0 ∧
      (queue cap (DataCache_Add cap st (some data) tick).1.g_data_cache).getLast? =
        some { data := data, timestamp := tick % UINT32_MOD, retry_count := 0,
               is_valid := true } ∧
      (DataCache_Add cap st (some data) tick).1.g_cache_initialized = true ∧
      CacheWF cap (DataCache_Add cap st (some data) tick).1.g_data_cache := by
  have hadd : DataCache_Add cap st (some data) tick =
      ({ st with g_data_cache := DataCache_Add_body cap st.g_data_cache data tick }, 0) := by
    simp [DataCache_Add, hinit]
  have hspec := DataCache_Add_body_spec cap st.g_data_cache data tick hwf hcap
  rw [hadd]
  refine ⟨rfl, ?_, hinit, hspec.1⟩
  simp only
  rw [hspec.2]
  simp

/-- C12 (amended): for every cache state and tick count, if the cache is initialised and
well formed, a full cache included, `DataCache_Add` of any record returns 0 and the
record is the newest item of the queue afterwards, with retry count 0 and the valid flag
set; if the cache is not initialised, `DataCache_Add` of any record, or of a null
pointer, returns -1 and leaves the state as it was; and for a null pointer it does so in
every state. -/
theorem add_outcome {α : Type} (cap : Nat) (st : CacheState α) (tick : Nat)
    (hcap : 0 < cap) :
    (st.g_cache_initialized = true → CacheWF cap st.g_data_cache → ∀ data : α,
      (DataCache_Add cap st (some data) tick).2 = 0 ∧
        (queue cap (DataCache_Add cap st (some data) tick).1.g_data_cache).getLast? =
          some { data := data, timestamp := tick % UINT32_MOD, retry_count := 0,
                 is_valid := true } ∧
        (DataCache_Add cap st (some data) tick).1.g_cache_initialized = true ∧
        CacheWF cap (DataCache_Add cap st (some data) tick).1.g_data_cache) ∧
      (st.g_cache_initialized = false → ∀ data : Option α,
        DataCache_Add cap st data tick = (st, -1)) ∧
      DataCache_Add cap st (none : Option α) tick = (st, -1) := by
  refine ⟨fun hinit hwf data => DataCache_Add_initialised cap st data tick hcap hinit hwf,
    fun hinit data => ?_, rfl⟩
  cases data with
  | none => rfl
  | some d => simp [DataCache_Add, hinit]

/-- C12 (witness): the enqueue of a fourth record into the full cache of capacity 3, and
the enqueue of a record into the cache that `DataCache_Init` has zeroed but not yet
flagged as initialised. -/
theorem add_outcome_witness :
    (DataCache_Add 3 (runOps 3 CacheRun.init
        ([CacheOp.add 1 10, CacheOp.add 2 20, CacheOp.add 3 30] :
          List (CacheOp Nat))).state (some 4) 40).2 = 0 ∧
      DataCache_Add 3
        ({ g_data_cache := DataCache.zero, g_cache_initialized := false } : CacheState Nat)
        (some 7) 100 =
        ({ g_data_cache := DataCache.zero, g_cache_initialized := false }, -1) :=
  ⟨((add_outcome 3
      (runOps 3 CacheRun.init
        ([CacheOp.add 1 10, CacheOp.add 2 20, CacheOp.add 3 30] : List (CacheOp Nat))).state
      40 (by decide)).1 rfl
      (runOps_history 3 [] CacheRun.init _ (by decide)
        ⟨rfl, CacheWF_init 3 (by decide), [], rfl, List.Sublist.refl _⟩).2.1 4).1,
    (add_outcome 3
      ({ g_data_cache := DataCache.zero, g_cache_initialized := false } : CacheState Nat)
      100 (by decide)).2.1 rfl (some 7)⟩

/-- While the initialised flag is unset the load callback refuses every record. -/
theorem FlashDataLoadCallback_refused {α : Type} (cap : Nat) (convert : List Nat → α)
    (tick : Nat) (cs : CacheState α) (d : List Nat) (h : cs.g_cache_initialized = false) :
    FlashDataLoadCallback cap convert tick cs d = (cs, -1) := by
  simp [FlashDataLoadCallback, DataCache_Add, h]

/-- A scan whose callback refuses every record leaves the state of the callback as it
was and processes nothing. -/
theorem scan_refused {σ : Type} (hal : FlashHal) (st : Storage)
    (cb : σ → List Nat → σ × Int) (cs : σ) (hcb : ∀ d, cb cs d = (cs, -1)) (l : List Nat)
    (sc : ScanState σ) (hsc : sc.cb_state = cs) :
    (l.foldl (scanStep hal st cb) sc).cb_state = cs ∧
      (l.foldl (scanStep hal st cb) sc).processed_count = sc.processed_count := by
  induction l generalizing sc with
  | nil => exact ⟨hsc, rfl⟩
  | cons i l ih =>
    rw [List.foldl_cons]
    have hstep : (scanStep hal st cb sc i).cb_state = cs ∧
        (scanStep hal st cb sc i).processed_count = sc.processed_count := by
      unfold scanStep
      cases hr : DataStorage_Read hal st i with
      | none => exact ⟨hsc, rfl⟩
      | some d => simp [hsc, hcb d]
    obtain ⟨h1, h2⟩ := ih (scanStep hal st cb sc i) hstep.1
    exact ⟨h1, by rw [h2, hstep.2]⟩

/-- The load from flash leaves a cache that is not initialised as it was. -/
theorem DataCache_LoadFromFlash_refused {α : Type} (cap : Nat) (convert : List Nat → α)
    (hal : FlashHal) (st : IotState α) (tick : Nat)
    (h : st.cache.g_cache_initialized = false) :
    (DataCache_LoadFromFlash cap convert hal st tick).1.cache = st.cache := by
  have hscan : (scanAll hal st.storage (FlashDataLoadCallback cap convert tick)
      st.cache).cb_state = st.cache :=
    (scan_refused hal st.storage (FlashDataLoadCallback cap convert tick) st.cache
      (fun d => FlashDataLoadCallback_refused cap convert tick st.cache d h) _ _ rfl).1
  simp only [DataCache_LoadFromFlash, DataStorage_ProcessCached]
  split_ifs <;> first | rfl | exact hscan

/-- The cache `DataCache_Init` leaves when it runs: zeroed and initialised. -/
theorem DataCache_Init_cache {α : Type} [Inhabited α] (cap : Nat) (convert : List Nat → α)
    (hal : FlashHal) (st : IotState α) (tick : Nat)
    (h : st.cache.g_cache_initialized = false) :
    (DataCache_Init cap convert hal st tick).1.cache =
      { g_data_cache := DataCache.zero, g_cache_initialized := true } := by
  simp only [DataCache_Init, h, Bool.false_eq_true, if_false]
  rw [DataCache_LoadFromFlash_refused cap convert hal _ tick rfl]

theorem CacheWF_zero {α : Type} [Inhabited α] (cap : Nat) (hcap : 0 < cap) :
    CacheWF cap (DataCache.zero : DataCache α) :=
  CacheWF_init cap hcap

/-- The cache `IoTCloud_SendData` works on after its initialisation step. -/
theorem send_data_not_stable {α : Type} [Inhabited α] (cap : Nat) (convert : List Nat → α)
    (hal : FlashHal) (st : IotState α) (d : List Nat) (conn : Nat → Bool) (tick : Nat)
    (hcap : 0 < cap)
    (hwf : st.cache.g_cache_initialized = true → CacheWF cap st.cache.g_data_cache) :
    (IoTCloud_SendData cap convert hal st (some d) false conn tick).ret = 0 ∧
      (IoTCloud_SendData cap convert hal st (some d) false conn tick).sent = [] ∧
      (IoTCloud_SendData cap convert hal st (some d) false conn tick).state.cache =
        (DataCache_Add cap
          (if st.cache.g_cache_initialized then st.cache
            else { g_data_cache := DataCache.zero, g_cache_initialized := true })
          (some (convert d)) tick).1 := by
  cases hinit : st.cache.g_cache_initialized with
  | true =>
    have hadd := DataCache_Add_initialised cap st.cache (convert d) tick hcap hinit
      (hwf hinit)
    simp [IoTCloud_SendData, hinit, hadd.1]
  | false =>
    have hcache := DataCache_Init_cache cap convert hal st tick hinit
    have hadd := DataCache_Add_initialised cap
      ({ g_data_cache := DataCache.zero, g_cache_initialized := true } : CacheState α)
      (convert d) tick hcap rfl (CacheWF_zero cap hcap)
    simp [IoTCloud_SendData, hinit, hcache, hadd.1]

set_option maxRecDepth 100000 in
/-- C19 (counterexample): with the 80 payloads `[0]` to `[79]` queued, the enqueue of
the snapshot `[200, 201]` by `IoTCloud_SendData` leaves 81 records in the cache, above
80% of the capacity; the one record the call writes to the durable store is the snapshot
itself, which is the newest queued record, while the oldest queued record is `[0]`. -/
theorem overflow_backup_is_newest :
    (IoTCloud_SendData MAX_CACHE_SIZE id FlashHal.ideal backlogState (some [200, 201]) false
        (fun _ => false) 900).state.cache.g_data_cache.count = 81 ∧
      (IoTCloud_SendData MAX_CACHE_SIZE id FlashHal.ideal backlogState (some [200, 201]) false
        (fun _ => false) 900).state.storage.mgr.record_count = 1 ∧
      DataStorage_Read FlashHal.ideal
        (IoTCloud_SendData MAX_CACHE_SIZE id FlashHal.ideal backlogState (some [200, 201]) false
          (fun _ => false) 900).state.storage 0 = some [200, 201] ∧
      (queueData MAX_CACHE_SIZE
        (IoTCloud_SendData MAX_CACHE_SIZE id FlashHal.ideal backlogState (some [200, 201]) false
          (fun _ => false) 900).state.cache.g_data_cache).head? = some [0] ∧
      (queueData MAX_CACHE_SIZE
        (IoTCloud_SendData MAX_CACHE_SIZE id FlashHal.ideal backlogState (some [200, 201]) false
          (fun _ => false) 900).state.cache.g_data_cache).getLast? = some [200, 201] := by
  decide

/-- C19 (amended): whenever an enqueue performed by `IoTCloud_SendData` on an
initialised cache leaves more than 80% of the capacity queued, the call makes exactly one
`DataStorage_Store` of the snapshot it was given: with an initialised store and a driver
that never fails, the written slot reads back as that snapshot, whose converted form is
the newest queued record; the oldest queued records are not written. -/
theorem overflow_backup_stores_snapshot {α : Type} [Inhabited α] (cap : Nat)
    (convert : List Nat → α) (st : IotState α) (d : List Nat) (conn : Nat → Bool) (tick : Nat)
    (hcap : 0 < cap) (hinit : st.cache.g_cache_initialized = true)
    (hwf : CacheWF cap st.cache.g_data_cache) (hsinit : st.storage.mgr.initialized = true)
    (hci : st.storage.mgr.current_index < STORAGE_MAX_RECORDS)
    (hover : 8 * cap <
      10 * (IoTCloud_SendData cap convert FlashHal.ideal st (some d) false conn
        tick).state.cache.g_data_cache.count) :
    (IoTCloud_SendData cap convert FlashHal.ideal st (some d) false conn tick).state.storage =
        (DataStorage_Store FlashHal.ideal st.storage (some d) tick).1 ∧
      DataStorage_Read FlashHal.ideal
        (IoTCloud_SendData cap convert FlashHal.ideal st (some d) false conn tick).state.storage
        st.storage.mgr.current_index = some d ∧
      (queue cap (IoTCloud_SendData cap convert FlashHal.ideal st (some d) false conn
        tick).state.cache.g_data_cache).getLast? =
        some { data := convert d, timestamp := tick % UINT32_MOD, retry_count := 0,
               is_valid := true } := by
  obtain ⟨_, _, hcache⟩ := send_data_not_stable cap convert FlashHal.ideal st d conn tick hcap
    (fun _ => hwf)
  rw [hcache] at hover
  simp only [hinit, if_true] at hover hcache
  have hadd := DataCache_Add_initialised cap st.cache (convert d) tick hcap hinit hwf
  have hstore : (IoTCloud_SendData cap convert FlashHal.ideal st (some d) false conn
      tick).state.storage = (DataStorage_Store FlashHal.ideal st.storage (some d) tick).1 := by
    simp [IoTCloud_SendData, hinit, hadd.1, hover]
  refine ⟨hstore, ?_, ?_⟩
  · rw [hstore]
    exact DataStorage_Read_after_Store st.storage d tick hsinit hci
  · rw [hcache]
    exact hadd.2.1

set_option maxRecDepth 100000 in
/-- C19 (witness): the enqueue of the snapshot `[200, 201]` behind a backlog of 80
records. -/
theorem overflow_backup_stores_snapshot_witness :
    DataStorage_Read FlashHal.ideal
        (IoTCloud_SendData MAX_CACHE_SIZE id FlashHal.ideal backlogState (some [200, 201]) false
          (fun _ => false) 900).state.storage
        backlogState.storage.mgr.current_index = some [200, 201] :=
  (overflow_backup_stores_snapshot MAX_CACHE_SIZE id backlogState [200, 201] (fun _ => false)
    900 (by decide) rfl
    (runOps_history MAX_CACHE_SIZE [] CacheRun.init _ (by decide)
      ⟨rfl, CacheWF_init MAX_CACHE_SIZE (by decide), [], rfl, List.Sublist.refl _⟩).2.1
    (by decide) (by decide) (by decide)).2.1

/-! ## Theorems: the clearing of the store and the start of the cache -/

set_option maxRecDepth 100000 in
/-- C21 (failing input): the fresh store with the one valid record `[1, 2, 3]` and a
callback that rejects every record. The scan hands the record to the callback, which
rejects it, and the call then clears the store: the record count drops from 1 to 0 and
slot 0, which read back as `[1, 2, 3]`, no longer reads. -/
theorem rejected_record_erased :
    (DataStorage_Store FlashHal.ideal Storage.fresh (some [1, 2, 3]) 10).1.mgr.record_count
        = 1 ∧
      DataStorage_Read FlashHal.ideal
        (DataStorage_Store FlashHal.ideal Storage.fresh (some [1, 2, 3]) 10).1 0
        = some [1, 2, 3] ∧
      (DataStorage_ProcessCached FlashHal.ideal
        (DataStorage_Store FlashHal.ideal Storage.fresh (some [1, 2, 3]) 10).1
        (some rejectAll) 0).handed = [[1, 2, 3]] ∧
      (DataStorage_ProcessCached FlashHal.ideal
        (DataStorage_Store FlashHal.ideal Storage.fresh (some [1, 2, 3]) 10).1
        (some rejectAll) 0).processed_count = 0 ∧
      (DataStorage_ProcessCached FlashHal.ideal
        (DataStorage_Store FlashHal.ideal Storage.fresh (some [1, 2, 3]) 10).1
        (some rejectAll) 0).storage.mgr.record_count = 0 ∧
      DataStorage_Read FlashHal.ideal
        (DataStorage_ProcessCached FlashHal.ideal
          (DataStorage_Store FlashHal.ideal Storage.fresh (some [1, 2, 3]) 10).1
          (some rejectAll) 0).storage 0 = none := by
  decide

/-- An erase loop whose erases all succeed reports success, and leaves erased every
slot that lies in a visited sector or was erased before. -/
theorem clearSectors_ok (hal : FlashHal) (addrs : List Nat) (flash : Nat → StorageRecord)
    (herase : ∀ addr ∈ addrs, hal.eraseOk addr = true) :
    (clearSectors hal flash addrs).2 = true ∧
      ∀ j, ((∃ a ∈ addrs, a ≤ GetRecordAddress j ∧
            GetRecordAddress j < a + STORAGE_SECTOR_SIZE) ∨
          flash j = StorageRecord.erased) →
        (clearSectors hal flash addrs).1 j = StorageRecord.erased := by
  induction addrs generalizing flash with
  | nil =>
    refine ⟨rfl, fun j hj => ?_⟩
    rcases hj with ⟨a, ha, _⟩ | hj
    · exact absurd ha (List.not_mem_nil a)
    · exact hj
  | cons addr rest ih =>
    have hok : hal.eraseOk addr = true := herase addr (List.mem_cons_self _ _)
    have hrest : ∀ a ∈ rest, hal.eraseOk a = true :=
      fun a ha => herase a (List.mem_cons_of_mem _ ha)
    obtain ⟨i1, i2⟩ := ih (flashErase flash addr) hrest
    have hunf : clearSectors hal flash (addr :: rest) =
        clearSectors hal (flashErase flash addr) rest := by
      simp [clearSectors, hok]
    rw [hunf]
    refine ⟨i1, fun j hj => i2 j ?_⟩
    rcases hj with ⟨a, ha, hcov⟩ | hj
    · rcases List.mem_cons.mp ha with rfl | ha2
      · right
        simp [flashErase, hcov]
      · exact Or.inl ⟨a, ha2, hcov⟩
    · right
      unfold flashErase
      split_ifs
      · rfl
      · exact hj

/-- Every record slot lies in one of the sectors `DataStorage_Clear` visits. -/
theorem clearSectorAddrs_cover (j : Nat) (hj : j < STORAGE_MAX_RECORDS) :
    ∃ a ∈ clearSectorAddrs, a ≤ GetRecordAddress j ∧
      GetRecordAddress j < a + STORAGE_SECTOR_SIZE := by
  have hj2 : j < 100 := hj
  refine ⟨STORAGE_FLASH_BASE_ADDR + (j / 16) * STORAGE_SECTOR_SIZE, ?_, ?_, ?_⟩
  · unfold clearSectorAddrs
    refine List.mem_map.mpr ⟨j / 16, List.mem_range.mpr ?_, rfl⟩
    have : (STORAGE_TOTAL_SIZE + STORAGE_SECTOR_SIZE - 1) / STORAGE_SECTOR_SIZE = 7 := by decide
    rw [this]
    omega
  · simp only [GetRecordAddress, STORAGE_FLASH_BASE_ADDR, STORAGE_SECTOR_SIZE,
      STORAGE_RECORD_SIZE]
    omega
  · simp only [GetRecordAddress, STORAGE_FLASH_BASE_ADDR, STORAGE_SECTOR_SIZE,
      STORAGE_RECORD_SIZE]
    omega

/-- A clear of an initialised store whose erases all succeed: the store counts no record
and no slot reads. -/
theorem DataStorage_Clear_ok (hal : FlashHal) (st : Storage)
    (hinit : st.mgr.initialized = true)
    (herase : ∀ addr ∈ clearSectorAddrs, hal.eraseOk addr = true) :
    (DataStorage_Clear hal st).2 = 0 ∧
      (DataStorage_Clear hal st).1.mgr.record_count = 0 ∧
      (DataStorage_Clear hal st).1.mgr.current_index = 0 ∧
      ∀ i, DataStorage_Read hal (DataStorage_Clear hal st).1 i = none := by
  obtain ⟨c1, c2⟩ := clearSectors_ok hal clearSectorAddrs st.flash herase
  have hclear : DataStorage_Clear hal st =
      ({ mgr :=
           { st.mgr with
             current_index := 0
             record_count := 0
             stats :=
               { st.mgr.stats with
                 stored_records := 0
                 uploaded_records := 0
                 failed_records := 0 } }
         flash := (clearSectors hal st.flash clearSectorAddrs).1 }, 0) := by
    simp [DataStorage_Clear, hinit, c1]
  rw [hclear]
  refine ⟨rfl, rfl, rfl, fun i => ?_⟩
  unfold DataStorage_Read
  by_cases hi : STORAGE_MAX_RECORDS ≤ i
  · simp [hi]
  · have herased := c2 i (Or.inl (clearSectorAddrs_cover i (by omega)))
    simp only [herased]
    have hmagic : StorageRecord.erased.header.magic ≠ STORAGE_MAGIC_NUMBER := by decide
    simp [hmagic]

/-- A scan of an initialised store with at least one record whose callback refuses every
record ends with the clear of the store. -/
theorem DataStorage_ProcessCached_refused {σ : Type} (hal : FlashHal) (st : Storage)
    (cb : σ → List Nat → σ × Int) (cs : σ) (hcb : ∀ d, cb cs d = (cs, -1))
    (hinit : st.mgr.initialized = true) (hk : 1 ≤ st.mgr.record_count) :
    (DataStorage_ProcessCached hal st (some cb) cs).storage = (DataStorage_Clear hal st).1 ∧
      (DataStorage_ProcessCached hal st (some cb) cs).processed_count = 0 := by
  have hproc : (scanAll hal st cb cs).processed_count = 0 :=
    (scan_refused hal st cb cs hcb (List.range st.mgr.record_count)
      { cb_state := cs, processed_count := 0, failed_count := 0, handed := [] } rfl).2
  have hcount := scan_counts hal st cb (List.range st.mgr.record_count)
    { cb_state := cs, processed_count := 0, failed_count := 0, handed := [] }
  rw [List.length_range] at hcount
  have hfail : 0 < (scanAll hal st cb cs).failed_count := by
    have h2 : (scanAll hal st cb cs).processed_count +
        (scanAll hal st cb cs).failed_count = st.mgr.record_count := by
      simpa [scanAll] using hcount
    omega
  simp only [DataStorage_ProcessCached, hinit, Bool.not_true, Bool.false_eq_true, if_false]
  rw [if_pos ⟨hfail, hproc⟩]
  exact ⟨rfl, hproc⟩

/-- C29: when `DataCache_Init` runs on a cache that is not initialised while the
initialised store counts at least one record and the sector erases succeed, the load
callback rejects every record handed to it (the scan loads 0 records), and after the
call the cache is initialised and empty and the store has been cleared: it counts no
record and no slot reads any more. -/
theorem init_discards_stored_records {α : Type} [Inhabited α] (cap : Nat)
    (convert : List Nat → α) (hal : FlashHal) (st : IotState α) (tick : Nat)
    (huninit : st.cache.g_cache_initialized = false)
    (hstore : st.storage.mgr.initialized = true)
    (hk : 1 ≤ st.storage.mgr.record_count)
    (herase : ∀ addr ∈ clearSectorAddrs, hal.eraseOk addr = true) :
    (DataStorage_ProcessCached hal st.storage (some (FlashDataLoadCallback cap convert tick))
        ({ g_data_cache := DataCache.zero, g_cache_initialized := false } :
          CacheState α)).processed_count = 0 ∧
      (DataCache_Init cap convert hal st tick).2 = 0 ∧
      (DataCache_Init cap convert hal st tick).1.cache.g_cache_initialized = true ∧
      (DataCache_Init cap convert hal st tick).1.cache.g_data_cache.count = 0 ∧
      (DataCache_Init cap convert hal st tick).1.storage.mgr.record_count = 0 ∧
      ∀ i, DataStorage_Read hal (DataCache_Init cap convert hal st tick).1.storage i = none := by
  have hcache := DataCache_Init_cache cap convert hal st tick huninit
  have hscan := DataStorage_ProcessCached_refused hal st.storage
    (FlashDataLoadCallback cap convert tick)
    ({ g_data_cache := DataCache.zero, g_cache_initialized := false } : CacheState α)
    (fun d => FlashDataLoadCallback_refused cap convert tick _ d rfl) hstore hk
  obtain ⟨k1, k2, _, k4⟩ := DataStorage_Clear_ok hal st.storage hstore herase
  have hstorage : (DataCache_Init cap convert hal st tick).1.storage =
      (DataStorage_Clear hal st.storage).1 := by
    simp only [DataCache_Init, huninit, Bool.false_eq_true, if_false, DataCache_LoadFromFlash]
    exact hscan.1
  have hret : (DataCache_Init cap convert hal st tick).2 = 0 := by
    simp [DataCache_Init, huninit]
  refine ⟨hscan.2, hret, ?_, ?_, ?_, ?_⟩
  · rw [hcache]
  · rw [hcache]; rfl
  · rw [hstorage]; exact k2
  · intro i; rw [hstorage]; exact k4 i

set_option maxRecDepth 100000 in
/-- C29 (witness): the cache initialised on the fresh store holding the one record
`[1, 2, 3]`, with a driver that never fails. -/
theorem init_discards_stored_records_witness :
    1 ≤ (DataStorage_Store FlashHal.ideal Storage.fresh (some [1, 2, 3]) 10).1.mgr.record_count ∧
      DataStorage_Read FlashHal.ideal
        (DataStorage_Store FlashHal.ideal Storage.fresh (some [1, 2, 3]) 10).1 0
        = some [1, 2, 3] ∧
      (DataCache_Init MAX_CACHE_SIZE (fun d => d) FlashHal.ideal
        { cache := { g_data_cache := DataCache.zero, g_cache_initialized := false }
          storage := (DataStorage_Store FlashHal.ideal Storage.fresh (some [1, 2, 3]) 10).1
          last_data_send_time := 0
          network_error_count := 0 } 50).1.cache.g_data_cache.count = 0 ∧
      (DataCache_Init MAX_CACHE_SIZE (fun d => d) FlashHal.ideal
        { cache := { g_data_cache := DataCache.zero, g_cache_initialized := false }
          storage := (DataStorage_Store FlashHal.ideal Storage.fresh (some [1, 2, 3]) 10).1
          last_data_send_time := 0
          network_error_count := 0 } 50).1.storage.mgr.record_count = 0 :=
  ⟨by decide, by decide,
    (init_discards_stored_records MAX_CACHE_SIZE (fun d => d) FlashHal.ideal
      { cache := { g_data_cache := DataCache.zero, g_cache_initialized := false }
        storage := (DataStorage_Store FlashHal.ideal Storage.fresh (some [1, 2, 3]) 10).1
        last_data_send_time := 0
        network_error_count := 0 } 50 rfl (by decide) (by decide)
      (fun _ _ => rfl)).2.2.2.1,
    (init_discards_stored_records MAX_CACHE_SIZE (fun d => d) FlashHal.ideal
      { cache := { g_data_cache := DataCache.zero, g_cache_initialized := false }
        storage := (DataStorage_Store FlashHal.ideal Storage.fresh (some [1, 2, 3]) 10).1
        last_data_send_time := 0
        network_error_count := 0 } 50 rfl (by decide) (by decide)
      (fun _ _ => rfl)).2.2.2.2.1⟩

/-- C23: in every cache state reached from the state `DataCache_Init` leaves by a
sequence of `DataCache_Add`, `DataCache_SendPending` and `DataCache_Clear` calls, a
`count` of 0 comes with `head` equal to `tail`. -/
theorem empty_cache_head_eq_tail {α : Type} [Inhabited α] (cap : Nat)
    (convert : List Nat → α) (hal : FlashHal) (st : IotState α) (tick : Nat)
    (ops : List (CacheOp α)) (hcap : 0 < cap)
    (huninit : st.cache.g_cache_initialized = false)
    (h0 : (runOps cap (CacheRun.start (DataCache_Init cap convert hal st tick).1.cache)
      ops).state.g_data_cache.count = 0) :
    (runOps cap (CacheRun.start (DataCache_Init cap convert hal st tick).1.cache)
        ops).state.g_data_cache.head =
      (runOps cap (CacheRun.start (DataCache_Init cap convert hal st tick).1.cache)
        ops).state.g_data_cache.tail := by
  have hstart := DataCache_Init_cache cap convert hal st tick huninit
  obtain ⟨_, hwf, _⟩ := runOps_history cap []
    (CacheRun.start (DataCache_Init cap convert hal st tick).1.cache) ops hcap
    ⟨by rw [hstart]; rfl, by rw [hstart]; exact CacheWF_zero cap hcap, [],
      by rw [hstart]; rfl, List.Sublist.refl _⟩
  obtain ⟨hh, _, ht, _⟩ := hwf
  rw [ht, h0, Nat.add_zero, Nat.mod_eq_of_lt hh]

/-- C23 (witness): at the capacity of the firmware, the cache initialised on an
uninitialised store, after an enqueue and a drain with the transport connected. -/
theorem empty_cache_head_eq_tail_witness :
    (runOps MAX_CACHE_SIZE
        (CacheRun.start (DataCache_Init MAX_CACHE_SIZE (fun d => d) FlashHal.ideal
          { cache := { g_data_cache := DataCache.zero, g_cache_initialized := false }
            storage := Storage.blank
            last_data_send_time := 0
            network_error_count := 0 } 5).1.cache)
        [CacheOp.add [7] 100, CacheOp.sendPending (fun _ => true)]).state.g_data_cache.count
        = 0 ∧
      (runOps MAX_CACHE_SIZE
        (CacheRun.start (DataCache_Init MAX_CACHE_SIZE (fun d => d) FlashHal.ideal
          { cache := { g_data_cache := DataCache.zero, g_cache_initialized := false }
            storage := Storage.blank
            last_data_send_time := 0
            network_error_count := 0 } 5).1.cache)
        [CacheOp.add [7] 100, CacheOp.sendPending (fun _ => true)]).state.g_data_cache.head
        = 1 ∧
      (runOps MAX_CACHE_SIZE
        (CacheRun.start (DataCache_Init MAX_CACHE_SIZE (fun d => d) FlashHal.ideal
          { cache := { g_data_cache := DataCache.zero, g_cache_initialized := false }
            storage := Storage.blank
            last_data_send_time := 0
            network_error_count := 0 } 5).1.cache)
        [CacheOp.add [7] 100, CacheOp.sendPending (fun _ => true)]).state.g_data_cache.tail
        = 1 :=
  ⟨by decide, by decide,
    (empty_cache_head_eq_tail MAX_CACHE_SIZE (fun d => d) FlashHal.ideal
      { cache := { g_data_cache := DataCache.zero, g_cache_initialized := false }
        storage := Storage.blank
        last_data_send_time := 0
        network_error_count := 0 } 5
      [CacheOp.add [7] 100, CacheOp.sendPending (fun _ => true)]
      (by decide) rfl (by decide)).symm.trans (by decide)⟩

/-! ## Theorems: the drain with the transport connected -/

/-- The send loop on a cache whose queued items are all valid with retries left, scanned
from the head while the transport answers connected: it hands the first `j` queued
payloads to the transport and removes them, where `j` is the smaller of the passes the
limit of 10 leaves and half the distance, rounded up, between `processed_count` and
`count`. -/
theorem sendLoop_connected {α : Type} (cap : Nat) (conn : Nat → Bool)
    (hconn : ∀ p, conn p = true) (fuel : Nat) (st : SendState α)
    (hcur : st.current_head = st.cache.head) (hh : st.cache.head < cap)
    (hc : st.cache.count ≤ cap)
    (hv : ∀ k, k < st.cache.count →
      (st.cache.items ((st.cache.head + k) % cap)).is_valid = true ∧
        (st.cache.items ((st.cache.head + k) % cap)).retry_count < MAX_RETRY_COUNT)
    (hfuel : 10 ≤ fuel + st.processed_count) :
    (sendLoop cap conn fuel st).sent =
        st.sent ++ (queueData cap st.cache).take
          (min (10 - st.processed_count) ((st.cache.count - st.processed_count + 1) / 2)) ∧
      (sendLoop cap conn fuel st).sent_count =
        st.sent_count +
          min (10 - st.processed_count) ((st.cache.count - st.processed_count + 1) / 2) ∧
      (sendLoop cap conn fuel st).cache.count =
        st.cache.count -
          min (10 - st.processed_count) ((st.cache.count - st.processed_count + 1) / 2) ∧
      queueData cap (sendLoop cap conn fuel st).cache =
        (queueData cap st.cache).drop
          (min (10 - st.processed_count) ((st.cache.count - st.processed_count + 1) / 2)) := by
  induction fuel generalizing st with
  | zero =>
    have h0 : min (10 - st.processed_count) ((st.cache.count - st.processed_count + 1) / 2) = 0 := by
      omega
    rw [h0]
    simp [sendLoop]
  | succ fuel ih =>
    unfold sendLoop
    by_cases hg : st.processed_count < st.cache.count ∧ st.processed_count < 10
    · rw [if_pos hg]
      have hpos : 0 < st.cache.count := by omega
      have hhead := hv 0 hpos
      rw [Nat.add_zero, Nat.mod_eq_of_lt hh] at hhead
      have hbody := sendBody_send cap conn st hcur hhead.1 hhead.2 (hconn _)
      rw [hbody]
      simp only [Bool.false_eq_true, if_false]
      have hcap : 0 < cap := by omega
      have hi : ∀ k, 0 < k → k < st.cache.count →
          setItem st.cache.items st.cache.head
              { st.cache.items st.cache.head with is_valid := false }
              ((st.cache.head + k) % cap) =
            st.cache.items ((st.cache.head + k) % cap) := by
        intro k hk0 hk
        apply setItem_other
        intro heq
        have h0 : (st.cache.head + 0) % cap = st.cache.head := by
          rw [Nat.add_zero, Nat.mod_eq_of_lt hh]
        have := slot_inj cap st.cache.head k 0 (by omega) hcap (by rw [heq, h0])
        omega
      have hq := queue_advance cap st.cache
        { st.cache with
          items := setItem st.cache.items st.cache.head
            { st.cache.items st.cache.head with is_valid := false }
          total_sent := (st.cache.total_sent + 1) % UINT32_MOD
          head := (st.cache.head + 1) % cap
          count := st.cache.count - 1 } hpos hh rfl rfl hi
      have hqd : queueData cap st.cache = (st.cache.items st.cache.head).data ::
          queueData cap
            { st.cache with
              items := setItem st.cache.items st.cache.head
                { st.cache.items st.cache.head with is_valid := false }
              total_sent := (st.cache.total_sent + 1) % UINT32_MOD
              head := (st.cache.head + 1) % cap
              count := st.cache.count - 1 } := by
        rw [queueData_cons cap st.cache hpos hh]
        congr 1
        rw [queueData_tail]
        unfold queueData
        rw [hq]
      have hj : min (10 - st.processed_count) ((st.cache.count - st.processed_count + 1) / 2) =
          min (10 - (st.processed_count + 1))
            ((st.cache.count - 1 - (st.processed_count + 1) + 1) / 2) + 1 := by
        omega
      obtain ⟨i1, i2, i3, i4⟩ := ih
        { cache :=
            { st.cache with
              items := setItem st.cache.items st.cache.head
                { st.cache.items st.cache.head with is_valid := false }
              total_sent := (st.cache.total_sent + 1) % UINT32_MOD
              head := (st.cache.head + 1) % cap
              count := st.cache.count - 1 }
          current_head := (st.cache.head + 1) % cap
          processed_count := st.processed_count + 1
          sent_count := st.sent_count + 1
          sent := st.sent ++ [(st.cache.items st.cache.head).data] }
        rfl (Nat.mod_lt _ hcap) (by show st.cache.count - 1 ≤ cap; omega)
        (by
          intro k hk
          have hk2 : k + 1 < st.cache.count := by
            have : k < st.cache.count - 1 := hk
            omega
          show (setItem st.cache.items st.cache.head
              { st.cache.items st.cache.head with is_valid := false }
              (((st.cache.head + 1) % cap + k) % cap)).is_valid = true ∧
            (setItem st.cache.items st.cache.head
              { st.cache.items st.cache.head with is_valid := false }
              (((st.cache.head + 1) % cap + k) % cap)).retry_count < MAX_RETRY_COUNT
          have hidx : ((st.cache.head + 1) % cap + k) % cap = (st.cache.head + (k + 1)) % cap := by
            rw [Nat.mod_add_mod, Nat.add_assoc, Nat.add_comm 1 k]
          rw [hidx, hi (k + 1) (by omega) hk2]
          exact hv (k + 1) hk2)
        (by show 10 ≤ fuel + (st.processed_count + 1); omega)
      simp only at i1 i2 i3 i4
      rw [hj]
      refine ⟨?_, ?_, ?_, ?_⟩
      · rw [i1, hqd, List.take_succ_cons, List.append_assoc, List.singleton_append]
      · rw [i2]; omega
      · rw [i3]; omega
      · rw [i4, hqd, List.drop_succ_cons]
    · rw [if_neg hg]
      have h0 : min (10 - st.processed_count)
          ((st.cache.count - st.processed_count + 1) / 2) = 0 := by
        omega
      rw [h0]
      simp

/-- C28: for every initialised cache whose `n` queued records are all valid with fewer
than `MAX_RETRY_COUNT` retries, a call of `DataCache_SendPending` during which the
transport answers connected hands the oldest `min 10 ((n + 1) / 2)` payloads to the
transport in their order, returns that number, and leaves the other queued records
queued in their order. -/
theorem drain_sends_half_up_to_ten {α : Type} (cap : Nat) (st : CacheState α)
    (conn : Nat → Bool) (hinit : st.g_cache_initialized = true)
    (hh : st.g_data_cache.head < cap) (hc : st.g_data_cache.count ≤ cap)
    (hv : ∀ k, k < st.g_data_cache.count →
      (st.g_data_cache.items ((st.g_data_cache.head + k) % cap)).is_valid = true ∧
        (st.g_data_cache.items ((st.g_data_cache.head + k) % cap)).retry_count <
          MAX_RETRY_COUNT)
    (hconn : ∀ p, conn p = true) :
    (DataCache_SendPending cap st conn).sent =
        (queueData cap st.g_data_cache).take (min 10 ((st.g_data_cache.count + 1) / 2)) ∧
      (DataCache_SendPending cap st conn).sent_count =
        min 10 ((st.g_data_cache.count + 1) / 2) ∧
      (DataCache_SendPending cap st conn).state.g_data_cache.count =
        st.g_data_cache.count - min 10 ((st.g_data_cache.count + 1) / 2) ∧
      queueData cap (DataCache_SendPending cap st conn).state.g_data_cache =
        (queueData cap st.g_data_cache).drop (min 10 ((st.g_data_cache.count + 1) / 2)) := by
  by_cases hpos : 0 < st.g_data_cache.count
  · rw [DataCache_SendPending_eq cap st conn hinit hpos]
    have := sendLoop_connected cap conn hconn 10 (SendState.start st.g_data_cache) rfl hh hc hv
      (by omega)
    simpa [SendState.start] using this
  · have h0 : st.g_data_cache.count = 0 := by omega
    simp [DataCache_SendPending, h0]

/-- C28 (witness): the three records B, C, D queued at the capacity of the firmware; the
drain sends two of them. -/
theorem drain_sends_half_up_to_ten_witness :
    (DataCache_SendPending MAX_CACHE_SIZE (runOps MAX_CACHE_SIZE CacheRun.init
        [.add 'B' 20, .add 'C' 30, .add 'D' 40]).state (fun _ => true)).sent_count = 2 ∧
      (DataCache_SendPending MAX_CACHE_SIZE (runOps MAX_CACHE_SIZE CacheRun.init
        [.add 'B' 20, .add 'C' 30, .add 'D' 40]).state (fun _ => true)).sent = ['B', 'C'] :=
  ⟨(drain_sends_half_up_to_ten MAX_CACHE_SIZE (runOps MAX_CACHE_SIZE CacheRun.init
        [.add 'B' 20, .add 'C' 30, .add 'D' 40]).state (fun _ => true)
      (by decide) (by decide) (by decide) (by decide) (fun _ => rfl)).2.1.trans (by decide),
    (drain_sends_half_up_to_ten MAX_CACHE_SIZE (runOps MAX_CACHE_SIZE CacheRun.init
        [.add 'B' 20, .add 'C' 30, .add 'D' 40]).state (fun _ => true)
      (by decide) (by decide) (by decide) (by decide) (fun _ => rfl)).1.trans (by decide)⟩

/-! ## Theorems: the connection status -/

/-- C22 (counterexample): an initialised state in which the session is up
(`mqttConnectFlag` 1, `mqtt_connected` true) and a call of `ConnectionStatus_Update`
whose own read of the driver reports the link down while the read inside
`check_wifi_connected` reports it up. With `wifi_connected` false beforehand both
`mqttConnectFlag` and `mqtt_connected` stay set; with `wifi_connected` true beforehand
`mqttConnectFlag` is cleared and `mqtt_connected` stays true. -/
theorem link_down_session_stays_up :
    ConnectionStatus_Update
        { basic_status := 0, check_basic_status := 1, linked := true, broker_ok := true,
          check_tick := 5000, tick := 5000 }
        { g_connection_status :=
            { mqtt_connected := true, wifi_connected := false, last_connect_time := 100,
              disconnect_count := 1, reconnect_count := 0 }
          mqttConnectFlag := true
          g_cache_initialized := true
          wifi_reconnect_attempts := 0
          last_wifi_reconnect_time := 4000
          last_basic_connected_time := 0 } =
      some
        { g_connection_status :=
            { mqtt_connected := true, wifi_connected := false, last_connect_time := 100,
              disconnect_count := 1, reconnect_count := 0 }
          mqttConnectFlag := true
          g_cache_initialized := true
          wifi_reconnect_attempts := 0
          last_wifi_reconnect_time := 4000
          last_basic_connected_time := 0 } ∧
      ConnectionStatus_Update
        { basic_status := 0, check_basic_status := 1, linked := true, broker_ok := true,
          check_tick := 5000, tick := 5000 }
        { g_connection_status :=
            { mqtt_connected := true, wifi_connected := true, last_connect_time := 100,
              disconnect_count := 0, reconnect_count := 0 }
          mqttConnectFlag := true
          g_cache_initialized := true
          wifi_reconnect_attempts := 0
          last_wifi_reconnect_time := 4000
          last_basic_connected_time := 0 } =
      some
        { g_connection_status :=
            { mqtt_connected := true, wifi_connected := false, last_connect_time := 100,
              disconnect_count := 1, reconnect_count := 0 }
          mqttConnectFlag := false
          g_cache_initialized := true
          wifi_reconnect_attempts := 0
          last_wifi_reconnect_time := 4000
          last_basic_connected_time := 0 } := by
  decide

/-- What `mqtt_is_connected` leaves alone, and what it answers when the read inside
`check_wifi_connected` reports the link down. -/
theorem mqtt_is_connected_spec (p : LinkProbe) (s : LinkState) :
    (mqtt_is_connected p s).1.g_connection_status = s.g_connection_status ∧
      (mqtt_is_connected p s).1.g_cache_initialized = s.g_cache_initialized ∧
      (mqtt_is_connected p s).1.mqttConnectFlag = (mqtt_is_connected p s).2 ∧
      (p.check_basic_status ≠ 1 → (mqtt_is_connected p s).2 = false) := by
  refine ⟨rfl, rfl, rfl, fun h => ?_⟩
  cases hf : s.mqttConnectFlag <;> simp [mqtt_is_connected, check_wifi_connected, h, hf]

/-- The part of `ConnectionStatus_Update` after the call of `mqtt_is_connected`, for a
link read as down: `s1` is the state and `mqtt_status` the answer of that call. -/
theorem ConnectionStatus_Update_down (p : LinkProbe) (s : LinkState)
    (hinit : s.g_cache_initialized = true) (hdown : p.basic_status ≠ 1) :
    ∃ s2, ConnectionStatus_Update p s = some s2 ∧
      s2.g_cache_initialized = true ∧
      s2.g_connection_status.wifi_connected = false ∧
      s2.g_connection_status.mqtt_connected = (mqtt_is_connected p s).2 ∧
      (s.g_connection_status.wifi_connected = true → s2.mqttConnectFlag = false) ∧
      ((mqtt_is_connected p s).2 = false → s2.mqttConnectFlag = false) := by
  obtain ⟨h1, h2, h3, _⟩ := mqtt_is_connected_spec p s
  have hw : decide (p.basic_status = 1) = false := by simpa using hdown
  unfold ConnectionStatus_Update
  simp only [hinit, Bool.not_true, Bool.false_eq_true, if_false, hw]
  generalize mqtt_is_connected p s = m at h1 h2 h3 ⊢
  rcases m with ⟨⟨⟨mc1, wc1, lct1, dc1, rc1⟩, flag1, init1, att1, lwr1, lbc1⟩, ms⟩
  simp only at h1 h2 h3
  subst h3
  rw [← h1]
  cases wc1 <;> cases mc1 <;> cases flag1 <;> simp <;> split_ifs <;> simp_all

/-- C22 (amended): for every connection state and all driver answers, a call of
`ConnectionStatus_Update` whose own read of the link is down returns, and after it
`ConnectionStatus_IsStable` is false; when the call gets past its initialisation guard,
`wifi_connected` is false after it, `mqttConnectFlag` is 0 if `wifi_connected` was true
before it, and, when the read inside `check_wifi_connected` reports the link down as
well, `mqttConnectFlag` is 0 and `mqtt_connected` false. -/
theorem link_down_forces_session_down (p : LinkProbe) (s : LinkState)
    (hdown : p.basic_status ≠ 1) :
    ∃ s2, ConnectionStatus_Update p s = some s2 ∧
      ConnectionStatus_IsStable s2 = false ∧
      (s.g_cache_initialized = true →
        s2.g_connection_status.wifi_connected = false ∧
          (s.g_connection_status.wifi_connected = true → s2.mqttConnectFlag = false) ∧
          (p.check_basic_status ≠ 1 →
            s2.mqttConnectFlag = false ∧ s2.g_connection_status.mqtt_connected = false)) := by
  cases hinit : s.g_cache_initialized
  · refine ⟨s, by simp [ConnectionStatus_Update, hinit],
      by simp [ConnectionStatus_IsStable, hinit], fun h => absurd h (by simp)⟩
  · obtain ⟨s2, hs2, i1, i2, i3, i4, i5⟩ := ConnectionStatus_Update_down p s hinit hdown
    refine ⟨s2, hs2, by simp [ConnectionStatus_IsStable, i1, i2], fun _ => ⟨i2, i4, ?_⟩⟩
    intro hc
    have hm := (mqtt_is_connected_spec p s).2.2.2 hc
    exact ⟨i5 hm, by rw [i3, hm]⟩

/-- C22 (witness): a connected, initialised state and a call both of whose reads report
the link down. -/
theorem link_down_forces_session_down_witness :
    ((0 : Int) ≠ 1) ∧
      ∃ s2, ConnectionStatus_Update
          { basic_status := 0, check_basic_status := 0, linked := false, broker_ok := true,
            check_tick := 5000, tick := 5000 }
          { g_connection_status :=
              { mqtt_connected := true, wifi_connected := true, last_connect_time := 100,
                disconnect_count := 0, reconnect_count := 0 }
            mqttConnectFlag := true
            g_cache_initialized := true
            wifi_reconnect_attempts := 0
            last_wifi_reconnect_time := 0
            last_basic_connected_time := 0 } = some s2 ∧
        ConnectionStatus_IsStable s2 = false ∧
        (true = true →
          s2.g_connection_status.wifi_connected = false ∧
            (true = true → s2.mqttConnectFlag = false) ∧
            ((0 : Int) ≠ 1 →
              s2.mqttConnectFlag = false ∧ s2.g_connection_status.mqtt_connected = false)) :=
  ⟨by decide,
    link_down_forces_session_down
      { basic_status := 0, check_basic_status := 0, linked := false, broker_ok := true,
        check_tick := 5000, tick := 5000 }
      { g_connection_status :=
          { mqtt_connected := true, wifi_connected := true, last_connect_time := 100,
            disconnect_count := 0, reconnect_count := 0 }
        mqttConnectFlag := true
        g_cache_initialized := true
        wifi_reconnect_attempts := 0
        last_wifi_reconnect_time := 0
        last_basic_connected_time := 0 } (by decide)⟩

/-! ## Theorems: the confidence of an assessment -/

/-- At most five plausibility checks can pass. -/
theorem EvaluateRisk_sensor_ok_count_le (d : SensorData) :
    EvaluateRisk_sensor_ok_count d ≤ 5 := by
  unfold EvaluateRisk_sensor_ok_count
  split_ifs <;> omega

/-- The consistency score lies between 0 and 1. -/
theorem EvaluateRisk_consistency_score_bounds (d : SensorData) :
    0 ≤ EvaluateRisk_consistency_score d ∧ EvaluateRisk_consistency_score d ≤ 1 := by
  unfold EvaluateRisk_consistency_score
  split_ifs <;> norm_num

/-- The uptime bonus lies between 0 and 0.1. -/
theorem EvaluateRisk_stability_score_bounds (current_time : Nat) :
    0 ≤ EvaluateRisk_stability_score current_time ∧
      EvaluateRisk_stability_score current_time ≤ 0.1 := by
  unfold EvaluateRisk_stability_score
  dsimp only
  split_ifs <;> norm_num

/-- The sum of the four confidence terms lies between 0 and 1. -/
theorem EvaluateRisk_confidence_sum_bounds (d : SensorData) (tick : Nat) :
    0 ≤ EvaluateRisk_confidence_sum d tick ∧ EvaluateRisk_confidence_sum d tick ≤ 1 := by
  have hc := EvaluateRisk_sensor_ok_count_le d
  have hc0 : (0 : ℚ) ≤ (EvaluateRisk_sensor_ok_count d : ℚ) := Nat.cast_nonneg _
  have hc5 : (EvaluateRisk_sensor_ok_count d : ℚ) ≤ 5 := by exact_mod_cast hc
  obtain ⟨hs0, hs1⟩ := EvaluateRisk_consistency_score_bounds d
  obtain ⟨ht0, ht1⟩ := EvaluateRisk_stability_score_bounds (tick % UINT32_MOD)
  unfold EvaluateRisk_confidence_sum
  norm_num at ht1 ⊢
  split_ifs <;> constructor <;> linarith

/-- C24: for every sensor sample and tick count, the confidence `EvaluateRisk` writes is
the sum of 0.3 for a valid sample, 0.4 times the share of the five plausibility checks
passed, 0.2 times the consistency score and the uptime bonus of at most 0.1, the clamp
never cuts it, and it lies between 0 and 1. -/
theorem confidence_in_unit_interval (d : SensorData) (tick : Nat) :
    EvaluateRisk_confidence d tick =
        (if d.data_valid then 0.3 else 0) +
          0.4 * ((EvaluateRisk_sensor_ok_count d : ℚ) / 5) +
          0.2 * EvaluateRisk_consistency_score d +
          EvaluateRisk_stability_score (tick % UINT32_MOD) ∧
      EvaluateRisk_sensor_ok_count d ≤ 5 ∧
      EvaluateRisk_stability_score (tick % UINT32_MOD) ≤ 0.1 ∧
      0 ≤ EvaluateRisk_confidence d tick ∧ EvaluateRisk_confidence d tick ≤ 1 := by
  obtain ⟨h0, h1⟩ := EvaluateRisk_confidence_sum_bounds d tick
  have he : EvaluateRisk_confidence d tick = EvaluateRisk_confidence_sum d tick := by
    unfold EvaluateRisk_confidence
    rw [if_neg (not_lt.mpr h1)]
  refine ⟨?_, EvaluateRisk_sensor_ok_count_le d,
    (EvaluateRisk_stability_score_bounds _).2, by rw [he]; exact h0, by rw [he]; exact h1⟩
  rw [he]
  unfold EvaluateRisk_confidence_sum
  ring

/-! ## Theorems: the tasks and the latch -/

/-- C25 (counterexample): a latch raised to High whose acknowledgment flag is set; one
pass of `AlarmTask` resets all three latch variables. -/
theorem alarm_task_resets_latch :
    AlarmTask_ack
        { confirmed_level := RISK_LEVEL_HIGH
          max_triggered_level := RISK_LEVEL_HIGH
          manual_reset_required := true
          g_alarm_acknowledged := true
          level_start_time := 1000 } =
      { confirmed_level := RISK_LEVEL_SAFE
        max_triggered_level := RISK_LEVEL_SAFE
        manual_reset_required := false
        g_alarm_acknowledged := false
        level_start_time := 1000 } ∧
      runSteps LatchState.init [.evaluate RISK_LEVEL_HIGH 1000, .command] =
        { confirmed_level := RISK_LEVEL_HIGH
          max_triggered_level := RISK_LEVEL_HIGH
          manual_reset_required := true
          g_alarm_acknowledged := true
          level_start_time := 1000 } := by
  decide

/-- C25 (amended): a pass of `AlarmTask` always leaves the acknowledgment flag clear and
`level_start_time` as it was; it leaves `confirmed_level`, `max_triggered_level` and
`manual_reset_required` unchanged when it finds the flag clear, or the latch idle
(`manual_reset_required` false and `max_triggered_level` at most Low); when it finds the
flag set and the latch engaged it sets them to Safe, Safe and false. -/
theorem alarm_task_latch_effect (s : LatchState) :
    (AlarmTask_ack s).g_alarm_acknowledged = false ∧
      (AlarmTask_ack s).level_start_time = s.level_start_time ∧
      (s.g_alarm_acknowledged = false ∨
          (s.manual_reset_required = false ∧ s.max_triggered_level ≤ RISK_LEVEL_LOW) →
        (AlarmTask_ack s).confirmed_level = s.confirmed_level ∧
          (AlarmTask_ack s).max_triggered_level = s.max_triggered_level ∧
          (AlarmTask_ack s).manual_reset_required = s.manual_reset_required) ∧
      (s.g_alarm_acknowledged = true →
        s.manual_reset_required = true ∨ RISK_LEVEL_LOW < s.max_triggered_level →
        (AlarmTask_ack s).confirmed_level = RISK_LEVEL_SAFE ∧
          (AlarmTask_ack s).max_triggered_level = RISK_LEVEL_SAFE ∧
          (AlarmTask_ack s).manual_reset_required = false) := by
  unfold AlarmTask_ack
  split_ifs with ha hb
  · refine ⟨rfl, rfl, ?_, fun _ _ => ⟨rfl, rfl, rfl⟩⟩
    rintro (h | ⟨h1, h2⟩)
    · rw [ha] at h
      exact absurd h (by decide)
    · rcases hb with hb | hb
      · rw [h1] at hb
        exact absurd hb (by decide)
      · rw [RiskLevel.le_iff] at h2
        rw [RiskLevel.lt_iff] at hb
        omega
  · exact ⟨rfl, rfl, fun _ => ⟨rfl, rfl, rfl⟩, fun _ h => absurd h hb⟩
  · exact ⟨by simpa using ha, rfl, fun _ => ⟨rfl, rfl, rfl⟩, fun h => absurd h ha⟩

/-- C26 (failing input): an assessment at High turns the system state from RUNNING to
WARNING, and the pass of `DataProcessingTask` that then reads WARNING leaves the loop
without refreshing the processed data; over three passes that read RUNNING, WARNING and
WARNING the task refreshes once and stops. -/
theorem warning_stops_data_processing :
    RiskEvaluationTask_system_state SYSTEM_STATE_RUNNING RISK_LEVEL_HIGH = SYSTEM_STATE_WARNING ∧
      DataProcessingTask_pass SYSTEM_STATE_WARNING SYSTEM_STATE_WARNING = false ∧
      DataProcessingTask_pass SYSTEM_STATE_RUNNING SYSTEM_STATE_WARNING = false ∧
      DataProcessingTask
        [(SYSTEM_STATE_RUNNING, SYSTEM_STATE_RUNNING),
         (SYSTEM_STATE_WARNING, SYSTEM_STATE_WARNING),
         (SYSTEM_STATE_WARNING, SYSTEM_STATE_WARNING)] = (1, true) := by
  decide

/-- C27 (failing input): the latch raised to High at 1000 and acknowledged; the tick at
Safe at 5000 changes the confirmed level from High to Safe and leaves `level_start_time`
at 1000. Likewise the latch raised to High at 1000 and to Medium at 2000: the tick at
Safe at 3000 changes the confirmed level from Medium to High and leaves
`level_start_time` at 2000. -/
theorem latched_change_keeps_start_time :
    (runEvents LatchState.init [.tick RISK_LEVEL_HIGH 1000, .ack]).confirmed_level
        = RISK_LEVEL_HIGH ∧
      (runEvents LatchState.init
        [.tick RISK_LEVEL_HIGH 1000, .ack, .tick RISK_LEVEL_SAFE 5000]).confirmed_level
        = RISK_LEVEL_SAFE ∧
      (runEvents LatchState.init
        [.tick RISK_LEVEL_HIGH 1000, .ack, .tick RISK_LEVEL_SAFE 5000]).level_start_time
        = 1000 ∧
      (runEvents LatchState.init
        [.tick RISK_LEVEL_HIGH 1000, .tick RISK_LEVEL_MEDIUM 2000]).confirmed_level
        = RISK_LEVEL_MEDIUM ∧
      (runEvents LatchState.init
        [.tick RISK_LEVEL_HIGH 1000, .tick RISK_LEVEL_MEDIUM 2000,
          .tick RISK_LEVEL_SAFE 3000]).confirmed_level = RISK_LEVEL_HIGH ∧
      (runEvents LatchState.init
        [.tick RISK_LEVEL_HIGH 1000, .tick RISK_LEVEL_MEDIUM 2000,
          .tick RISK_LEVEL_SAFE 3000]).level_start_time = 2000 := by
  decide

/-- A tick below Medium on an unlatched state leaves the latch unset and the worst level
as it was, and reports the old confirmed level or the raw level. -/
theorem EvaluateRisk_free (s : LatchState) (raw_level : RiskLevel) (tick : Nat)
    (h : ¬ RISK_LEVEL_MEDIUM ≤ raw_level) (hm : s.manual_reset_required = false) :
    (EvaluateRisk s raw_level tick).manual_reset_required = false ∧
      (EvaluateRisk s raw_level tick).max_triggered_level = s.max_triggered_level ∧
      ((EvaluateRisk s raw_level tick).confirmed_level = s.confirmed_level ∨
        (EvaluateRisk s raw_level tick).confirmed_level = raw_level) := by
  simp only [EvaluateRisk, if_neg h, hm, Bool.false_eq_true, if_false]
  split_ifs <;> simp [hm]

/-- A call of `EvaluateRisk` keeps the latch invariant: `manual_reset_required` is set
exactly when the worst level is at least Medium, the worst level is not Low, and a
confirmed level of at least Medium comes with `manual_reset_required`. -/
theorem EvaluateRisk_invariant (s : LatchState) (raw_level : RiskLevel) (tick : Nat)
    (h : (s.manual_reset_required = true ↔ RISK_LEVEL_MEDIUM ≤ s.max_triggered_level) ∧
      s.max_triggered_level ≠ RISK_LEVEL_LOW ∧
      (RISK_LEVEL_MEDIUM ≤ s.confirmed_level → s.manual_reset_required = true)) :
    ((EvaluateRisk s raw_level tick).manual_reset_required = true ↔
        RISK_LEVEL_MEDIUM ≤ (EvaluateRisk s raw_level tick).max_triggered_level) ∧
      (EvaluateRisk s raw_level tick).max_triggered_level ≠ RISK_LEVEL_LOW ∧
      (RISK_LEVEL_MEDIUM ≤ (EvaluateRisk s raw_level tick).confirmed_level →
        (EvaluateRisk s raw_level tick).manual_reset_required = true) := by
  obtain ⟨h1, h2, h3⟩ := h
  by_cases hr : RISK_LEVEL_MEDIUM ≤ raw_level
  · rw [EvaluateRisk_raise s raw_level tick hr]
    dsimp only
    refine ⟨?_, ?_, fun _ => rfl⟩
    · simp only [true_iff]
      split_ifs with hlt
      · exact hr
      · rw [RiskLevel.le_iff] at hr ⊢
        rw [RiskLevel.lt_iff] at hlt
        omega
    · split_ifs with hlt
      · intro he
        rw [he] at hr
        exact absurd hr (by decide)
      · exact h2
  · have hlt : raw_level < RISK_LEVEL_MEDIUM := by
      rw [RiskLevel.lt_iff]; rw [RiskLevel.le_iff] at hr; omega
    cases hm : s.manual_reset_required with
    | true =>
      cases ha : s.g_alarm_acknowledged with
      | true =>
        rw [EvaluateRisk_reset s raw_level tick hlt hm ha]
        dsimp only
        exact ⟨by decide, by decide, by decide⟩
      | false =>
        rw [EvaluateRisk_hold s raw_level tick hlt hm ha]
        dsimp only
        exact ⟨h1, h2, fun _ => hm⟩
    | false =>
      obtain ⟨e1, e2, e3⟩ := EvaluateRisk_free s raw_level tick hr hm
      rw [e1, e2]
      rw [hm] at h1 h3
      refine ⟨h1, h2, fun hx => ?_⟩
      rcases e3 with e3 | e3
      · rw [e3] at hx; exact h3 hx
      · rw [e3] at hx; exact absurd hx hr

/-- A pass of `AlarmTask` keeps the latch invariant. -/
theorem AlarmTask_ack_invariant (s : LatchState)
    (h : (s.manual_reset_required = true ↔ RISK_LEVEL_MEDIUM ≤ s.max_triggered_level) ∧
      s.max_triggered_level ≠ RISK_LEVEL_LOW ∧
      (RISK_LEVEL_MEDIUM ≤ s.confirmed_level → s.manual_reset_required = true)) :
    ((AlarmTask_ack s).manual_reset_required = true ↔
        RISK_LEVEL_MEDIUM ≤ (AlarmTask_ack s).max_triggered_level) ∧
      (AlarmTask_ack s).max_triggered_level ≠ RISK_LEVEL_LOW ∧
      (RISK_LEVEL_MEDIUM ≤ (AlarmTask_ack s).confirmed_level →
        (AlarmTask_ack s).manual_reset_required = true) := by
  unfold AlarmTask_ack
  split_ifs
  · dsimp only
    exact ⟨by decide, by decide, by decide⟩
  · exact h
  · exact h

/-- C30: in every latch state reachable from the initial state by calls of
`EvaluateRisk`, reset commands and passes of `AlarmTask`, `manual_reset_required` is set
exactly when `max_triggered_level` is at least Medium, `max_triggered_level` is never
Low, and a confirmed level of at least Medium implies `manual_reset_required`. -/
theorem latch_invariant (steps : List LatchStep) :
    ((runSteps LatchState.init steps).manual_reset_required = true ↔
        RISK_LEVEL_MEDIUM ≤ (runSteps LatchState.init steps).max_triggered_level) ∧
      (runSteps LatchState.init steps).max_triggered_level ≠ RISK_LEVEL_LOW ∧
      (RISK_LEVEL_MEDIUM ≤ (runSteps LatchState.init steps).confirmed_level →
        (runSteps LatchState.init steps).manual_reset_required = true) := by
  have key : ∀ (steps : List LatchStep) (s : LatchState),
      ((s.manual_reset_required = true ↔ RISK_LEVEL_MEDIUM ≤ s.max_triggered_level) ∧
        s.max_triggered_level ≠ RISK_LEVEL_LOW ∧
        (RISK_LEVEL_MEDIUM ≤ s.confirmed_level → s.manual_reset_required = true)) →
      (((runSteps s steps).manual_reset_required = true ↔
          RISK_LEVEL_MEDIUM ≤ (runSteps s steps).max_triggered_level) ∧
        (runSteps s steps).max_triggered_level ≠ RISK_LEVEL_LOW ∧
        (RISK_LEVEL_MEDIUM ≤ (runSteps s steps).confirmed_level →
          (runSteps s steps).manual_reset_required = true)) := by
    intro steps
    induction steps with
    | nil => intro s h; exact h
    | cons e es ih =>
      intro s h
      show _ ∧ _ ∧ _
      simp only [runSteps, List.foldl_cons]
      apply ih
      cases e with
      | evaluate raw_level time => exact EvaluateRisk_invariant s raw_level time h
      | command => exact h
      | alarm => exact AlarmTask_ack_invariant s h
  exact key steps LatchState.init ⟨by decide, by decide, by decide⟩

end LandslideMonitor
